import Mathlib

/-!
# Quiz-driven perfume recommendation: embedding of `quiz_service.go`

Shallow embedding of `backend/internal/services/quiz_service.go` and of the
part of `backend/internal/handlers/quiz_handler.go` that prepares the request.

Conventions of the embedding:

* Go `float64` scores and prices are exact rationals (`ℚ`); every constant of
  the source is written with the same decimal literal.  Bounds, orderings and
  the sequence of operations are stated on these definitions.
* The scoring functions are transcribed a second time, under names that end in
  `64`, with every literal and every operation rounded to binary64 (`f64`) and
  with the case table of `strings.ToLower` as the argument `unicode_ToLower`.
  Statements whose truth depends on the rounding (the exact value of a sum
  such as 0.6 + 0.3, the equality of two overall scores) are made on that
  transcription.
* Go `uint` identifiers are `Nat`; the `int` field `MaxResults` is `Int`
  (it may be negative), `Rank` is a `Nat` (it is always `i+1` for an index `i`).
* A Go call either returns a value, returns an error, or panics: `GoResult`.
* The repository call `perfumeRepo.GetAllWithRelations()` is made twice per
  request (once by `GetAdvancedRecommendations`, once by `getAlternatives`);
  the two outcomes are the explicit arguments `fetch₁` and `fetch₂`.
* `sort.Slice` belongs to the Go standard library; the service takes the sort
  routine as the argument `sortSlice`.  `SortSliceContract` is the documented
  contract of `sort.Slice`, and `sort_Slice` is the routine the standard
  library runs since Go 1.19 (pattern-defeating quicksort).
* Go ranges over a map in an unspecified order; the order in which
  `analyzePersonality` visits the keys of `scentScores` is the argument
  `rangeOrder`.
-/

namespace Quiz

/-! ## Data model (`internal/models/perfume.go`, `internal/models/quiz.go`) -/

/-- Aroma tag of `models.AromaTag` (timestamps and back-references left out). -/
structure AromaTag where
  ID : Nat
  Slug : String
  Name : String
  deriving DecidableEq, Repr

/-- Perfume record of `models.Perfume` with the fields the quiz service reads
or copies (timestamps, notes and image URL are never inspected by it). -/
structure Perfume where
  ID : Nat
  Name : String
  Brand : String
  Longevity : String
  Sillage : String
  Price : ℚ
  Description : String
  AromaTags : List AromaTag
  deriving DecidableEq, Repr

/-- Quiz preference record of `models.QuizPreferences`. -/
structure QuizPreferences where
  DailyWear : Bool
  SpecialEvents : Bool
  NightOut : Bool
  Work : Bool
  Dates : Bool
  Spring : Bool
  Summer : Bool
  Fall : Bool
  Winter : Bool
  YearRound : Bool
  LightFresh : Bool
  WarmSpicy : Bool
  SweetGourmand : Bool
  WoodyEarthy : Bool
  FloralRomantic : Bool
  CitrusEnergizing : Bool
  Longevity : String
  Sillage : String
  Projection : String
  Classic : Bool
  Modern : Bool
  Unique : Bool
  SafeBet : Bool
  PriceRange : String
  deriving DecidableEq, Repr

/-- Request record of `models.AdvancedRecommendationRequest`; the embedded
`QuizPreferences` is the field of the same name. -/
structure AdvancedRecommendationRequest where
  QuizPreferences : QuizPreferences
  CurrentSituation : String
  Season : String
  TimeOfDay : String
  DesiredImpression : String
  MaxResults : Int
  ExcludeIDs : List Nat
  deriving DecidableEq, Repr

/-- Scored candidate of `models.AdvancedRecommendationResult`. -/
structure AdvancedRecommendationResult where
  Perfume : Perfume
  OverallScore : ℚ
  ProfileMatch : ℚ
  SeasonMatch : ℚ
  OccasionMatch : ℚ
  PerformanceMatch : ℚ
  UniquenessBonus : ℚ
  MatchReasons : List String
  Warnings : List String
  BestFor : List String
  WearTiming : List String
  Longevity : String
  Projection : String
  Confidence : ℚ
  Rank : Nat
  deriving DecidableEq, Repr

/-- Personality record of `models.PersonalityAnalysis`. -/
structure PersonalityAnalysis where
  ScentPersonality : String
  KeyTraits : List String
  StyleDescription : String
  RecommendationStyle : String
  deriving DecidableEq, Repr

/-- Algorithm metadata of `models.RecommendationLogic`; the Go map `Weighting`
is the list of its key/value pairs. -/
structure RecommendationLogic where
  Algorithm : String
  FactorsConsidered : List String
  Weighting : List (String × ℚ)
  ProcessDescription : String
  deriving DecidableEq, Repr

/-- Response record of `models.AdvancedRecommendationResponse`. -/
structure AdvancedRecommendationResponse where
  Results : List AdvancedRecommendationResult
  PersonalityAnalysis : PersonalityAnalysis
  RecommendationLogic : RecommendationLogic
  Tips : List String
  Alternatives : List Perfume
  deriving DecidableEq, Repr

/-- Outcome of a Go call: a returned value, a returned `error`, or a run-time
panic. -/
inductive GoResult (α : Type) where
  | ret (val : α)
  | err (msg : String)
  | panic (msg : String)
  deriving DecidableEq, Repr

/-! ## Library functions of package `strings` -/

/-- Go `strings.ToLower` on the letters `A`..`Z`; other characters are kept. -/
def strings_ToLower (s : String) : String :=
  ⟨s.data.map Char.toLower⟩

/-- Test whether the first character list starts the second one. -/
def hasPrefixChars : List Char → List Char → Bool
  | [], _ => true
  | _ :: _, [] => false
  | c :: cs, d :: ds => c == d && hasPrefixChars cs ds

/-- Test whether `sub` occurs as a contiguous block of `s`. -/
def containsChars (sub : List Char) : List Char → Bool
  | [] => sub.isEmpty
  | c :: cs => hasPrefixChars sub (c :: cs) || containsChars sub cs

/-- Go `strings.Contains`. -/
def strings_Contains (s substr : String) : Bool :=
  containsChars substr.data s.data

/-- Go `strings.Join`. -/
def strings_Join (elems : List String) (sep : String) : String :=
  sep.intercalate elems

/-! ## Sub-scores (`quiz_service.go`, lines 309-460) -/

/-- Source `calculateProfileMatch`: the map `perfumeAromas` holds the
lower-cased tag names, a lookup is a membership test. -/
def calculateProfileMatch (perfume : Perfume) (pref : QuizPreferences) : ℚ :=
  let score : ℚ := 0.5
  let perfumeAromas : List String :=
    perfume.AromaTags.map (fun aroma => strings_ToLower aroma.Name)
  let has : String → Bool := fun key => perfumeAromas.contains key
  let score := if pref.LightFresh && (has "citrus" || has "fresh" || has "aquatic")
    then score + 0.2 else score
  let score := if pref.WarmSpicy && (has "spicy" || has "warm" || has "oriental")
    then score + 0.2 else score
  let score := if pref.SweetGourmand && (has "sweet" || has "vanilla" || has "gourmand")
    then score + 0.2 else score
  let score := if pref.WoodyEarthy && (has "woody" || has "earthy" || has "cedar")
    then score + 0.2 else score
  let score := if pref.FloralRomantic && (has "floral" || has "rose" || has "jasmine")
    then score + 0.2 else score
  let score := if pref.CitrusEnergizing && (has "citrus" || has "bergamot" || has "lemon")
    then score + 0.2 else score
  min score 1.0

/-- Source `calculateSeasonMatch`. -/
def calculateSeasonMatch (perfume : Perfume) (season : String) : ℚ :=
  let score : ℚ := 0.6
  let score :=
    if season = "spring" then
      if strings_Contains (strings_ToLower perfume.Description) "fresh" ||
          strings_Contains (strings_ToLower perfume.Description) "floral"
        then score + 0.3 else score
    else if season = "summer" then
      if strings_Contains (strings_ToLower perfume.Description) "light" ||
          strings_Contains (strings_ToLower perfume.Description) "citrus" ||
          strings_Contains (strings_ToLower perfume.Description) "aquatic"
        then score + 0.3 else score
    else if season = "fall" then
      if strings_Contains (strings_ToLower perfume.Description) "warm" ||
          strings_Contains (strings_ToLower perfume.Description) "spicy" ||
          strings_Contains (strings_ToLower perfume.Description) "woody"
        then score + 0.3 else score
    else if season = "winter" then
      if strings_Contains (strings_ToLower perfume.Description) "rich" ||
          strings_Contains (strings_ToLower perfume.Description) "deep" ||
          strings_Contains (strings_ToLower perfume.Description) "oriental"
        then score + 0.3 else score
    else score
  min score 1.0

/-- Source `calculateOccasionMatch`; the preference argument is unused there
as well. -/
def calculateOccasionMatch (perfume : Perfume) (occasion : String)
    (_pref : QuizPreferences) : ℚ :=
  let score : ℚ := 0.6
  let score :=
    if occasion = "work" then
      let score := if perfume.Sillage = "Light" ∨ perfume.Sillage = "Medium"
        then score + 0.3 else score
      if strings_Contains (strings_ToLower perfume.Brand) "professional" ||
          strings_Contains (strings_ToLower perfume.Description) "clean"
        then score + 0.1 else score
    else if occasion = "date" then
      if strings_Contains (strings_ToLower perfume.Description) "romantic" ||
          strings_Contains (strings_ToLower perfume.Description) "seductive"
        then score + 0.3 else score
    else if occasion = "casual" then
      if perfume.Price < 150 ∧ perfume.Sillage = "Light" then score + 0.3 else score
    else if occasion = "special" then
      if perfume.Price > 100 ∨ perfume.Sillage = "Heavy" then score + 0.3 else score
    else score
  min score 1.0

/-- Source `calculatePerformanceMatch`. -/
def calculatePerformanceMatch (perfume : Perfume) (pref : QuizPreferences) : ℚ :=
  let score : ℚ := 0.5
  let score :=
    if pref.Longevity = "light" then
      if perfume.Longevity = "Light" then score + 0.3 else score
    else if pref.Longevity = "medium" then
      if perfume.Longevity = "Medium" then score + 0.3 else score
    else if pref.Longevity = "long" then
      if perfume.Longevity = "Long" ∨ perfume.Longevity = "Very Long"
        then score + 0.3 else score
    else score
  let score :=
    if pref.Sillage = "subtle" then
      if perfume.Sillage = "Light" then score + 0.2 else score
    else if pref.Sillage = "moderate" then
      if perfume.Sillage = "Medium" then score + 0.2 else score
    else if pref.Sillage = "heavy" then
      if perfume.Sillage = "Heavy" ∨ perfume.Sillage = "Very Heavy"
        then score + 0.2 else score
    else score
  min score 1.0

/-- Source `calculateUniquenessBonus`. -/
def calculateUniquenessBonus (perfume : Perfume) (pref : QuizPreferences) : ℚ :=
  if pref.Unique then
    if perfume.Price > 200 then 0.8 else 0.6
  else if pref.SafeBet ∧ perfume.Price < 100 then 0.7
  else 0.5

/-! ## Personality analysis (`quiz_service.go`, lines 136-224) -/

/-- Lookup in a Go map held as a list of key/value pairs; a missing key gives
the zero value. -/
def mapGet (m : List (String × ℚ)) (key : String) : ℚ :=
  (m.lookup key).getD 0

/-- The map `scentScores` of `analyzePersonality` after the six increments. -/
def scentScores (pref : QuizPreferences) : List (String × ℚ) :=
  [("light_fresh", if pref.LightFresh then 0 + 1 else 0),
   ("warm_spicy", if pref.WarmSpicy then 0 + 1 else 0),
   ("sweet_gourmand", if pref.SweetGourmand then 0 + 1 else 0),
   ("woody_earthy", if pref.WoodyEarthy then 0 + 1 else 0),
   ("floral_romantic", if pref.FloralRomantic then 0 + 1 else 0),
   ("citrus_energizing", if pref.CitrusEnergizing then 0 + 1 else 0)]

/-- The loop "find dominant scent profile" of `analyzePersonality`: the keys
are visited in the order `rangeOrder`, the state is `(maxScore, scentProfile)`. -/
def dominantScentProfile (scores : List (String × ℚ)) (rangeOrder : List String) :
    ℚ × List String :=
  rangeOrder.foldl
    (fun st profile =>
      let score := mapGet scores profile
      if score > st.1 then (score, [profile]) else st)
    (0, [])

/-- Source `getStyleDescription`; the argument `scentProfile` is unused there
as well. -/
def getStyleDescription (personality : String) (_scentProfile : List String) : String :=
  let descriptions : List (String × String) :=
    [("The Romantic Elegant",
        "You appreciate classic, romantic fragrances that exude elegance and grace."),
     ("The Adventurous Explorer",
        "You love unique, unconventional scents that tell a story and make a statement."),
     ("The Modern Professional",
        "You prefer clean, contemporary fragrances that project success and refinement."),
     ("The Creative Soul",
        "You're drawn to artistic, complex compositions that inspire creativity and individuality."),
     ("The Natural Spirit",
        "You love earthy, natural scents that connect you to nature and create a sense of peace."),
     ("The Charismatic Socialite",
        "You enjoy bright, alluring fragrances that make you memorable and draw people in.")]
  match descriptions.lookup personality with
  | some desc => desc
  | none => "You have unique preferences that deserve special consideration."

/-- The `switch` of `analyzePersonality`: archetype label and trait triple. -/
def personalityAndTraits (pref : QuizPreferences) : String × List String :=
  if pref.FloralRomantic && pref.SweetGourmand then
    ("The Romantic Elegant", ["Sophisticated", "Charming", "Timeless"])
  else if pref.WarmSpicy && pref.Unique then
    ("The Adventurous Explorer", ["Bold", "Curious", "Free-spirited"])
  else if pref.CitrusEnergizing && pref.Work then
    ("The Modern Professional", ["Confident", "Sophisticated", "Ambitious"])
  else if pref.WoodyEarthy && pref.Unique then
    ("The Creative Soul", ["Artistic", "Expressive", "Unique"])
  else if pref.LightFresh && pref.DailyWear then
    ("The Natural Spirit", ["Grounded", "Authentic", "Harmonious"])
  else
    ("The Charismatic Socialite", ["Magnetic", "Energetic", "Sociable"])

/-- Source `analyzePersonality`. -/
def analyzePersonality (rangeOrder : List String) (pref : QuizPreferences) :
    PersonalityAnalysis :=
  let scentProfile := (dominantScentProfile (scentScores pref) rangeOrder).2
  let personality := (personalityAndTraits pref).1
  let traits := (personalityAndTraits pref).2
  { ScentPersonality := personality
    KeyTraits := traits
    StyleDescription := getStyleDescription personality scentProfile
    RecommendationStyle :=
      "Based on your " ++ personality ++
        " personality, we recommend fragrances that reflect your " ++
        strings_ToLower (strings_Join traits ", ") ++ " nature." }

/-! ## Candidate filter and scoring (`quiz_service.go`, lines 226-307, 462-530) -/

/-- Source `getCandidatePerfumes`; `fetched` is what
`perfumeRepo.GetAllWithRelations()` returned to this call. -/
def getCandidatePerfumes (fetched : Except String (List Perfume))
    (req : AdvancedRecommendationRequest) : Except String (List Perfume) :=
  match fetched with
  | .error err => .error err
  | .ok perfumes =>
    if req.ExcludeIDs.length > 0 then
      let filtered := perfumes.foldl
        (fun (filtered : List Perfume) perfume =>
          let excluded := req.ExcludeIDs.any (fun id => perfume.ID == id)
          if !excluded then filtered ++ [perfume] else filtered)
        []
      .ok filtered
    else .ok perfumes

/-- Source `getCurrentSeason`. -/
def getCurrentSeason : String := "current season"

/-- Source `generateMatchReasons`. -/
def generateMatchReasons (perfume : Perfume) (profileMatch seasonMatch occasionMatch : ℚ)
    (_pref : QuizPreferences) : List String :=
  let reasons : List String := []
  let reasons := if profileMatch > 0.7
    then reasons ++ ["Perfect match for your scent preferences"] else reasons
  let reasons := if seasonMatch > 0.7
    then reasons ++ ["Ideal for " ++ getCurrentSeason ++ " weather"] else reasons
  let reasons := if occasionMatch > 0.7
    then reasons ++ ["Perfect for your intended occasion"] else reasons
  let reasons := if perfume.Price < 100
    then reasons ++ ["Great value for your budget"] else reasons
  let reasons := if perfume.Longevity = "Long" ∨ perfume.Longevity = "Very Long"
    then reasons ++ ["Long-lasting fragrance"] else reasons
  if reasons.length = 0 then reasons ++ ["Interesting option worth exploring"] else reasons

/-- Source `getBestFor`. -/
def getBestFor (_perfume : Perfume) (pref : QuizPreferences) : List String :=
  let bestFor : List String := []
  let bestFor := if pref.Work then bestFor ++ ["Office Wear"] else bestFor
  let bestFor := if pref.Dates then bestFor ++ ["Date Nights"] else bestFor
  let bestFor := if pref.SpecialEvents then bestFor ++ ["Special Events"] else bestFor
  let bestFor := if pref.DailyWear then bestFor ++ ["Daily Wear"] else bestFor
  if bestFor.length = 0 then bestFor ++ ["Versatile Wear"] else bestFor

/-- Source `getWearTiming`. -/
def getWearTiming (perfume : Perfume) (pref : QuizPreferences) : List String :=
  let timing : List String := []
  let timing := if pref.Longevity = "light"
    then timing ++ ["Reapply during the day"] else timing
  let timing := if pref.Longevity = "long" then timing ++ ["Lasts all day"] else timing
  let timing := if perfume.Sillage = "Heavy" then timing ++ ["Apply sparingly"] else timing
  if timing.length = 0 then timing ++ ["Apply to pulse points"] else timing

/-- Source `scoreSinglePerfume`. -/
def scoreSinglePerfume (perfume : Perfume) (req : AdvancedRecommendationRequest)
    (_personality : PersonalityAnalysis) (rank : Nat) : AdvancedRecommendationResult :=
  let profileMatch := calculateProfileMatch perfume req.QuizPreferences
  let seasonMatch := calculateSeasonMatch perfume req.Season
  let occasionMatch := calculateOccasionMatch perfume req.CurrentSituation req.QuizPreferences
  let performanceMatch := calculatePerformanceMatch perfume req.QuizPreferences
  let uniquenessBonus := calculateUniquenessBonus perfume req.QuizPreferences
  let overallScore := (profileMatch * 0.4) + (seasonMatch * 0.2) + (occasionMatch * 0.2) +
    (performanceMatch * 0.1) + (uniquenessBonus * 0.1)
  let matchReasons :=
    generateMatchReasons perfume profileMatch seasonMatch occasionMatch req.QuizPreferences
  let bestFor := getBestFor perfume req.QuizPreferences
  let wearTiming := getWearTiming perfume req.QuizPreferences
  { Perfume := perfume
    OverallScore := overallScore
    ProfileMatch := profileMatch
    SeasonMatch := seasonMatch
    OccasionMatch := occasionMatch
    PerformanceMatch := performanceMatch
    UniquenessBonus := uniquenessBonus
    MatchReasons := matchReasons
    Warnings := []
    BestFor := bestFor
    WearTiming := wearTiming
    Longevity := perfume.Longevity
    Projection := perfume.Sillage
    Confidence := min (overallScore + 0.1) 1.0
    Rank := rank }

/-- Source `scorePerfumes`: the loop appends the score of the perfume at index
`i` with rank `i+1`. -/
def scorePerfumes (perfumes : List Perfume) (req : AdvancedRecommendationRequest)
    (personality : PersonalityAnalysis) : List AdvancedRecommendationResult :=
  perfumes.enum.foldl
    (fun (results : List AdvancedRecommendationResult) ip =>
      results ++ [scoreSinglePerfume ip.2 req personality (ip.1 + 1)])
    []

/-- Source `generateTips`. -/
def generateTips (_personality : PersonalityAnalysis) (pref : QuizPreferences) : List String :=
  let tips : List String := []
  let tips := tips ++ ["Apply fragrance to pulse points for better longevity"]
  let tips := if pref.Work
    then tips ++ ["Choose subtle scents for professional environments"] else tips
  let tips := if pref.Dates
    then tips ++ ["Apply 30 minutes before your date for optimal effect"] else tips
  let tips := if pref.Unique
    then tips ++ ["Layer with unscented lotion to make unique fragrances last longer"] else tips
  tips ++ ["Store fragrances in a cool, dark place to preserve quality"]

/-- Source `getAlternatives`; `fetched` is what the repository returned to the
call of `getCandidatePerfumes` made here. -/
def getAlternatives (fetched : Except String (List Perfume))
    (results : List AdvancedRecommendationResult) (req : AdvancedRecommendationRequest) :
    List Perfume :=
  match getCandidatePerfumes fetched req with
  | .error _ => []
  | .ok alternatives =>
    alternatives.foldl
      (fun (alts : List Perfume) alt =>
        let inResults := results.any (fun res => alt.ID == res.Perfume.ID)
        if !inResults && alts.length < 3 then alts ++ [alt] else alts)
      []

/-! ## Ranking and response assembly (`quiz_service.go`, lines 29-72) -/

/-- The `less` closure handed to `sort.Slice`: higher overall score first. -/
def lessByScore (a b : AdvancedRecommendationResult) : Bool :=
  a.OverallScore > b.OverallScore

/-- Stability of a ranking: of two results with the same overall score the
earlier one has the smaller `Rank`, the position `scorePerfumes` gave it in
the candidate list. -/
def rankingStable (results : List AdvancedRecommendationResult) : Prop :=
  results.Pairwise (fun a b => a.OverallScore = b.OverallScore → a.Rank < b.Rank)

/-- Go slice expression `s[:n]` for an index already known to be below
`len(s)`: a negative bound panics at run time. -/
def sliceTo {α : Type} (s : List α) (n : Int) : GoResult (List α) :=
  if n < 0 then .panic "runtime error: slice bounds out of range"
  else .ret (s.take n.toNat)

/-- The fixed metadata block of the response. -/
def recommendationLogic : RecommendationLogic :=
  { Algorithm := "Multi-Factor Advanced Recommendation v2.0"
    FactorsConsidered := ["Profile Match", "Season Suitability", "Occasion Appropriateness",
      "Performance Match", "Uniqueness Bonus"]
    Weighting := [("profile", 0.4), ("season", 0.2), ("occasion", 0.2),
      ("performance", 0.1), ("uniqueness", 0.1)]
    ProcessDescription := "Our algorithm analyzes your personality traits, scent preferences, and usage patterns to find perfect matches from our database of 940+ perfumes." }

/-- Source `QuizService.GetAdvancedRecommendations`. -/
def GetAdvancedRecommendations
    (sortSlice : (AdvancedRecommendationResult → AdvancedRecommendationResult → Bool) →
      List AdvancedRecommendationResult → List AdvancedRecommendationResult)
    (rangeOrder : List String) (fetch₁ fetch₂ : Except String (List Perfume))
    (req : AdvancedRecommendationRequest) : GoResult AdvancedRecommendationResponse :=
  let personality := analyzePersonality rangeOrder req.QuizPreferences
  match getCandidatePerfumes fetch₁ req with
  | .error err => .err ("failed to get candidate perfumes: " ++ err)
  | .ok perfumes =>
    let results := scorePerfumes perfumes req personality
    let results := sortSlice lessByScore results
    let limited : GoResult (List AdvancedRecommendationResult) :=
      if (results.length : Int) > req.MaxResults then sliceTo results req.MaxResults
      else .ret results
    match limited with
    | .panic msg => .panic msg
    | .err msg => .err msg
    | .ret results =>
      let tips := generateTips personality req.QuizPreferences
      let alternatives := getAlternatives fetch₂ results req
      .ret { Results := results
             PersonalityAnalysis := personality
             RecommendationLogic := recommendationLogic
             Tips := tips
             Alternatives := alternatives }

/-! ## HTTP handler (`quiz_handler.go`, lines 23-48) -/

/-- What the handler writes with `c.JSON`. -/
inductive HandlerReply where
  | ok200 (response : AdvancedRecommendationResponse)
  | error500 (error details : String)
  deriving DecidableEq, Repr

/-- Source `QuizHandler.GetAdvancedRecommendations` from the point where the
JSON body has been bound to `req`. -/
def QuizHandler_GetAdvancedRecommendations
    (sortSlice : (AdvancedRecommendationResult → AdvancedRecommendationResult → Bool) →
      List AdvancedRecommendationResult → List AdvancedRecommendationResult)
    (rangeOrder : List String) (fetch₁ fetch₂ : Except String (List Perfume))
    (req : AdvancedRecommendationRequest) : GoResult HandlerReply :=
  let req := if req.MaxResults = 0 then { req with MaxResults := 6 } else req
  match GetAdvancedRecommendations sortSlice rangeOrder fetch₁ fetch₂ req with
  | .err err => .ret (.error500 "Failed to generate recommendations" err)
  | .panic msg => .panic msg
  | .ret response => .ret (.ok200 response)


/-! ## `sort.Slice` of the Go standard library

The service sorts with `sort.Slice`.  Its documentation promises a sorted
rearrangement and states that the sort is not guaranteed to be stable.
`SortSliceContract` is that promise; `sort_Slice` transcribes the routine
behind it since Go 1.19 (`pdqsort_func` and its helpers in package `sort`),
acting on the slice through `Less(i, j)` and `Swap(i, j)` on indices. -/

/-- Documented contract of `sort.Slice`: for a `less` that is a strict weak
ordering the outcome is a rearrangement of the slice in which no later element
is less than an earlier one. -/
def SortSliceContract {α : Type} (sortSlice : (α → α → Bool) → List α → List α) : Prop :=
  ∀ (less : α → α → Bool) (data : List α),
    (∀ a b, less a b = true → less b a = false) →
    (∀ a b c, less a b = false → less b c = false → less a c = false) →
    (sortSlice less data).Perm data ∧
      (sortSlice less data).Pairwise (fun a b => less b a = false)

/-- Go `data.Swap(i, j)`. -/
def swapAt {α : Type} (data : List α) (i j : Nat) : List α :=
  match data[i]?, data[j]? with
  | some x, some y => (data.set i y).set j x
  | _, _ => data

/-- Go `data.Less(i, j)`: the `less` closure on the elements at `i` and `j`. -/
def lessAt {α : Type} (less : α → α → Bool) (data : List α) (i j : Nat) : Bool :=
  match data[i]?, data[j]? with
  | some x, some y => less x y
  | _, _ => false

/-- Inner loop of `insertionSort_func`:
`for j := i; j > a && data.Less(j, j-1); j-- { data.Swap(j, j-1) }`. -/
def insertionSortInner {α : Type} (less : α → α → Bool) (a : Nat) : Nat → List α → List α
  | 0, data => data
  | j + 1, data =>
    if j + 1 > a && lessAt less data (j + 1) j then
      insertionSortInner less a j (swapAt data (j + 1) j)
    else data

/-- Outer loop of `insertionSort_func`, `steps` iterations starting at index `i`. -/
def insertionSortOuter {α : Type} (less : α → α → Bool) (a : Nat) :
    (steps : Nat) → (i : Nat) → List α → List α
  | 0, _, data => data
  | steps + 1, i, data =>
    insertionSortOuter less a steps (i + 1) (insertionSortInner less a i data)

/-- Go `insertionSort_func(data, a, b)`: sorts `data[a:b]` by insertion. -/
def insertionSort_func {α : Type} (less : α → α → Bool) (data : List α) (a b : Nat) : List α :=
  insertionSortOuter less a (b - (a + 1)) (a + 1) data

/-- Go `siftDown_func(data, lo, hi, first)`; `root` starts at `lo`, the loop
runs at most `fuel` times (`root` grows each time and stays below `hi`). -/
def siftDown_func {α : Type} (less : α → α → Bool) (hi first : Nat) :
    (fuel : Nat) → (root : Nat) → List α → List α
  | 0, _, data => data
  | fuel + 1, root, data =>
    let child := 2 * root + 1
    if child ≥ hi then data
    else
      let child :=
        if child + 1 < hi && lessAt less data (first + child) (first + child + 1)
        then child + 1 else child
      if !lessAt less data (first + root) (first + child) then data
      else siftDown_func less hi first fuel child (swapAt data (first + root) (first + child))

/-- Go `heapSort_func(data, a, b)`. -/
def heapSort_func {α : Type} (less : α → α → Bool) (data : List α) (a b : Nat) : List α :=
  let first := a
  let lo := 0
  let hi := b - a
  let data := (List.range ((hi - 1) / 2 + 1)).reverse.foldl
    (fun data i => siftDown_func less hi first hi i data) data
  (List.range hi).reverse.foldl
    (fun data i => siftDown_func less i first hi lo (swapAt data first (first + i))) data

/-- Loop `for i <= j && cond(i) { i++ }`. -/
def scanUp (cond : Nat → Bool) : (fuel : Nat) → (i j : Nat) → Nat
  | 0, i, _ => i
  | fuel + 1, i, j => if i ≤ j && cond i then scanUp cond fuel (i + 1) j else i

/-- Loop `for i <= j && cond(j) { j-- }`. -/
def scanDown (cond : Nat → Bool) : (fuel : Nat) → (i j : Nat) → Nat
  | 0, _, j => j
  | fuel + 1, i, j => if i ≤ j && cond j then scanDown cond fuel i (j - 1) else j

/-- Main loop of `partition_func`; the state is `(data, i, j)`. -/
def partitionLoop {α : Type} (less : α → α → Bool) (a b : Nat) :
    (fuel : Nat) → List α → Nat → Nat → List α × Nat × Nat
  | 0, data, i, j => (data, i, j)
  | fuel + 1, data, i, j =>
    let i := scanUp (fun i => lessAt less data i a) b i j
    let j := scanDown (fun j => !lessAt less data j a) b i j
    if i > j then (data, i, j)
    else partitionLoop less a b fuel (swapAt data i j) (i + 1) (j - 1)

/-- Go `partition_func(data, a, b, pivot)`: one quicksort partition; gives the
slice, the new pivot index and `alreadyPartitioned`. -/
def partition_func {α : Type} (less : α → α → Bool) (data : List α) (a b pivot : Nat) :
    List α × Nat × Bool :=
  let data := swapAt data a pivot
  let i := a + 1
  let j := b - 1
  let i := scanUp (fun i => lessAt less data i a) b i j
  let j := scanDown (fun j => !lessAt less data j a) b i j
  if i > j then (swapAt data j a, j, true)
  else
    let data := swapAt data i j
    let st := partitionLoop less a b b data (i + 1) (j - 1)
    (swapAt st.1 st.2.2 a, st.2.2, false)

/-- Main loop of `partitionEqual_func`; the state is `(data, i, j)`. -/
def partitionEqualLoop {α : Type} (less : α → α → Bool) (a b : Nat) :
    (fuel : Nat) → List α → Nat → Nat → List α × Nat × Nat
  | 0, data, i, j => (data, i, j)
  | fuel + 1, data, i, j =>
    let i := scanUp (fun i => !lessAt less data a i) b i j
    let j := scanDown (fun j => lessAt less data a j) b i j
    if i > j then (data, i, j)
    else partitionEqualLoop less a b fuel (swapAt data i j) (i + 1) (j - 1)

/-- Go `partitionEqual_func(data, a, b, pivot)`. -/
def partitionEqual_func {α : Type} (less : α → α → Bool) (data : List α) (a b pivot : Nat) :
    List α × Nat :=
  let data := swapAt data a pivot
  let st := partitionEqualLoop less a b b data (a + 1) (b - 1)
  (st.1, st.2.1)

/-- Loop `for j := i - 1; j >= 1; j--` of `partialInsertionSort_func`
(shift the smaller one to the left). -/
def shiftLeft {α : Type} (less : α → α → Bool) : (j : Nat) → List α → List α
  | 0, data => data
  | j + 1, data =>
    if !lessAt less data (j + 1) j then data
    else shiftLeft less j (swapAt data (j + 1) j)

/-- Loop `for j := i + 1; j < b; j++` of `partialInsertionSort_func`
(shift the greater one to the right). -/
def shiftRight {α : Type} (less : α → α → Bool) (b : Nat) :
    (fuel : Nat) → (j : Nat) → List α → List α
  | 0, _, data => data
  | fuel + 1, j, data =>
    if j < b then
      if !lessAt less data j (j - 1) then data
      else shiftRight less b fuel (j + 1) (swapAt data j (j - 1))
    else data

/-- Go `partialInsertionSort_func(data, a, b)`; `steps` counts the remaining
rounds of the loop `for j := 0; j < maxSteps; j++`. -/
def partialInsertionSortLoop {α : Type} (less : α → α → Bool) (a b : Nat) :
    (steps : Nat) → (i : Nat) → List α → List α × Bool
  | 0, _, data => (data, false)
  | steps + 1, i, data =>
    let i := scanUp (fun i => !lessAt less data i (i - 1)) b i (b - 1)
    if i = b then (data, true)
    else if b - a < 50 then (data, false)
    else
      let data := swapAt data i (i - 1)
      let data := if i - a ≥ 2 then shiftLeft less (i - 1) data else data
      let data := if b - i ≥ 2 then shiftRight less b b (i + 1) data else data
      partialInsertionSortLoop less a b steps i data

/-- Go `partialInsertionSort_func(data, a, b)` with `maxSteps = 5` and
`shortestShifting = 50`. -/
def partialInsertionSort_func {α : Type} (less : α → α → Bool) (data : List α) (a b : Nat) :
    List α × Bool :=
  partialInsertionSortLoop less a b 5 (a + 1) data

/-- Go `bits.Len`. -/
def bits_Len (n : Nat) : Nat :=
  if n = 0 then 0 else Nat.log2 n + 1

/-- Go `xorshift.Next` on a 64-bit state: gives the new state, which is also
the value returned. -/
def xorshift_Next (r : Nat) : Nat :=
  let r := Nat.xor r ((r <<< 13) % 2 ^ 64)
  let r := Nat.xor r (r >>> 7)
  Nat.xor r ((r <<< 17) % 2 ^ 64)

/-- Go `nextPowerOfTwo`. -/
def nextPowerOfTwo (length : Nat) : Nat :=
  (1 <<< bits_Len length) % 2 ^ 64

/-- Go `breakPatterns_func(data, a, b)`. -/
def breakPatterns_func {α : Type} (data : List α) (a b : Nat) : List α :=
  let length := b - a
  if length ≥ 8 then
    let modulus := nextPowerOfTwo length
    let idx := a + (length / 4) * 2 - 1
    let st := (List.range 3).foldl
      (fun (st : Nat × List α) i =>
        let random := xorshift_Next st.1
        let other := Nat.land random (modulus - 1)
        let other := if other ≥ length then other - length else other
        (random, swapAt st.2 (idx - 1 + i) (a + other)))
      (length, data)
    st.2
  else data

/-- Hint of `choosePivot_func` about the order of the slice. -/
inductive sortedHint where
  | unknownHint
  | increasingHint
  | decreasingHint
  deriving DecidableEq, Repr

/-- Go `order2_func(data, a, b, swaps)`; gives the two indices and the counter. -/
def order2_func {α : Type} (less : α → α → Bool) (data : List α) (a b swaps : Nat) :
    Nat × Nat × Nat :=
  if lessAt less data b a then (b, a, swaps + 1) else (a, b, swaps)

/-- Go `median_func(data, a, b, c, swaps)`; gives the median index and the
counter. -/
def median_func {α : Type} (less : α → α → Bool) (data : List α) (a b c swaps : Nat) :
    Nat × Nat :=
  let r := order2_func less data a b swaps
  let a := r.1
  let b := r.2.1
  let r := order2_func less data b c r.2.2
  let b := r.1
  let r := order2_func less data a b r.2.2
  (r.2.1, r.2.2)

/-- Go `medianAdjacent_func(data, a, swaps)`. -/
def medianAdjacent_func {α : Type} (less : α → α → Bool) (data : List α) (a swaps : Nat) :
    Nat × Nat :=
  median_func less data (a - 1) a (a + 1) swaps

/-- Go `choosePivot_func(data, a, b)` with `shortestNinther = 50` and
`maxSwaps = 4 * 3`. -/
def choosePivot_func {α : Type} (less : α → α → Bool) (data : List α) (a b : Nat) :
    Nat × sortedHint :=
  let l := b - a
  let swaps := 0
  let i := a + l / 4 * 1
  let j := a + l / 4 * 2
  let k := a + l / 4 * 3
  let r : Nat × Nat :=
    if l ≥ 8 then
      let s : Nat × Nat × Nat × Nat :=
        if l ≥ 50 then
          let ri := medianAdjacent_func less data i swaps
          let rj := medianAdjacent_func less data j ri.2
          let rk := medianAdjacent_func less data k rj.2
          (ri.1, rj.1, rk.1, rk.2)
        else (i, j, k, swaps)
      median_func less data s.1 s.2.1 s.2.2.1 s.2.2.2
    else (j, swaps)
  if r.2 = 0 then (r.1, .increasingHint)
  else if r.2 = 4 * 3 then (r.1, .decreasingHint)
  else (r.1, .unknownHint)

/-- Loop of `reverseRange_func`: `for i < j { data.Swap(i, j); i++; j-- }`. -/
def reverseRangeLoop {α : Type} : (fuel : Nat) → List α → Nat → Nat → List α
  | 0, data, _, _ => data
  | fuel + 1, data, i, j =>
    if i < j then reverseRangeLoop fuel (swapAt data i j) (i + 1) (j - 1) else data

/-- Go `reverseRange_func(data, a, b)`. -/
def reverseRange_func {α : Type} (data : List α) (a b : Nat) : List α :=
  reverseRangeLoop b data a (b - 1)

/-- Go `pdqsort_func(data, a, b, limit)` with `maxInsertion = 12`.  The loop
variables `wasBalanced` and `wasPartitioned` start as `true` at every call;
each round of the loop and each recursive call works on a strictly shorter
range, so `fuel` above `b - a` is never used up. -/
def pdqsort_func {α : Type} (less : α → α → Bool) :
    (fuel : Nat) → List α → (a b limit : Nat) → (wasBalanced wasPartitioned : Bool) → List α
  | 0, data, _, _, _, _, _ => data
  | fuel + 1, data, a, b, limit, wasBalanced, wasPartitioned =>
    let length := b - a
    if length ≤ 12 then insertionSort_func less data a b
    else if limit = 0 then heapSort_func less data a b
    else
      let data := if !wasBalanced then breakPatterns_func data a b else data
      let limit := if !wasBalanced then limit - 1 else limit
      let ph := choosePivot_func less data a b
      let reversed := decide (ph.2 = .decreasingHint)
      let data := if reversed then reverseRange_func data a b else data
      let pivot := if reversed then (b - 1) - (ph.1 - a) else ph.1
      let hint := if reversed then sortedHint.increasingHint else ph.2
      let pis : List α × Bool :=
        if wasBalanced && wasPartitioned && decide (hint = .increasingHint)
        then partialInsertionSort_func less data a b else (data, false)
      if pis.2 then pis.1
      else
        let data := pis.1
        if a > 0 && !lessAt less data (a - 1) pivot then
          let pe := partitionEqual_func less data a b pivot
          pdqsort_func less fuel pe.1 pe.2 b limit wasBalanced wasPartitioned
        else
          let pt := partition_func less data a b pivot
          let data := pt.1
          let mid := pt.2.1
          let wasPartitioned := pt.2.2
          let leftLen := mid - a
          let rightLen := b - mid
          let balanceThreshold := length / 8
          if leftLen < rightLen then
            let wasBalanced := decide (leftLen ≥ balanceThreshold)
            let data := pdqsort_func less fuel data a mid limit true true
            pdqsort_func less fuel data (mid + 1) b limit wasBalanced wasPartitioned
          else
            let wasBalanced := decide (rightLen ≥ balanceThreshold)
            let data := pdqsort_func less fuel data (mid + 1) b limit true true
            pdqsort_func less fuel data a mid limit wasBalanced wasPartitioned

/-- Go `sort.Slice(x, less)`. -/
def sort_Slice {α : Type} (less : α → α → Bool) (data : List α) : List α :=
  let length := data.length
  let limit := bits_Len length
  pdqsort_func less (length + 1) data 0 length limit true true

/-- Insertion sort of the whole slice, the routine `sort.Slice` runs on
slices of at most 12 elements. -/
def insertionSortSlice {α : Type} (less : α → α → Bool) (data : List α) : List α :=
  insertionSort_func less data 0 data.length

/-- One round of insertion in functional form: the sorted part is given from
right to left, and `x` moves left past the elements it is less than. -/
def insertRev {α : Type} (less : α → α → Bool) (x : α) : List α → List α
  | [] => [x]
  | y :: ys => if less x y then y :: insertRev less x ys else x :: y :: ys

/-! ## Sample data -/

/-- Sample perfume with the given identifier, price and sillage. -/
def samplePerfume (id : Nat) (price : ℚ) (sillage : String) : Perfume :=
  { ID := id
    Name := "P"
    Brand := "B"
    Longevity := "Long"
    Sillage := sillage
    Price := price
    Description := "A fresh scent"
    AromaTags := [{ ID := 1, Slug := "citrus", Name := "Citrus" }] }

/-- Sample preference record: only the named flags are set. -/
def samplePreferences (lightFresh unique safeBet : Bool) : QuizPreferences :=
  { DailyWear := false, SpecialEvents := false, NightOut := false, Work := false,
    Dates := false, Spring := false, Summer := false, Fall := false, Winter := false,
    YearRound := false, LightFresh := lightFresh, WarmSpicy := false,
    SweetGourmand := false, WoodyEarthy := false, FloralRomantic := false,
    CitrusEnergizing := false, Longevity := "long", Sillage := "moderate",
    Projection := "moderate", Classic := false, Modern := false, Unique := unique,
    SafeBet := safeBet, PriceRange := "mid" }

/-- Sample request around `samplePreferences`. -/
def sampleRequest (pref : QuizPreferences) (maxResults : Int) (excludeIDs : List Nat) :
    AdvancedRecommendationRequest :=
  { QuizPreferences := pref
    CurrentSituation := "work"
    Season := "spring"
    TimeOfDay := "morning"
    DesiredImpression := "confident"
    MaxResults := maxResults
    ExcludeIDs := excludeIDs }

/-- Sample catalog of ten perfumes with identifiers 1 to 10. -/
def sampleCatalog : List Perfume :=
  [samplePerfume 1 80 "Light", samplePerfume 2 250 "Heavy", samplePerfume 3 120 "Medium",
   samplePerfume 4 90 "Heavy", samplePerfume 5 300 "Light", samplePerfume 6 60 "Medium",
   samplePerfume 7 150 "Heavy", samplePerfume 8 40 "Light", samplePerfume 9 210 "Medium",
   samplePerfume 10 99 "Heavy"]

/-- The six keys of `scentScores` in the order of the map literal. -/
def scentKeys : List String :=
  ["light_fresh", "warm_spicy", "sweet_gourmand", "woody_earthy", "floral_romantic",
   "citrus_energizing"]

/-- Catalog of thirteen perfumes with identifiers 1 to 13: the first twelve
cost 150, the last one 50. -/
def tieCatalog : List Perfume :=
  (List.range 13).map (fun i => samplePerfume (i + 1) (if i = 12 then 50 else 150) "Heavy")

/-- Request with only `safe_bet` set, at most six results and no exclusion. -/
def tieRequest : AdvancedRecommendationRequest :=
  sampleRequest (samplePreferences false false true) 6 []

/-! ## Descriptions used to state the refinement claims -/

/-- The requested longevity category matches the longevity of the perfume:
light with Light, medium with Medium, long with Long or Very Long. -/
def longevityMatches (perfume : Perfume) (pref : QuizPreferences) : Bool :=
  (pref.Longevity == "light" && perfume.Longevity == "Light") ||
  (pref.Longevity == "medium" && perfume.Longevity == "Medium") ||
  (pref.Longevity == "long" &&
    (perfume.Longevity == "Long" || perfume.Longevity == "Very Long"))

/-- The requested sillage category matches the sillage of the perfume: subtle
with Light, moderate with Medium, heavy with Heavy or Very Heavy. -/
def sillageMatches (perfume : Perfume) (pref : QuizPreferences) : Bool :=
  (pref.Sillage == "subtle" && perfume.Sillage == "Light") ||
  (pref.Sillage == "moderate" && perfume.Sillage == "Medium") ||
  (pref.Sillage == "heavy" &&
    (perfume.Sillage == "Heavy" || perfume.Sillage == "Very Heavy"))

/-- Sample perfume with the aroma tags "Citrus" and "Fresh". -/
def citrusFreshPerfume : Perfume :=
  { ID := 1
    Name := "P"
    Brand := "B"
    Longevity := "Long"
    Sillage := "Heavy"
    Price := 250
    Description := "A romantic scent"
    AromaTags := [{ ID := 1, Slug := "citrus", Name := "Citrus" },
                  { ID := 2, Slug := "fresh", Name := "Fresh" }] }

/-! ## Personality types (`quiz_service.go`, lines 93-132) -/

/-- One entry of the list returned by `GetPersonalityTypes`: the Go map with
the keys `type`, `traits`, `description` and `best_notes`. -/
structure PersonalityType where
  type_ : String
  traits : List String
  description : String
  best_notes : List String
  deriving DecidableEq, Repr

/-- Source `GetPersonalityTypes`. -/
def GetPersonalityTypes : List PersonalityType :=
  [{ type_ := "The Romantic Elegant"
     traits := ["Sophisticated", "Charming", "Timeless"]
     description := "You appreciate classic, romantic fragrances that exude elegance and grace."
     best_notes := ["Rose", "Jasmine", "Vanilla", "Amber"] },
   { type_ := "The Adventurous Explorer"
     traits := ["Bold", "Curious", "Free-spirited"]
     description :=
       "You love unique, unconventional scents that tell a story and make a statement."
     best_notes := ["Leather", "Incense", "Oud", "Spices"] },
   { type_ := "The Modern Professional"
     traits := ["Confident", "Sophisticated", "Ambitious"]
     description :=
       "You prefer clean, contemporary fragrances that project success and refinement."
     best_notes := ["Citrus", "Vetiver", "Sandalwood", "Musk"] },
   { type_ := "The Creative Soul"
     traits := ["Artistic", "Expressive", "Unique"]
     description :=
       "You're drawn to artistic, complex compositions that inspire creativity and individuality."
     best_notes := ["Patchouli", "Incense", "Unusual Florals", "Gourmand"] },
   { type_ := "The Natural Spirit"
     traits := ["Grounded", "Authentic", "Harmonious"]
     description :=
       "You love earthy, natural scents that connect you to nature and create a sense of peace."
     best_notes := ["Green Notes", "Woods", "Herbs", "Earth"] },
   { type_ := "The Charismatic Socialite"
     traits := ["Magnetic", "Energetic", "Sociable"]
     description :=
       "You enjoy bright, alluring fragrances that make you memorable and draw people in."
     best_notes := ["Fruits", "Florals", "Sweet Notes", "Spices"] }]

/-! ## Simple recommender (`perfume_service.go`, lines 66-147) -/

/-- Response form of a perfume, `models.PerfumeResponse`, with the fields kept
in `Perfume` (concentration, image URL, notes and timestamps are copied
unchanged by the source and left out here). -/
structure PerfumeResponse where
  ID : Nat
  Name : String
  Brand : String
  Description : String
  Longevity : Int
  Sillage : Int
  Price : ℚ
  AromaTags : List AromaTag
  deriving DecidableEq, Repr

/-- Scored entry `models.RecommendationResultResponse`. -/
structure RecommendationResultResponse where
  Perfume : PerfumeResponse
  Score : ℚ
  deriving DecidableEq, Repr

/-- Response `models.RecommendationResponse`. -/
structure RecommendationResponse where
  Results : List RecommendationResultResponse
  BlendExplanation : String
  deriving DecidableEq, Repr

/-- Source `mapStringToInt`. -/
def mapStringToInt (value : String) : Int :=
  if value = "Strong" ∨ value = "Very Strong" then 80
  else if value = "Medium" then 60
  else if value = "Light" then 40
  else 50

/-- The score loop of `RecommendPerfumes`: 0.5, plus 0.3 for every pair of an
aroma tag of the perfume and a requested slug that are equal. -/
def recommendScore (perfume : Perfume) (aromaSlugs : List String) : ℚ :=
  perfume.AromaTags.foldl
    (fun score aroma =>
      aromaSlugs.foldl
        (fun score targetAroma => if aroma.Slug = targetAroma then score + 0.3 else score)
        score)
    0.5

/-- The entry `RecommendPerfumes` appends for one perfume. -/
def recommendEntry (aromaSlugs : List String) (perfume : Perfume) :
    RecommendationResultResponse :=
  { Perfume :=
      { ID := perfume.ID
        Name := perfume.Name
        Brand := perfume.Brand
        Description := perfume.Description
        Longevity := mapStringToInt perfume.Longevity
        Sillage := mapStringToInt perfume.Sillage
        Price := perfume.Price
        AromaTags := perfume.AromaTags }
    Score := recommendScore perfume aromaSlugs }

/-- Go `results[j].Score > results[i].Score`. -/
def scoreGreaterAt (results : List RecommendationResultResponse) (j i : Nat) : Bool :=
  match results[j]?, results[i]? with
  | some rj, some ri => rj.Score > ri.Score
  | _, _ => false

/-- Inner loop of the sort of `RecommendPerfumes`,
`for j := i + 1; j < len(results); j++`, with `steps` rounds left. -/
def exchangeInner (i : Nat) :
    (steps : Nat) → (j : Nat) → List RecommendationResultResponse →
      List RecommendationResultResponse
  | 0, _, results => results
  | steps + 1, j, results =>
    exchangeInner i steps (j + 1)
      (if scoreGreaterAt results j i then swapAt results i j else results)

/-- Outer loop of the sort of `RecommendPerfumes`,
`for i := 0; i < len(results); i++`, with `steps` rounds left. -/
def exchangeOuter :
    (steps : Nat) → (i : Nat) → List RecommendationResultResponse →
      List RecommendationResultResponse
  | 0, _, results => results
  | steps + 1, i, results =>
    exchangeOuter steps (i + 1) (exchangeInner i (results.length - (i + 1)) (i + 1) results)

/-- Source `RecommendPerfumes`; `fetched` is what
`perfumeRepo.GetAllWithRelations()` returned. -/
def RecommendPerfumes (fetched : Except String (List Perfume)) (aromaSlugs : List String) :
    Except String RecommendationResponse :=
  match fetched with
  | .error err => .error err
  | .ok perfumes =>
    let results := perfumes.foldl
      (fun (results : List RecommendationResultResponse) perfume =>
        results ++ [recommendEntry aromaSlugs perfume])
      []
    let results := exchangeOuter results.length 0 results
    let results := if results.length > 6 then results.take 6 else results
    .ok { Results := results
          BlendExplanation :=
            "Based on your aroma preferences, we found these matching fragrances." }

/-- One pass of the inner loop in functional form: `x` is the entry at index
`i`, the list holds the entries after it; the outcome is the entry left at
index `i` and the entries after it. -/
def bubbleMax (x : RecommendationResultResponse) :
    List RecommendationResultResponse →
      RecommendationResultResponse × List RecommendationResultResponse
  | [] => (x, [])
  | y :: ys =>
    if y.Score > x.Score then ((bubbleMax y ys).1, x :: (bubbleMax y ys).2)
    else ((bubbleMax x ys).1, y :: (bubbleMax x ys).2)

/-- The whole sort in functional form, `steps` rounds. -/
def exchangeSort : (steps : Nat) → List RecommendationResultResponse →
    List RecommendationResultResponse
  | 0, results => results
  | _ + 1, [] => []
  | steps + 1, x :: rest => (bubbleMax x rest).1 :: exchangeSort steps (bubbleMax x rest).2

/-! ## CSV importer (`cmd/import_csv/main.go`, lines 180-191) -/

/-- Source `mapLongevity`. -/
def mapLongevity (longevity : String) : String :=
  if strings_ToLower longevity = "strong" ∨ strings_ToLower longevity = "very strong" then
    "Strong"
  else if strings_ToLower longevity = "medium" ∨
      strings_ToLower longevity = "medium-strong" then "Medium"
  else if strings_ToLower longevity = "light" ∨
      strings_ToLower longevity = "light-medium" then "Light"
  else "Medium"

/-! ## Review reports (`internal/services/enhanced_review.go`, lines 55-80) -/

/-- Source `EnhancedReviewService.ReportReview`.  The repository is a state of
type `σ`; `repoReportReview` is the method `ReportReview` of the repository,
giving the returned error, if any, and the next state. -/
def EnhancedReviewService_ReportReview {σ : Type}
    (repoReportReview : Int → String → String → String → σ → Option String × σ)
    (reviewID : Int) (reason description userIdentifier : String) (repo : σ) :
    Option String × σ :=
  let validReasons : List String :=
    ["inappropriate-content", "spam", "fake-review", "off-topic", "harmful-content", "other"]
  let isValidReason := validReasons.any (fun validReason => reason == validReason)
  if !isValidReason then (some ("invalid report reason: " ++ reason), repo)
  else repoReportReview reviewID reason description userIdentifier repo

/-- Report row `models.ReviewReport` as the repository creates it. -/
structure ReviewReport where
  ReviewID : Int
  Reason : String
  Description : String
  UserIdentifier : String
  deriving DecidableEq, Repr

/-- Source `EnhancedReviewRepositoryGORM.ReportReview` over a table of reports:
`createFails` is the error of `DB.Create`, if any. -/
def EnhancedReviewRepositoryGORM_ReportReview (createFails : Option String)
    (reviewID : Int) (reason description userIdentifier : String) (reports : List ReviewReport) :
    Option String × List ReviewReport :=
  match createFails with
  | some err => (some ("failed to report review: " ++ err), reports)
  | none =>
    (none, reports ++ [{ ReviewID := reviewID, Reason := reason, Description := description,
                         UserIdentifier := userIdentifier }])

/-! ## Further sample data and descriptions -/

/-- Keywords looked for in the description for a season; none for a season
string outside the four. -/
def seasonKeywords (season : String) : List String :=
  if season = "spring" then ["fresh", "floral"]
  else if season = "summer" then ["light", "citrus", "aquatic"]
  else if season = "fall" then ["warm", "spicy", "woody"]
  else if season = "winter" then ["rich", "deep", "oriental"]
  else []

/-- Sample perfume on which no bonus applies for `plainRequest`. -/
def plainPerfume : Perfume :=
  { ID := 1
    Name := "P"
    Brand := "B"
    Longevity := "Medium"
    Sillage := "Heavy"
    Price := 150
    Description := "Plain"
    AromaTags := [] }

/-- Sample request with no flag set, situation "work", season "spring". -/
def plainRequest : AdvancedRecommendationRequest :=
  sampleRequest (samplePreferences false false false) 6 []

/-- Sample perfume that earns every bonus for `fullRequest`. -/
def fullPerfume : Perfume :=
  { ID := 2
    Name := "F"
    Brand := "Professional Scents"
    Longevity := "Long"
    Sillage := "Medium"
    Price := 250
    Description := "A fresh and clean scent"
    AromaTags := [{ ID := 1, Slug := "citrus", Name := "Citrus" },
                  { ID := 2, Slug := "spicy", Name := "SPICY" },
                  { ID := 3, Slug := "rose", Name := "rose" }] }

/-- Sample request whose every factor `fullPerfume` satisfies. -/
def fullRequest : AdvancedRecommendationRequest :=
  sampleRequest
    { samplePreferences true true false with
      WarmSpicy := true, FloralRomantic := true, CitrusEnergizing := true } 6 []

/-- Sample perfume whose only aroma tag contains a keyword as a proper part. -/
def citrusBlossomPerfume : Perfume :=
  { ID := 3
    Name := "C"
    Brand := "B"
    Longevity := "Long"
    Sillage := "Light"
    Price := 80
    Description := "Plain"
    AromaTags := [{ ID := 1, Slug := "citrus-blossom", Name := "Citrus Blossom" }] }

/-- Sample preference record with every scent-family flag set. -/
def allScentPreferences : QuizPreferences :=
  { samplePreferences true false false with
    WarmSpicy := true, SweetGourmand := true, WoodyEarthy := true, FloralRomantic := true,
    CitrusEnergizing := true }

/-! ## Binary64 arithmetic (`float64`)

Go `float64` is IEEE 754 binary64.  A finite binary64 value is taken as the
rational number it denotes.  `f64` rounds a rational to the nearest binary64
value, a tie going to the even significand: this is how a decimal literal of
the source becomes a `float64` and how the exact result of each `+` and `*` is
rounded.  The exponent is not bounded here; the scores stay between 0.05 and 2,
far from the subnormal and the overflow range.  Each operation is rounded on
its own (no fused multiply-add), as on amd64. -/

/-- Number of binary digits of `n`; the first argument bounds the recursion. -/
def bitLength : Nat → Nat → Nat
  | 0, _ => 0
  | fuel + 1, n => if n = 0 then 0 else bitLength fuel (n / 2) + 1

/-- Largest `e` with `2^e ≤ n/d`, for positive `n` and `d`. -/
def floorLog2 (n d : Nat) : Int :=
  let e : Int := (bitLength n n : Int) - (bitLength d d : Int)
  if 0 ≤ e then (if d * 2 ^ e.toNat ≤ n then e else e - 1)
  else (if d ≤ n * 2 ^ (-e).toNat then e else e - 1)

/-- Natural number nearest to `n/d`, a tie going to the even neighbour. -/
def roundHalfEven (n d : Nat) : Nat :=
  let q := n / d
  let r := n % d
  if 2 * r < d then q
  else if d < 2 * r then q + 1
  else if q % 2 = 0 then q else q + 1

/-- Binary64 value nearest to `x` (round to nearest, ties to even): `x` is
scaled by a power of two so that its integer part has 53 binary digits, rounded
to a natural number, and scaled back. -/
def f64 (x : ℚ) : ℚ :=
  if x = 0 then 0 else
  let n := x.num.natAbs
  let d := x.den
  let k : Int := 52 - floorLog2 n d
  let v : ℚ :=
    if 0 ≤ k then (roundHalfEven (n * 2 ^ k.toNat) d : ℚ) / ((2 ^ k.toNat : Nat) : ℚ)
    else (roundHalfEven n (d * 2 ^ (-k).toNat) : ℚ) * ((2 ^ (-k).toNat : Nat) : ℚ)
  if x < 0 then -v else v

/-- Go `a + b` on `float64`. -/
def f64_add (a b : ℚ) : ℚ := f64 (a + b)

/-- Go `a * b` on `float64`. -/
def f64_mul (a b : ℚ) : ℚ := f64 (a * b)

/-! ## Lower-casing through `unicode.ToLower`

Go `strings.ToLower(s)` is `strings.Map(unicode.ToLower, s)`: it maps the
string character by character.  The case tables of package `unicode` are
library data; below, `unicode.ToLower` is the argument `unicode_ToLower`.
On the characters below U+0080 `unicode.ToLower` is `Char.toLower`
(`LowersAscii`); the examples on sample data, whose text is ASCII, are
evaluated with `Char.toLower`. -/

/-- Go `strings.Map` for a mapping that drops no character. -/
def strings_Map (mapping : Char → Char) (s : String) : String :=
  ⟨s.data.map mapping⟩

/-- What `unicode.ToLower` does below U+0080: `A`..`Z` become `a`..`z`, every
other character is kept. -/
def LowersAscii (unicode_ToLower : Char → Char) : Prop :=
  ∀ c : Char, c.toNat < 128 → unicode_ToLower c = c.toLower

/-! ## Sub-scores and ranking in binary64 (`quiz_service.go`, lines 39-50 and 254-460)

The scoring functions once more, now with every `float64` literal and
operation rounded by `f64` and with `strings.ToLower` spelled
`strings_Map unicode_ToLower`. -/

/-- Source `calculateProfileMatch` in binary64. -/
def calculateProfileMatch64 (unicode_ToLower : Char → Char) (perfume : Perfume)
    (pref : QuizPreferences) : ℚ :=
  let score : ℚ := f64 0.5
  let perfumeAromas : List String :=
    perfume.AromaTags.map (fun aroma => strings_Map unicode_ToLower aroma.Name)
  let has : String → Bool := fun key => perfumeAromas.contains key
  let score := if pref.LightFresh && (has "citrus" || has "fresh" || has "aquatic")
    then f64_add score (f64 0.2) else score
  let score := if pref.WarmSpicy && (has "spicy" || has "warm" || has "oriental")
    then f64_add score (f64 0.2) else score
  let score := if pref.SweetGourmand && (has "sweet" || has "vanilla" || has "gourmand")
    then f64_add score (f64 0.2) else score
  let score := if pref.WoodyEarthy && (has "woody" || has "earthy" || has "cedar")
    then f64_add score (f64 0.2) else score
  let score := if pref.FloralRomantic && (has "floral" || has "rose" || has "jasmine")
    then f64_add score (f64 0.2) else score
  let score := if pref.CitrusEnergizing && (has "citrus" || has "bergamot" || has "lemon")
    then f64_add score (f64 0.2) else score
  min score (f64 1.0)

/-- Source `calculateSeasonMatch` in binary64. -/
def calculateSeasonMatch64 (unicode_ToLower : Char → Char) (perfume : Perfume)
    (season : String) : ℚ :=
  let score : ℚ := f64 0.6
  let score :=
    if season = "spring" then
      if strings_Contains (strings_Map unicode_ToLower perfume.Description) "fresh" ||
          strings_Contains (strings_Map unicode_ToLower perfume.Description) "floral"
        then f64_add score (f64 0.3) else score
    else if season = "summer" then
      if strings_Contains (strings_Map unicode_ToLower perfume.Description) "light" ||
          strings_Contains (strings_Map unicode_ToLower perfume.Description) "citrus" ||
          strings_Contains (strings_Map unicode_ToLower perfume.Description) "aquatic"
        then f64_add score (f64 0.3) else score
    else if season = "fall" then
      if strings_Contains (strings_Map unicode_ToLower perfume.Description) "warm" ||
          strings_Contains (strings_Map unicode_ToLower perfume.Description) "spicy" ||
          strings_Contains (strings_Map unicode_ToLower perfume.Description) "woody"
        then f64_add score (f64 0.3) else score
    else if season = "winter" then
      if strings_Contains (strings_Map unicode_ToLower perfume.Description) "rich" ||
          strings_Contains (strings_Map unicode_ToLower perfume.Description) "deep" ||
          strings_Contains (strings_Map unicode_ToLower perfume.Description) "oriental"
        then f64_add score (f64 0.3) else score
    else score
  min score (f64 1.0)

/-- Source `calculateOccasionMatch` in binary64; the preference argument is
unused there as well. -/
def calculateOccasionMatch64 (unicode_ToLower : Char → Char) (perfume : Perfume)
    (occasion : String) (_pref : QuizPreferences) : ℚ :=
  let score : ℚ := f64 0.6
  let score :=
    if occasion = "work" then
      let score := if perfume.Sillage = "Light" ∨ perfume.Sillage = "Medium"
        then f64_add score (f64 0.3) else score
      if strings_Contains (strings_Map unicode_ToLower perfume.Brand) "professional" ||
          strings_Contains (strings_Map unicode_ToLower perfume.Description) "clean"
        then f64_add score (f64 0.1) else score
    else if occasion = "date" then
      if strings_Contains (strings_Map unicode_ToLower perfume.Description) "romantic" ||
          strings_Contains (strings_Map unicode_ToLower perfume.Description) "seductive"
        then f64_add score (f64 0.3) else score
    else if occasion = "casual" then
      if perfume.Price < 150 ∧ perfume.Sillage = "Light"
        then f64_add score (f64 0.3) else score
    else if occasion = "special" then
      if perfume.Price > 100 ∨ perfume.Sillage = "Heavy"
        then f64_add score (f64 0.3) else score
    else score
  min score (f64 1.0)

/-- Source `calculatePerformanceMatch` in binary64. -/
def calculatePerformanceMatch64 (perfume : Perfume) (pref : QuizPreferences) : ℚ :=
  let score : ℚ := f64 0.5
  let score :=
    if pref.Longevity = "light" then
      if perfume.Longevity = "Light" then f64_add score (f64 0.3) else score
    else if pref.Longevity = "medium" then
      if perfume.Longevity = "Medium" then f64_add score (f64 0.3) else score
    else if pref.Longevity = "long" then
      if perfume.Longevity = "Long" ∨ perfume.Longevity = "Very Long"
        then f64_add score (f64 0.3) else score
    else score
  let score :=
    if pref.Sillage = "subtle" then
      if perfume.Sillage = "Light" then f64_add score (f64 0.2) else score
    else if pref.Sillage = "moderate" then
      if perfume.Sillage = "Medium" then f64_add score (f64 0.2) else score
    else if pref.Sillage = "heavy" then
      if perfume.Sillage = "Heavy" ∨ perfume.Sillage = "Very Heavy"
        then f64_add score (f64 0.2) else score
    else score
  min score (f64 1.0)

/-- Source `calculateUniquenessBonus` in binary64. -/
def calculateUniquenessBonus64 (perfume : Perfume) (pref : QuizPreferences) : ℚ :=
  if pref.Unique then
    if perfume.Price > 200 then f64 0.8 else f64 0.6
  else if pref.SafeBet ∧ perfume.Price < 100 then f64 0.7
  else f64 0.5

/-- The weighted sum of `scoreSinglePerfume` in binary64, evaluated from left
to right. -/
def overallScore64 (profileMatch seasonMatch occasionMatch performanceMatch
    uniquenessBonus : ℚ) : ℚ :=
  f64_add (f64_add (f64_add (f64_add (f64_mul profileMatch (f64 0.4))
    (f64_mul seasonMatch (f64 0.2))) (f64_mul occasionMatch (f64 0.2)))
    (f64_mul performanceMatch (f64 0.1))) (f64_mul uniquenessBonus (f64 0.1))

/-- Source `generateMatchReasons` in binary64. -/
def generateMatchReasons64 (perfume : Perfume) (profileMatch seasonMatch occasionMatch : ℚ)
    (_pref : QuizPreferences) : List String :=
  let reasons : List String := []
  let reasons := if profileMatch > f64 0.7
    then reasons ++ ["Perfect match for your scent preferences"] else reasons
  let reasons := if seasonMatch > f64 0.7
    then reasons ++ ["Ideal for " ++ getCurrentSeason ++ " weather"] else reasons
  let reasons := if occasionMatch > f64 0.7
    then reasons ++ ["Perfect for your intended occasion"] else reasons
  let reasons := if perfume.Price < 100
    then reasons ++ ["Great value for your budget"] else reasons
  let reasons := if perfume.Longevity = "Long" ∨ perfume.Longevity = "Very Long"
    then reasons ++ ["Long-lasting fragrance"] else reasons
  if reasons.length = 0 then reasons ++ ["Interesting option worth exploring"] else reasons

/-- Source `scoreSinglePerfume` in binary64. -/
def scoreSinglePerfume64 (unicode_ToLower : Char → Char) (perfume : Perfume)
    (req : AdvancedRecommendationRequest) (_personality : PersonalityAnalysis) (rank : Nat) :
    AdvancedRecommendationResult :=
  let profileMatch := calculateProfileMatch64 unicode_ToLower perfume req.QuizPreferences
  let seasonMatch := calculateSeasonMatch64 unicode_ToLower perfume req.Season
  let occasionMatch :=
    calculateOccasionMatch64 unicode_ToLower perfume req.CurrentSituation req.QuizPreferences
  let performanceMatch := calculatePerformanceMatch64 perfume req.QuizPreferences
  let uniquenessBonus := calculateUniquenessBonus64 perfume req.QuizPreferences
  let overallScore :=
    overallScore64 profileMatch seasonMatch occasionMatch performanceMatch uniquenessBonus
  let matchReasons :=
    generateMatchReasons64 perfume profileMatch seasonMatch occasionMatch req.QuizPreferences
  let bestFor := getBestFor perfume req.QuizPreferences
  let wearTiming := getWearTiming perfume req.QuizPreferences
  { Perfume := perfume
    OverallScore := overallScore
    ProfileMatch := profileMatch
    SeasonMatch := seasonMatch
    OccasionMatch := occasionMatch
    PerformanceMatch := performanceMatch
    UniquenessBonus := uniquenessBonus
    MatchReasons := matchReasons
    Warnings := []
    BestFor := bestFor
    WearTiming := wearTiming
    Longevity := perfume.Longevity
    Projection := perfume.Sillage
    Confidence := min (f64_add overallScore (f64 0.1)) (f64 1.0)
    Rank := rank }

/-- Source `scorePerfumes` in binary64. -/
def scorePerfumes64 (unicode_ToLower : Char → Char) (perfumes : List Perfume)
    (req : AdvancedRecommendationRequest) (personality : PersonalityAnalysis) :
    List AdvancedRecommendationResult :=
  perfumes.enum.foldl
    (fun (results : List AdvancedRecommendationResult) ip =>
      results ++ [scoreSinglePerfume64 unicode_ToLower ip.2 req personality (ip.1 + 1)])
    []

/-- Lines 39-50 of `GetAdvancedRecommendations` in binary64: the candidates
are scored, sorted with `sort.Slice` by `lessByScore`, and cut to
`MaxResults`. -/
def rankCandidates64
    (sortSlice : (AdvancedRecommendationResult → AdvancedRecommendationResult → Bool) →
      List AdvancedRecommendationResult → List AdvancedRecommendationResult)
    (unicode_ToLower : Char → Char) (perfumes : List Perfume)
    (req : AdvancedRecommendationRequest) (personality : PersonalityAnalysis) :
    GoResult (List AdvancedRecommendationResult) :=
  let results := scorePerfumes64 unicode_ToLower perfumes req personality
  let results := sortSlice lessByScore results
  if (results.length : Int) > req.MaxResults then sliceTo results req.MaxResults
  else .ret results

/-- Documented contract of `sort.SliceStable`, the stable companion of
`sort.Slice`: the outcome is a sorted rearrangement in which equal elements
keep their original order.  The original order is any relation `T` that holds
between each element of the input and the elements after it. -/
def SortSliceStableContract {α : Type} (sortSlice : (α → α → Bool) → List α → List α) :
    Prop :=
  ∀ (less : α → α → Bool) (data : List α) (T : α → α → Prop),
    (∀ a b, less a b = true → less b a = false) →
    (∀ a b c, less a b = false → less b c = false → less a c = false) →
    data.Pairwise T →
    (sortSlice less data).Perm data ∧
      (sortSlice less data).Pairwise
        (fun a b => less b a = false ∧ (less a b = false → T a b))

/-! ## Descriptions used to state the claims on the binary64 scores -/

/-- The aroma-tag names of a perfume after `strings.ToLower`. -/
def lowerAromaNames (unicode_ToLower : Char → Char) (perfume : Perfume) : List String :=
  perfume.AromaTags.map (fun aroma => strings_Map unicode_ToLower aroma.Name)

/-- A preference flag counts when it is set and one keyword of its category
equals a lower-cased aroma-tag name of the perfume. -/
def categoryCounts (unicode_ToLower : Char → Char) (perfume : Perfume) (flag : Bool)
    (keywords : List String) : Nat :=
  if flag && keywords.any (fun keyword => (lowerAromaNames unicode_ToLower perfume).contains
    keyword) then 1 else 0

/-- Number `k` of the six preference flags that are set and whose category has
a keyword among the lower-cased aroma-tag names of the perfume. -/
def matchedCategories (unicode_ToLower : Char → Char) (perfume : Perfume)
    (pref : QuizPreferences) : Nat :=
  categoryCounts unicode_ToLower perfume pref.LightFresh ["citrus", "fresh", "aquatic"] +
  categoryCounts unicode_ToLower perfume pref.WarmSpicy ["spicy", "warm", "oriental"] +
  categoryCounts unicode_ToLower perfume pref.SweetGourmand ["sweet", "vanilla", "gourmand"] +
  categoryCounts unicode_ToLower perfume pref.WoodyEarthy ["woody", "earthy", "cedar"] +
  categoryCounts unicode_ToLower perfume pref.FloralRomantic ["floral", "rose", "jasmine"] +
  categoryCounts unicode_ToLower perfume pref.CitrusEnergizing ["citrus", "bergamot", "lemon"]

/-- The binary64 value of 0.5 after `k` additions of 0.2, each one rounded. -/
def profileSum : Nat → ℚ
  | 0 => f64 0.5
  | k + 1 => f64_add (profileSum k) (f64 0.2)

/-- The formula `min(1.0, 0.5 + 0.2*k)` evaluated in binary64. -/
def profileFormula64 (k : Nat) : ℚ :=
  min (f64 1.0) (f64_add (f64 0.5) (f64_mul (f64 0.2) (k : ℚ)))

/-- Sample perfume with the aroma tags "Citrus" and "Spicy". -/
def citrusSpicyPerfume : Perfume :=
  { citrusFreshPerfume with
    AromaTags := [{ ID := 1, Slug := "citrus", Name := "Citrus" },
                  { ID := 2, Slug := "spicy", Name := "Spicy" }] }

/-- Sample perfume whose aroma tag is written with U+0130, the capital I with
a dot above. -/
def dottedCitrusPerfume : Perfume :=
  { citrusFreshPerfume with
    AromaTags := [{ ID := 1, Slug := "citrus", Name := "C\u0130TRUS" }] }

/-- Sample perfume whose only aroma tag is "citrus". -/
def citrusPerfume : Perfume :=
  { citrusFreshPerfume with
    AromaTags := [{ ID := 1, Slug := "citrus", Name := "citrus" }] }

/-- Sample perfume whose aroma tag is written with U+0131, the small i without
a dot. -/
def dotlessCitrusPerfume : Perfume :=
  { citrusFreshPerfume with
    AromaTags := [{ ID := 1, Slug := "citrus", Name := "c\u0131trus" }] }

/-- A `unicode.ToUpper` on the characters below U+0080 and on U+0131, whose
capital is `I`. -/
def upperDotlessI (c : Char) : Char :=
  if c = Char.ofNat 305 then Char.ofNat 73 else c.toUpper

/-- A `unicode.ToLower` on the characters below U+0080 and on U+0130, which
Go lower-cases to `i`. -/
def lowerDottedI (c : Char) : Char :=
  if c = Char.ofNat 304 then Char.ofNat 105 else c.toLower

/-- A sort routine that meets the contract of `sort.Slice` and is not stable:
insertion sort of the reversed slice. -/
def reverseInsertionSort {α : Type} (less : α → α → Bool) (data : List α) : List α :=
  insertionSortSlice less data.reverse

/-- The keywords of the six scent categories of `calculateProfileMatch`. -/
def profileKeywords : List String :=
  ["citrus", "fresh", "aquatic", "spicy", "warm", "oriental", "sweet", "vanilla", "gourmand",
   "woody", "earthy", "cedar", "floral", "rose", "jasmine", "bergamot", "lemon"]

/-! ## Bounds on the sub-scores -/

theorem calculateProfileMatch_bounds (perfume : Perfume) (pref : QuizPreferences) :
    0.5 ≤ calculateProfileMatch perfume pref ∧ calculateProfileMatch perfume pref ≤ 1 := by
  simp only [calculateProfileMatch]
  refine ⟨?_, by norm_num⟩
  split_ifs <;> norm_num

theorem calculateSeasonMatch_bounds (perfume : Perfume) (season : String) :
    0.6 ≤ calculateSeasonMatch perfume season ∧ calculateSeasonMatch perfume season ≤ 0.9 := by
  simp only [calculateSeasonMatch]
  split_ifs <;> norm_num

theorem calculateOccasionMatch_bounds (perfume : Perfume) (occasion : String)
    (pref : QuizPreferences) :
    0.6 ≤ calculateOccasionMatch perfume occasion pref ∧
      calculateOccasionMatch perfume occasion pref ≤ 1 := by
  simp only [calculateOccasionMatch]
  split_ifs <;> norm_num

theorem calculatePerformanceMatch_bounds (perfume : Perfume) (pref : QuizPreferences) :
    0.5 ≤ calculatePerformanceMatch perfume pref ∧
      calculatePerformanceMatch perfume pref ≤ 1 := by
  simp only [calculatePerformanceMatch]
  split_ifs <;> norm_num

theorem calculateUniquenessBonus_bounds (perfume : Perfume) (pref : QuizPreferences) :
    0.5 ≤ calculateUniquenessBonus perfume pref ∧
      calculateUniquenessBonus perfume pref ≤ 0.8 := by
  simp only [calculateUniquenessBonus]
  split_ifs <;> norm_num

/-- The overall score of a scored candidate lies between 0.54 and 0.96. -/
theorem overallScore_bounds (perfume : Perfume) (req : AdvancedRecommendationRequest)
    (personality : PersonalityAnalysis) (rank : Nat) :
    0.54 ≤ (scoreSinglePerfume perfume req personality rank).OverallScore ∧
      (scoreSinglePerfume perfume req personality rank).OverallScore ≤ 0.96 := by
  have h1 := calculateProfileMatch_bounds perfume req.QuizPreferences
  have h2 := calculateSeasonMatch_bounds perfume req.Season
  have h3 := calculateOccasionMatch_bounds perfume req.CurrentSituation req.QuizPreferences
  have h4 := calculatePerformanceMatch_bounds perfume req.QuizPreferences
  have h5 := calculateUniquenessBonus_bounds perfume req.QuizPreferences
  simp only [scoreSinglePerfume]
  norm_num at h1 h2 h3 h4 h5 ⊢
  constructor <;> linarith [h1.1, h1.2, h2.1, h2.2, h3.1, h3.2, h4.1, h4.2, h5.1, h5.2]

/-- C1: every sub-score computed by `scoreSinglePerfume` (profile, season,
occasion, performance, uniqueness) and the overall score lie in the closed
interval from 0 to 1, for every perfume and request. -/
theorem scoreSinglePerfume_scores_in_unit_interval (perfume : Perfume)
    (req : AdvancedRecommendationRequest) (personality : PersonalityAnalysis) (rank : Nat) :
    (0 ≤ (scoreSinglePerfume perfume req personality rank).ProfileMatch ∧
      (scoreSinglePerfume perfume req personality rank).ProfileMatch ≤ 1) ∧
    (0 ≤ (scoreSinglePerfume perfume req personality rank).SeasonMatch ∧
      (scoreSinglePerfume perfume req personality rank).SeasonMatch ≤ 1) ∧
    (0 ≤ (scoreSinglePerfume perfume req personality rank).OccasionMatch ∧
      (scoreSinglePerfume perfume req personality rank).OccasionMatch ≤ 1) ∧
    (0 ≤ (scoreSinglePerfume perfume req personality rank).PerformanceMatch ∧
      (scoreSinglePerfume perfume req personality rank).PerformanceMatch ≤ 1) ∧
    (0 ≤ (scoreSinglePerfume perfume req personality rank).UniquenessBonus ∧
      (scoreSinglePerfume perfume req personality rank).UniquenessBonus ≤ 1) ∧
    (0 ≤ (scoreSinglePerfume perfume req personality rank).OverallScore ∧
      (scoreSinglePerfume perfume req personality rank).OverallScore ≤ 1) := by
  have h1 := calculateProfileMatch_bounds perfume req.QuizPreferences
  have h2 := calculateSeasonMatch_bounds perfume req.Season
  have h3 := calculateOccasionMatch_bounds perfume req.CurrentSituation req.QuizPreferences
  have h4 := calculatePerformanceMatch_bounds perfume req.QuizPreferences
  have h5 := calculateUniquenessBonus_bounds perfume req.QuizPreferences
  have h6 := overallScore_bounds perfume req personality rank
  norm_num at h1 h2 h3 h4 h5 h6
  refine ⟨⟨?_, ?_⟩, ⟨?_, ?_⟩, ⟨?_, ?_⟩, ⟨?_, ?_⟩, ⟨?_, ?_⟩, ⟨?_, ?_⟩⟩
  · show 0 ≤ calculateProfileMatch perfume req.QuizPreferences
    linarith [h1.1]
  · exact h1.2
  · show 0 ≤ calculateSeasonMatch perfume req.Season
    linarith [h2.1]
  · show calculateSeasonMatch perfume req.Season ≤ 1
    linarith [h2.2]
  · show 0 ≤ calculateOccasionMatch perfume req.CurrentSituation req.QuizPreferences
    linarith [h3.1]
  · exact h3.2
  · show 0 ≤ calculatePerformanceMatch perfume req.QuizPreferences
    linarith [h4.1]
  · exact h4.2
  · show 0 ≤ calculateUniquenessBonus perfume req.QuizPreferences
    linarith [h5.1]
  · show calculateUniquenessBonus perfume req.QuizPreferences ≤ 1
    linarith [h5.2]
  · linarith [h6.1]
  · linarith [h6.2]

/-- C2: the overall score stored in a result of `scoreSinglePerfume` is the
weighted sum 0.4, 0.2, 0.2, 0.1, 0.1 of the five sub-score fields stored in the
same result. -/
theorem scoreSinglePerfume_overall_is_weighted_sum (perfume : Perfume)
    (req : AdvancedRecommendationRequest) (personality : PersonalityAnalysis) (rank : Nat) :
    (scoreSinglePerfume perfume req personality rank).OverallScore =
      0.4 * (scoreSinglePerfume perfume req personality rank).ProfileMatch +
      0.2 * (scoreSinglePerfume perfume req personality rank).SeasonMatch +
      0.2 * (scoreSinglePerfume perfume req personality rank).OccasionMatch +
      0.1 * (scoreSinglePerfume perfume req personality rank).PerformanceMatch +
      0.1 * (scoreSinglePerfume perfume req personality rank).UniquenessBonus := by
  simp only [scoreSinglePerfume]
  ring

/-- C3: the confidence of a result of `scoreSinglePerfume` is the minimum of
the overall score plus 0.1 and 1.0; it is at least the overall score and at
most 1. -/
theorem scoreSinglePerfume_confidence (perfume : Perfume)
    (req : AdvancedRecommendationRequest) (personality : PersonalityAnalysis) (rank : Nat) :
    (scoreSinglePerfume perfume req personality rank).Confidence =
      min ((scoreSinglePerfume perfume req personality rank).OverallScore + 0.1) 1.0 ∧
    (scoreSinglePerfume perfume req personality rank).Confidence ≥
      (scoreSinglePerfume perfume req personality rank).OverallScore ∧
    (scoreSinglePerfume perfume req personality rank).Confidence ≤ 1 := by
  have h6 := overallScore_bounds perfume req personality rank
  norm_num at h6
  refine ⟨rfl, ?_, ?_⟩
  · show min ((scoreSinglePerfume perfume req personality rank).OverallScore + 0.1) 1.0 ≥ _
    apply le_min
    · norm_num
    · norm_num
      linarith [h6.2]
  · show min ((scoreSinglePerfume perfume req personality rank).OverallScore + 0.1) 1.0 ≤ 1
    norm_num

/-! ## Loops as list operations -/

theorem foldl_append_filter {α : Type} (p : α → Bool) (l init : List α) :
    l.foldl (fun acc x => if p x then acc ++ [x] else acc) init = init ++ l.filter p := by
  induction l generalizing init with
  | nil => simp
  | cons x l ih =>
    simp only [List.foldl_cons, ih]
    by_cases hx : p x = true
    · simp [hx, List.filter_cons]
    · simp [hx, List.filter_cons]

theorem foldl_append_map {α β : Type} (f : α → β) (l : List α) (init : List β) :
    l.foldl (fun acc x => acc ++ [f x]) init = init ++ l.map f := by
  induction l generalizing init with
  | nil => simp
  | cons x l ih => simp [List.foldl_cons, ih]

theorem foldl_append_filter_take {α : Type} (p : α → Bool) (l init : List α) :
    l.foldl (fun acc x => if p x && decide (acc.length < 3) then acc ++ [x] else acc) init =
      init ++ (l.filter p).take (3 - init.length) := by
  induction l generalizing init with
  | nil => simp
  | cons x l ih =>
    simp only [List.foldl_cons, ih]
    by_cases hx : p x = true
    · by_cases hlen : init.length < 3
      · have h3 : 3 - init.length = (3 - (init.length + 1)) + 1 := by omega
        simp only [hx, hlen, decide_True, Bool.and_self, if_true, List.filter_cons,
          List.length_append, List.length_singleton]
        rw [h3, List.take_succ_cons]
        simp
      · have h3 : 3 - init.length = 0 := by omega
        simp [hx, hlen, h3]
    · simp [hx, List.filter_cons]

/-! ## Candidate filter -/

/-- The candidate list is the catalog without the perfumes whose identifier is
listed in `ExcludeIDs`, in catalog order. -/
theorem getCandidatePerfumes_ok (catalog : List Perfume) (req : AdvancedRecommendationRequest) :
    getCandidatePerfumes (.ok catalog) req =
      .ok (catalog.filter (fun p => decide (p.ID ∉ req.ExcludeIDs))) := by
  unfold getCandidatePerfumes
  by_cases hlen : req.ExcludeIDs.length > 0
  · simp only [hlen, if_true]
    have hfold := foldl_append_filter
      (fun perfume : Perfume => !req.ExcludeIDs.any (fun id => perfume.ID == id)) catalog []
    simp only [List.nil_append] at hfold
    rw [hfold]
    congr 2
    funext p
    rw [Bool.eq_iff_iff]
    simp only [Bool.not_eq_true', List.any_eq_false, beq_iff_eq, decide_eq_true_eq]
    constructor
    · intro h hmem
      exact h _ hmem rfl
    · intro h x hx heq
      exact h (heq ▸ hx)
  · have hnil : req.ExcludeIDs = [] := by
      cases h : req.ExcludeIDs with
      | nil => rfl
      | cons a l => rw [h] at hlen; simp at hlen
    simp [hnil]

theorem getCandidatePerfumes_error (err : String) (req : AdvancedRecommendationRequest) :
    getCandidatePerfumes (.error err) req = .error err := rfl

theorem scorePerfumes_eq_map (perfumes : List Perfume) (req : AdvancedRecommendationRequest)
    (personality : PersonalityAnalysis) :
    scorePerfumes perfumes req personality =
      perfumes.enum.map (fun ip => scoreSinglePerfume ip.2 req personality (ip.1 + 1)) := by
  unfold scorePerfumes
  rw [foldl_append_map (fun ip : Nat × Perfume => scoreSinglePerfume ip.2 req personality (ip.1 + 1))]
  simp

theorem scorePerfumes_length (perfumes : List Perfume) (req : AdvancedRecommendationRequest)
    (personality : PersonalityAnalysis) :
    (scorePerfumes perfumes req personality).length = perfumes.length := by
  simp [scorePerfumes_eq_map]

theorem scorePerfumes_perfume_mem (perfumes : List Perfume) (req : AdvancedRecommendationRequest)
    (personality : PersonalityAnalysis) (r : AdvancedRecommendationResult)
    (hr : r ∈ scorePerfumes perfumes req personality) : r.Perfume ∈ perfumes := by
  rw [scorePerfumes_eq_map, List.mem_map] at hr
  obtain ⟨ip, hip, rfl⟩ := hr
  obtain ⟨hlt, heq⟩ := List.mem_enum hip
  show ip.2 ∈ perfumes
  rw [heq]
  exact List.getElem_mem _

/-- The alternatives are the first three candidates whose identifier is not
among the selected results. -/
theorem getAlternatives_ok (catalog : List Perfume)
    (results : List AdvancedRecommendationResult) (req : AdvancedRecommendationRequest) :
    getAlternatives (.ok catalog) results req =
      ((catalog.filter (fun p => decide (p.ID ∉ req.ExcludeIDs))).filter
        (fun p => decide (p.ID ∉ results.map (fun r => r.Perfume.ID)))).take 3 := by
  unfold getAlternatives
  rw [getCandidatePerfumes_ok]
  have hfold := foldl_append_filter_take
    (fun alt : Perfume => !results.any (fun res => alt.ID == res.Perfume.ID))
    (catalog.filter (fun p => decide (p.ID ∉ req.ExcludeIDs))) []
  simp only [List.nil_append, List.length_nil, Nat.sub_zero] at hfold
  simp only []
  rw [hfold]
  congr 2
  funext p
  rw [Bool.eq_iff_iff]
  simp only [Bool.not_eq_true', List.any_eq_false, beq_iff_eq, decide_eq_true_eq, List.mem_map,
    not_exists, not_and]
  constructor
  · intro h r hr heq
    exact h r hr heq.symm
  · intro h r hr heq
    exact h r hr heq.symm

theorem getAlternatives_error (err : String)
    (results : List AdvancedRecommendationResult) (req : AdvancedRecommendationRequest) :
    getAlternatives (.error err) results req = [] := rfl

/-! ## The three outcomes of `GetAdvancedRecommendations` -/

theorem GetAdvancedRecommendations_fetch_error
    (sortSlice : (AdvancedRecommendationResult → AdvancedRecommendationResult → Bool) →
      List AdvancedRecommendationResult → List AdvancedRecommendationResult)
    (rangeOrder : List String) (err : String) (fetch₂ : Except String (List Perfume))
    (req : AdvancedRecommendationRequest) :
    GetAdvancedRecommendations sortSlice rangeOrder (.error err) fetch₂ req =
      .err ("failed to get candidate perfumes: " ++ err) := rfl

theorem GetAdvancedRecommendations_negative
    (sortSlice : (AdvancedRecommendationResult → AdvancedRecommendationResult → Bool) →
      List AdvancedRecommendationResult → List AdvancedRecommendationResult)
    (rangeOrder : List String) (catalog : List Perfume) (fetch₂ : Except String (List Perfume))
    (req : AdvancedRecommendationRequest) (hneg : req.MaxResults < 0) :
    GetAdvancedRecommendations sortSlice rangeOrder (.ok catalog) fetch₂ req =
      .panic "runtime error: slice bounds out of range" := by
  unfold GetAdvancedRecommendations
  rw [getCandidatePerfumes_ok]
  have hlen : ∀ l : List AdvancedRecommendationResult, (l.length : Int) > req.MaxResults := by
    intro l
    have : (0 : Int) ≤ l.length := Int.ofNat_nonneg _
    omega
  simp only [hlen, if_true, sliceTo, hneg]

theorem GetAdvancedRecommendations_nonneg
    (sortSlice : (AdvancedRecommendationResult → AdvancedRecommendationResult → Bool) →
      List AdvancedRecommendationResult → List AdvancedRecommendationResult)
    (rangeOrder : List String) (catalog : List Perfume) (fetch₂ : Except String (List Perfume))
    (req : AdvancedRecommendationRequest) (hnonneg : 0 ≤ req.MaxResults) :
    GetAdvancedRecommendations sortSlice rangeOrder (.ok catalog) fetch₂ req =
      .ret { Results := (sortSlice lessByScore
                (scorePerfumes (catalog.filter (fun p => decide (p.ID ∉ req.ExcludeIDs))) req
                  (analyzePersonality rangeOrder req.QuizPreferences))).take req.MaxResults.toNat
             PersonalityAnalysis := analyzePersonality rangeOrder req.QuizPreferences
             RecommendationLogic := recommendationLogic
             Tips := generateTips (analyzePersonality rangeOrder req.QuizPreferences)
               req.QuizPreferences
             Alternatives := getAlternatives fetch₂
               ((sortSlice lessByScore
                (scorePerfumes (catalog.filter (fun p => decide (p.ID ∉ req.ExcludeIDs))) req
                  (analyzePersonality rangeOrder req.QuizPreferences))).take req.MaxResults.toNat)
               req } := by
  unfold GetAdvancedRecommendations
  rw [getCandidatePerfumes_ok]
  simp only []
  by_cases hlen : ((sortSlice lessByScore
      (scorePerfumes (catalog.filter (fun p => decide (p.ID ∉ req.ExcludeIDs))) req
        (analyzePersonality rangeOrder req.QuizPreferences))).length : Int) > req.MaxResults
  · have hn : ¬ req.MaxResults < 0 := by omega
    simp only [hlen, if_true, sliceTo, hn, if_false]
  · have htake : (sortSlice lessByScore
        (scorePerfumes (catalog.filter (fun p => decide (p.ID ∉ req.ExcludeIDs))) req
          (analyzePersonality rangeOrder req.QuizPreferences))).take req.MaxResults.toNat =
        sortSlice lessByScore
        (scorePerfumes (catalog.filter (fun p => decide (p.ID ∉ req.ExcludeIDs))) req
          (analyzePersonality rangeOrder req.QuizPreferences)) := by
      apply List.take_of_length_le
      omega
    simp only [hlen, if_false, htake]

/-- A returned response comes from a successful first fetch and a non-negative
`MaxResults`, and it is the response described by
`GetAdvancedRecommendations_nonneg`. -/
theorem GetAdvancedRecommendations_ret_inv
    (sortSlice : (AdvancedRecommendationResult → AdvancedRecommendationResult → Bool) →
      List AdvancedRecommendationResult → List AdvancedRecommendationResult)
    (rangeOrder : List String) (fetch₁ fetch₂ : Except String (List Perfume))
    (req : AdvancedRecommendationRequest) (resp : AdvancedRecommendationResponse)
    (h : GetAdvancedRecommendations sortSlice rangeOrder fetch₁ fetch₂ req = .ret resp) :
    ∃ catalog, fetch₁ = .ok catalog ∧ 0 ≤ req.MaxResults ∧
      resp.Results = (sortSlice lessByScore
        (scorePerfumes (catalog.filter (fun p => decide (p.ID ∉ req.ExcludeIDs))) req
          (analyzePersonality rangeOrder req.QuizPreferences))).take req.MaxResults.toNat ∧
      resp.Alternatives = getAlternatives fetch₂ resp.Results req := by
  cases fetch₁ with
  | error err => rw [GetAdvancedRecommendations_fetch_error] at h; cases h
  | ok catalog =>
    by_cases hneg : req.MaxResults < 0
    · rw [GetAdvancedRecommendations_negative _ _ _ _ _ hneg] at h; cases h
    · have hnonneg : 0 ≤ req.MaxResults := by omega
      rw [GetAdvancedRecommendations_nonneg _ _ _ _ _ hnonneg] at h
      injection h with h
      subst h
      exact ⟨catalog, rfl, hnonneg, rfl, rfl⟩

/-! ## The comparison used for ranking -/

theorem lessByScore_asymm (a b : AdvancedRecommendationResult)
    (h : lessByScore a b = true) : lessByScore b a = false := by
  simp only [lessByScore, decide_eq_true_eq, decide_eq_false_iff_not] at h ⊢
  exact not_lt.mpr (le_of_lt h)

theorem lessByScore_negTrans (a b c : AdvancedRecommendationResult)
    (h₁ : lessByScore a b = false) (h₂ : lessByScore b c = false) :
    lessByScore a c = false := by
  simp only [lessByScore, decide_eq_false_iff_not, not_lt, gt_iff_lt] at h₁ h₂ ⊢
  exact le_trans h₁ h₂

/-! ## Insertion sort: functional form, contract and stability -/

theorem getElem?_append_mid {α : Type} (l : List α) (y : α) (post : List α) :
    (l ++ y :: post)[l.length]? = some y := by
  rw [List.getElem?_append_right (le_refl _)]
  simp

theorem getElem?_append_mid_succ {α : Type} (l : List α) (y x : α) (post : List α) :
    (l ++ y :: x :: post)[l.length + 1]? = some x := by
  rw [List.getElem?_append_right (by omega)]
  simp

theorem lessAt_adjacent {α : Type} (less : α → α → Bool) (l : List α) (y x : α)
    (post : List α) :
    lessAt less (l ++ y :: x :: post) (l.length + 1) l.length = less x y := by
  unfold lessAt
  rw [getElem?_append_mid_succ, getElem?_append_mid]

theorem swapAt_adjacent {α : Type} (l : List α) (y x : α) (post : List α) :
    swapAt (l ++ y :: x :: post) (l.length + 1) l.length = l ++ x :: y :: post := by
  unfold swapAt
  rw [getElem?_append_mid_succ, getElem?_append_mid]
  simp only []
  rw [List.set_append_right _ _ (by omega)]
  simp only [Nat.add_sub_cancel_left, List.set_cons_succ, List.set_cons_zero]
  rw [List.set_append_right _ _ (by omega)]
  simp

theorem insertRev_length {α : Type} (less : α → α → Bool) (x : α) (l : List α) :
    (insertRev less x l).length = l.length + 1 := by
  induction l with
  | nil => rfl
  | cons y ys ih =>
    unfold insertRev
    split_ifs <;> simp [ih]

theorem insertionSortInner_eq {α : Type} (less : α → α → Bool) (rpre : List α) (x : α)
    (post : List α) :
    insertionSortInner less 0 rpre.length (rpre.reverse ++ x :: post) =
      (insertRev less x rpre).reverse ++ post := by
  induction rpre generalizing post with
  | nil => simp [insertionSortInner, insertRev]
  | cons y ys ih =>
    have hshape : (y :: ys).reverse ++ x :: post = ys.reverse ++ y :: x :: post := by simp
    have hlen : ys.reverse.length = ys.length := List.length_reverse ys
    rw [hshape]
    simp only [List.length_cons, insertionSortInner]
    have hless := lessAt_adjacent less ys.reverse y x post
    have hswap := swapAt_adjacent ys.reverse y x post
    rw [hlen] at hless hswap
    rw [hless, hswap]
    by_cases hxy : less x y = true
    · simp only [hxy, Bool.and_true, gt_iff_lt, Nat.zero_lt_succ, decide_True, if_true]
      rw [ih (y :: post)]
      simp [insertRev, hxy]
    · simp [insertRev, hxy]

theorem insertionSortOuter_eq {α : Type} (less : α → α → Bool) (rest rpre : List α) :
    insertionSortOuter less 0 rest.length rpre.length (rpre.reverse ++ rest) =
      (rest.foldl (fun acc x => insertRev less x acc) rpre).reverse := by
  induction rest generalizing rpre with
  | nil => simp [insertionSortOuter]
  | cons x rest ih =>
    simp only [List.length_cons, insertionSortOuter, List.foldl_cons]
    rw [insertionSortInner_eq, ← insertRev_length less x rpre, ih]

/-- Insertion sort of a whole slice inserts the elements one by one, from
left to right. -/
theorem insertionSortSlice_eq {α : Type} (less : α → α → Bool) (data : List α) :
    insertionSortSlice less data =
      (data.foldl (fun acc x => insertRev less x acc) []).reverse := by
  unfold insertionSortSlice insertionSort_func
  cases data with
  | nil => simp [insertionSortOuter]
  | cons x rest =>
    have h := insertionSortOuter_eq less rest [x]
    simp only [List.length_cons, List.length_nil, List.reverse_cons, List.reverse_nil,
      List.nil_append, List.singleton_append, Nat.zero_add] at h
    simp only [List.length_cons, Nat.zero_add, Nat.add_sub_cancel, List.foldl_cons, insertRev]
    exact h

theorem insertRev_perm {α : Type} (less : α → α → Bool) (x : α) (l : List α) :
    (insertRev less x l).Perm (x :: l) := by
  induction l with
  | nil => exact List.Perm.refl _
  | cons y ys ih =>
    unfold insertRev
    split_ifs
    · exact (List.Perm.cons y ih).trans (List.Perm.swap x y ys)
    · exact List.Perm.refl _

theorem foldl_insertRev_perm {α : Type} (less : α → α → Bool) (rest acc : List α) :
    (rest.foldl (fun acc x => insertRev less x acc) acc).Perm (rest.reverse ++ acc) := by
  induction rest generalizing acc with
  | nil => simp
  | cons x rest ih =>
    simp only [List.foldl_cons, List.reverse_cons, List.append_assoc, List.singleton_append]
    exact (ih _).trans (List.Perm.append_left _ (insertRev_perm less x acc))

theorem insertionSortSlice_perm {α : Type} (less : α → α → Bool) (data : List α) :
    (insertionSortSlice less data).Perm data := by
  rw [insertionSortSlice_eq]
  refine (List.reverse_perm _).trans ?_
  have h := foldl_insertRev_perm less data []
  simp only [List.append_nil] at h
  exact h.trans (List.reverse_perm _)

theorem insertRev_mem {α : Type} (less : α → α → Bool) (x : α) (l : List α) (z : α) :
    z ∈ insertRev less x l ↔ z = x ∨ z ∈ l := by
  rw [(insertRev_perm less x l).mem_iff, List.mem_cons]

/-- Inserting `x` keeps the sorted part ordered, ties in the order `T`, when
every element already present precedes `x` in `T`. -/
theorem insertRev_pairwise {α : Type} (less : α → α → Bool) (T : α → α → Prop)
    (hasymm : ∀ a b, less a b = true → less b a = false)
    (hneg : ∀ a b c, less a b = false → less b c = false → less a c = false)
    (x : α) (l : List α)
    (hl : l.Pairwise (fun u v => less u v = false ∧ (less v u = false → T v u)))
    (hx : ∀ v ∈ l, T v x) :
    (insertRev less x l).Pairwise (fun u v => less u v = false ∧ (less v u = false → T v u)) := by
  induction l with
  | nil => simp [insertRev]
  | cons y ys ih =>
    rw [List.pairwise_cons] at hl
    unfold insertRev
    by_cases hxy : less x y = true
    · simp only [hxy, if_true]
      rw [List.pairwise_cons]
      refine ⟨?_, ih hl.2 (fun v hv => hx v (List.mem_cons_of_mem _ hv))⟩
      intro z hz
      rcases (insertRev_mem less x ys z).mp hz with rfl | hz
      · exact ⟨hasymm _ _ hxy, fun h => by rw [hxy] at h; cases h⟩
      · exact hl.1 z hz
    · have hxy' : less x y = false := by simpa using hxy
      simp only [hxy', Bool.false_eq_true, if_false]
      rw [List.pairwise_cons]
      refine ⟨?_, List.pairwise_cons.mpr hl⟩
      intro z hz
      rcases List.mem_cons.mp hz with rfl | hz
      · exact ⟨hxy', fun _ => hx _ (List.mem_cons_self _ _)⟩
      · exact ⟨hneg _ _ _ hxy' (hl.1 z hz).1, fun _ => hx z (List.mem_cons_of_mem _ hz)⟩

theorem foldl_insertRev_pairwise {α : Type} (less : α → α → Bool) (T : α → α → Prop)
    (hasymm : ∀ a b, less a b = true → less b a = false)
    (hneg : ∀ a b c, less a b = false → less b c = false → less a c = false)
    (rest acc : List α)
    (hacc : acc.Pairwise (fun u v => less u v = false ∧ (less v u = false → T v u)))
    (hcross : ∀ v ∈ acc, ∀ x ∈ rest, T v x)
    (hrest : rest.Pairwise T) :
    (rest.foldl (fun acc x => insertRev less x acc) acc).Pairwise
      (fun u v => less u v = false ∧ (less v u = false → T v u)) := by
  induction rest generalizing acc with
  | nil => simpa using hacc
  | cons x rest ih =>
    rw [List.pairwise_cons] at hrest
    simp only [List.foldl_cons]
    apply ih
    · exact insertRev_pairwise less T hasymm hneg x acc hacc
        (fun v hv => hcross v hv x (List.mem_cons_self _ _))
    · intro v hv z hz
      rcases (insertRev_mem less x acc v).mp hv with rfl | hv
      · exact hrest.1 z hz
      · exact hcross v hv z (List.mem_cons_of_mem _ hz)
    · exact hrest.2

/-- Insertion sort is stable: the outcome is sorted, and two elements neither
of which is less than the other keep the order `T` they had in the input. -/
theorem insertionSortSlice_stable {α : Type} (less : α → α → Bool) (T : α → α → Prop)
    (hasymm : ∀ a b, less a b = true → less b a = false)
    (hneg : ∀ a b c, less a b = false → less b c = false → less a c = false)
    (data : List α) (hdata : data.Pairwise T) :
    (insertionSortSlice less data).Pairwise
      (fun a b => less b a = false ∧ (less a b = false → T a b)) := by
  rw [insertionSortSlice_eq, List.pairwise_reverse]
  exact foldl_insertRev_pairwise less T hasymm hneg data [] List.Pairwise.nil
    (fun v hv => by cases hv) hdata

/-- Insertion sort meets the contract of `sort.Slice`. -/
theorem insertionSortSlice_contract {α : Type} :
    SortSliceContract (insertionSortSlice : (α → α → Bool) → List α → List α) := by
  intro less data hasymm hneg
  refine ⟨insertionSortSlice_perm less data, ?_⟩
  have h := insertionSortSlice_stable less (fun _ _ => True) hasymm hneg data
    (List.pairwise_of_forall (fun _ _ => trivial))
  exact h.imp (fun hab => hab.1)

/-! ## Claims about the response -/

/-- C4: no perfume whose identifier is listed in `ExcludeIDs` appears among the
results or among the alternatives of a response, whatever the two catalog
fetches returned. -/
theorem excluded_ids_never_returned
    (sortSlice : (AdvancedRecommendationResult → AdvancedRecommendationResult → Bool) →
      List AdvancedRecommendationResult → List AdvancedRecommendationResult)
    (hsort : SortSliceContract sortSlice)
    (rangeOrder : List String) (fetch₁ fetch₂ : Except String (List Perfume))
    (req : AdvancedRecommendationRequest) (resp : AdvancedRecommendationResponse)
    (h : GetAdvancedRecommendations sortSlice rangeOrder fetch₁ fetch₂ req = .ret resp) :
    (∀ r ∈ resp.Results, r.Perfume.ID ∉ req.ExcludeIDs) ∧
      (∀ p ∈ resp.Alternatives, p.ID ∉ req.ExcludeIDs) := by
  obtain ⟨catalog, -, -, hres, halt⟩ :=
    GetAdvancedRecommendations_ret_inv sortSlice rangeOrder fetch₁ fetch₂ req resp h
  constructor
  · intro r hr
    rw [hres] at hr
    have hperm := (hsort lessByScore (scorePerfumes
      (catalog.filter (fun p => decide (p.ID ∉ req.ExcludeIDs))) req
      (analyzePersonality rangeOrder req.QuizPreferences))
      lessByScore_asymm lessByScore_negTrans).1
    have hmem := scorePerfumes_perfume_mem _ _ _ r (hperm.mem_iff.mp (List.mem_of_mem_take hr))
    simpa using (List.mem_filter.mp hmem).2
  · intro p hp
    rw [halt] at hp
    cases fetch₂ with
    | error err => rw [getAlternatives_error] at hp; cases hp
    | ok catalog₂ =>
      rw [getAlternatives_ok] at hp
      have hmem := List.mem_of_mem_filter (List.mem_of_mem_take hp)
      simpa using (List.mem_filter.mp hmem).2

/-- Witness of C4 on the sample catalog with identifiers 3 and 8 excluded. -/
theorem excluded_ids_never_returned_witness :
    SortSliceContract (insertionSortSlice :
      (AdvancedRecommendationResult → AdvancedRecommendationResult → Bool) → _ → _) ∧
    ∃ resp, GetAdvancedRecommendations insertionSortSlice scentKeys (.ok sampleCatalog)
        (.ok sampleCatalog) (sampleRequest (samplePreferences true false true) 6 [3, 8]) =
          .ret resp ∧
      (∀ r ∈ resp.Results, r.Perfume.ID ∉ [3, 8]) ∧ (∀ p ∈ resp.Alternatives, p.ID ∉ [3, 8]) :=
  ⟨insertionSortSlice_contract, _,
    GetAdvancedRecommendations_nonneg insertionSortSlice scentKeys sampleCatalog
      (.ok sampleCatalog) (sampleRequest (samplePreferences true false true) 6 [3, 8])
      (by decide),
    excluded_ids_never_returned insertionSortSlice insertionSortSlice_contract scentKeys
      (.ok sampleCatalog) (.ok sampleCatalog)
      (sampleRequest (samplePreferences true false true) 6 [3, 8]) _
      (GetAdvancedRecommendations_nonneg insertionSortSlice scentKeys sampleCatalog
        (.ok sampleCatalog) (sampleRequest (samplePreferences true false true) 6 [3, 8])
        (by decide))⟩

/-- C5: for a request with non-negative `max_results` the handler answers with
a response whose number of results is at most the effective cap (the requested
value, or 6 when the caller supplies 0) and at most the number of catalog
perfumes that remain after exclusion. -/
theorem result_count_bounded
    (sortSlice : (AdvancedRecommendationResult → AdvancedRecommendationResult → Bool) →
      List AdvancedRecommendationResult → List AdvancedRecommendationResult)
    (hsort : SortSliceContract sortSlice)
    (rangeOrder : List String) (catalog : List Perfume) (fetch₂ : Except String (List Perfume))
    (req : AdvancedRecommendationRequest) (hnonneg : 0 ≤ req.MaxResults) :
    ∃ resp, QuizHandler_GetAdvancedRecommendations sortSlice rangeOrder (.ok catalog) fetch₂ req =
        .ret (.ok200 resp) ∧
      (resp.Results.length : Int) ≤ (if req.MaxResults = 0 then 6 else req.MaxResults) ∧
      resp.Results.length ≤ (catalog.filter (fun p => decide (p.ID ∉ req.ExcludeIDs))).length := by
  have hlen : ∀ (req' : AdvancedRecommendationRequest), 0 ≤ req'.MaxResults →
      (((sortSlice lessByScore
        (scorePerfumes (catalog.filter (fun p => decide (p.ID ∉ req'.ExcludeIDs))) req'
          (analyzePersonality rangeOrder req'.QuizPreferences))).take
            req'.MaxResults.toNat).length : Int) ≤ req'.MaxResults ∧
      ((sortSlice lessByScore
        (scorePerfumes (catalog.filter (fun p => decide (p.ID ∉ req'.ExcludeIDs))) req'
          (analyzePersonality rangeOrder req'.QuizPreferences))).take
            req'.MaxResults.toNat).length ≤
        (catalog.filter (fun p => decide (p.ID ∉ req'.ExcludeIDs))).length := by
    intro req' h'
    have hperm := (hsort lessByScore (scorePerfumes
      (catalog.filter (fun p => decide (p.ID ∉ req'.ExcludeIDs))) req'
      (analyzePersonality rangeOrder req'.QuizPreferences))
      lessByScore_asymm lessByScore_negTrans).1
    rw [List.length_take, hperm.length_eq, scorePerfumes_length]
    constructor
    · have := Int.toNat_of_nonneg h'
      omega
    · exact Nat.min_le_right _ _
  have hsix : (0 : Int) ≤ ({ req with MaxResults := 6 } : AdvancedRecommendationRequest).MaxResults :=
    show (0 : Int) ≤ 6 by decide
  unfold QuizHandler_GetAdvancedRecommendations
  by_cases hzero : req.MaxResults = 0
  · rw [if_pos hzero, if_pos hzero]
    simp only []
    rw [GetAdvancedRecommendations_nonneg sortSlice rangeOrder catalog fetch₂
      { req with MaxResults := 6 } hsix]
    exact ⟨_, rfl, (hlen { req with MaxResults := 6 } hsix).1,
      (hlen { req with MaxResults := 6 } hsix).2⟩
  · rw [if_neg hzero, if_neg hzero]
    simp only []
    rw [GetAdvancedRecommendations_nonneg sortSlice rangeOrder catalog fetch₂ req hnonneg]
    exact ⟨_, rfl, (hlen req hnonneg).1, (hlen req hnonneg).2⟩

/-- Witness of C5 on the sample catalog with `max_results` 0 and identifiers
3 and 8 excluded. -/
theorem result_count_bounded_witness :
    SortSliceContract (insertionSortSlice :
      (AdvancedRecommendationResult → AdvancedRecommendationResult → Bool) → _ → _) ∧
    (0 : Int) ≤ (sampleRequest (samplePreferences true false true) 0 [3, 8]).MaxResults ∧
    ∃ resp, QuizHandler_GetAdvancedRecommendations insertionSortSlice scentKeys
        (.ok sampleCatalog) (.ok sampleCatalog)
        (sampleRequest (samplePreferences true false true) 0 [3, 8]) = .ret (.ok200 resp) ∧
      (resp.Results.length : Int) ≤
        (if (sampleRequest (samplePreferences true false true) 0 [3, 8]).MaxResults = 0
          then 6 else (sampleRequest (samplePreferences true false true) 0 [3, 8]).MaxResults) ∧
      resp.Results.length ≤ (sampleCatalog.filter (fun p => decide (p.ID ∉
        (sampleRequest (samplePreferences true false true) 0 [3, 8]).ExcludeIDs))).length :=
  ⟨insertionSortSlice_contract, by decide,
    result_count_bounded insertionSortSlice insertionSortSlice_contract scentKeys sampleCatalog
      (.ok sampleCatalog) (sampleRequest (samplePreferences true false true) 0 [3, 8])
      (by decide)⟩

/-- C6 (the code departs from the claim): with a negative `max_results` and a
catalog that was fetched, the handler does not answer as for 6: the slice
expression `results[:MaxResults]` panics, whereas `max_results` 6 gives a
response. -/
theorem negative_max_results_panics
    (sortSlice : (AdvancedRecommendationResult → AdvancedRecommendationResult → Bool) →
      List AdvancedRecommendationResult → List AdvancedRecommendationResult)
    (rangeOrder : List String) (catalog : List Perfume) (fetch₂ : Except String (List Perfume))
    (req : AdvancedRecommendationRequest) (n : Nat) :
    QuizHandler_GetAdvancedRecommendations sortSlice rangeOrder (.ok catalog) fetch₂
        { req with MaxResults := Int.negSucc n } =
      .panic "runtime error: slice bounds out of range" ∧
    ∃ resp, QuizHandler_GetAdvancedRecommendations sortSlice rangeOrder (.ok catalog) fetch₂
        { req with MaxResults := 6 } = .ret (.ok200 resp) := by
  constructor
  · unfold QuizHandler_GetAdvancedRecommendations
    have hne : ¬ (Int.negSucc n = 0) := by intro h; cases h
    simp only [hne, if_false]
    rw [GetAdvancedRecommendations_negative sortSlice rangeOrder catalog fetch₂
      { req with MaxResults := Int.negSucc n } (Int.negSucc_lt_zero n)]
  · unfold QuizHandler_GetAdvancedRecommendations
    have hne : ¬ ((6 : Int) = 0) := by decide
    simp only [hne, if_false]
    rw [GetAdvancedRecommendations_nonneg sortSlice rangeOrder catalog fetch₂
      { req with MaxResults := 6 } (show (0 : Int) ≤ 6 by decide)]
    exact ⟨_, rfl⟩

/-- C7: the results of every response are in non-increasing order of overall
score; in particular each result scores at least as much as the next one. -/
theorem results_sorted_by_score
    (sortSlice : (AdvancedRecommendationResult → AdvancedRecommendationResult → Bool) →
      List AdvancedRecommendationResult → List AdvancedRecommendationResult)
    (hsort : SortSliceContract sortSlice)
    (rangeOrder : List String) (fetch₁ fetch₂ : Except String (List Perfume))
    (req : AdvancedRecommendationRequest) (resp : AdvancedRecommendationResponse)
    (h : GetAdvancedRecommendations sortSlice rangeOrder fetch₁ fetch₂ req = .ret resp) :
    resp.Results.Pairwise (fun a b => a.OverallScore ≥ b.OverallScore) ∧
      ∀ (i : Nat) (hi : i + 1 < resp.Results.length),
        (resp.Results.get ⟨i, by omega⟩).OverallScore ≥
          (resp.Results.get ⟨i + 1, hi⟩).OverallScore := by
  obtain ⟨catalog, -, -, hres, -⟩ :=
    GetAdvancedRecommendations_ret_inv sortSlice rangeOrder fetch₁ fetch₂ req resp h
  have hsorted := (hsort lessByScore (scorePerfumes
      (catalog.filter (fun p => decide (p.ID ∉ req.ExcludeIDs))) req
      (analyzePersonality rangeOrder req.QuizPreferences))
      lessByScore_asymm lessByScore_negTrans).2
  have hpw : resp.Results.Pairwise (fun a b => a.OverallScore ≥ b.OverallScore) := by
    rw [hres]
    refine (hsorted.sublist (List.take_sublist _ _)).imp ?_
    intro a b hab
    simpa [lessByScore] using hab
  refine ⟨hpw, ?_⟩
  intro i hi
  exact List.pairwise_iff_get.mp hpw ⟨i, by omega⟩ ⟨i + 1, hi⟩ (by simp)

/-- Witness of C7 on the sample catalog. -/
theorem results_sorted_by_score_witness :
    SortSliceContract (insertionSortSlice :
      (AdvancedRecommendationResult → AdvancedRecommendationResult → Bool) → _ → _) ∧
    ∃ resp, GetAdvancedRecommendations insertionSortSlice scentKeys (.ok sampleCatalog)
        (.ok sampleCatalog) (sampleRequest (samplePreferences true false true) 6 []) =
          .ret resp ∧
      resp.Results.Pairwise (fun a b => a.OverallScore ≥ b.OverallScore) ∧
      ∀ (i : Nat) (hi : i + 1 < resp.Results.length),
        (resp.Results.get ⟨i, by omega⟩).OverallScore ≥
          (resp.Results.get ⟨i + 1, hi⟩).OverallScore :=
  ⟨insertionSortSlice_contract, _,
    GetAdvancedRecommendations_nonneg insertionSortSlice scentKeys sampleCatalog
      (.ok sampleCatalog) (sampleRequest (samplePreferences true false true) 6 []) (by decide),
    results_sorted_by_score insertionSortSlice insertionSortSlice_contract scentKeys
      (.ok sampleCatalog) (.ok sampleCatalog)
      (sampleRequest (samplePreferences true false true) 6 []) _
      (GetAdvancedRecommendations_nonneg insertionSortSlice scentKeys sampleCatalog
        (.ok sampleCatalog) (sampleRequest (samplePreferences true false true) 6 [])
        (by decide))⟩

/-! ## Ranking order among equal scores -/

theorem enumFrom_pairwise_fst {α : Type} (l : List α) (n : Nat) :
    (l.enumFrom n).Pairwise (fun a b => a.1 < b.1) := by
  induction l generalizing n with
  | nil => simp
  | cons x l ih =>
    simp only [List.enumFrom_cons, List.pairwise_cons]
    refine ⟨?_, ih (n + 1)⟩
    intro b hb
    have := List.le_fst_of_mem_enumFrom hb
    show n < b.1
    omega

/-- The candidates are scored in order, with ranks 1, 2, 3 and so on. -/
theorem scorePerfumes_rank_increasing (perfumes : List Perfume)
    (req : AdvancedRecommendationRequest) (personality : PersonalityAnalysis) :
    (scorePerfumes perfumes req personality).Pairwise (fun a b => a.Rank < b.Rank) := by
  rw [scorePerfumes_eq_map, List.pairwise_map]
  refine (enumFrom_pairwise_fst perfumes 0).imp ?_
  intro a b hab
  show a.1 + 1 < b.1 + 1
  omega

/-- The rank of a scored candidate is its position in the candidate list,
counted from 1. -/
theorem scorePerfumes_rank_position (perfumes : List Perfume)
    (req : AdvancedRecommendationRequest) (personality : PersonalityAnalysis)
    (r : AdvancedRecommendationResult) (hr : r ∈ scorePerfumes perfumes req personality) :
    perfumes[r.Rank - 1]? = some r.Perfume := by
  rw [scorePerfumes_eq_map, List.mem_map] at hr
  obtain ⟨ip, hip, rfl⟩ := hr
  obtain ⟨hlt, heq⟩ := List.mem_enum hip
  show perfumes[ip.1 + 1 - 1]? = some ip.2
  rw [Nat.add_sub_cancel, heq]
  exact List.getElem?_eq_getElem hlt

/-! ## Alternatives -/

/-- C9: when both fetches return the same catalog, the alternatives are the
first three, in catalog order, of the non-excluded perfumes whose identifier
does not occur among the selected results; so there are `min 3 k` of them for
`k` such perfumes, at most three, and none shares an identifier with a
result. -/
theorem alternatives_first_three_unselected
    (sortSlice : (AdvancedRecommendationResult → AdvancedRecommendationResult → Bool) →
      List AdvancedRecommendationResult → List AdvancedRecommendationResult)
    (rangeOrder : List String) (catalog : List Perfume)
    (req : AdvancedRecommendationRequest) (resp : AdvancedRecommendationResponse)
    (h : GetAdvancedRecommendations sortSlice rangeOrder (.ok catalog) (.ok catalog) req =
      .ret resp) :
    resp.Alternatives =
      ((catalog.filter (fun p => decide (p.ID ∉ req.ExcludeIDs))).filter
        (fun p => decide (p.ID ∉ resp.Results.map (fun r => r.Perfume.ID)))).take 3 ∧
    resp.Alternatives.length =
      min 3 ((catalog.filter (fun p => decide (p.ID ∉ req.ExcludeIDs))).filter
        (fun p => decide (p.ID ∉ resp.Results.map (fun r => r.Perfume.ID)))).length ∧
    resp.Alternatives.length ≤ 3 ∧
    ∀ p ∈ resp.Alternatives, ∀ r ∈ resp.Results, p.ID ≠ r.Perfume.ID := by
  obtain ⟨catalog', -, -, -, halt⟩ :=
    GetAdvancedRecommendations_ret_inv sortSlice rangeOrder (.ok catalog) (.ok catalog) req resp h
  rw [getAlternatives_ok] at halt
  refine ⟨halt, ?_, ?_, ?_⟩
  · rw [halt, List.length_take]
  · rw [halt, List.length_take]
    exact Nat.min_le_left _ _
  · intro p hp r hr heq
    rw [halt] at hp
    have hmem := (List.mem_filter.mp (List.mem_of_mem_take hp)).2
    simp only [List.mem_map, not_exists, not_and, decide_eq_true_eq] at hmem
    exact hmem r hr heq.symm

/-- Witness of C9: ten candidates and six selected give three of the remaining
four, in catalog order. -/
theorem alternatives_first_three_unselected_witness :
    ∃ resp, GetAdvancedRecommendations insertionSortSlice scentKeys (.ok sampleCatalog)
        (.ok sampleCatalog) (sampleRequest (samplePreferences true false true) 6 []) =
          .ret resp ∧
      resp.Results.map (fun r => r.Perfume.ID) = [6, 1, 3, 8, 9, 5] ∧
      resp.Alternatives.map (fun p => p.ID) = [2, 4, 7] ∧
      (resp.Alternatives =
        ((sampleCatalog.filter (fun p => decide (p.ID ∉
            (sampleRequest (samplePreferences true false true) 6 []).ExcludeIDs))).filter
          (fun p => decide (p.ID ∉ resp.Results.map (fun r => r.Perfume.ID)))).take 3 ∧
      resp.Alternatives.length =
        min 3 ((sampleCatalog.filter (fun p => decide (p.ID ∉
            (sampleRequest (samplePreferences true false true) 6 []).ExcludeIDs))).filter
          (fun p => decide (p.ID ∉ resp.Results.map (fun r => r.Perfume.ID)))).length ∧
      resp.Alternatives.length ≤ 3 ∧
      ∀ p ∈ resp.Alternatives, ∀ r ∈ resp.Results, p.ID ≠ r.Perfume.ID) :=
  ⟨_, GetAdvancedRecommendations_nonneg insertionSortSlice scentKeys sampleCatalog
      (.ok sampleCatalog) (sampleRequest (samplePreferences true false true) 6 []) (by decide),
    by decide!, by decide!,
    alternatives_first_three_unselected insertionSortSlice scentKeys sampleCatalog
      (sampleRequest (samplePreferences true false true) 6 []) _
      (GetAdvancedRecommendations_nonneg insertionSortSlice scentKeys sampleCatalog
        (.ok sampleCatalog) (sampleRequest (samplePreferences true false true) 6 [])
        (by decide))⟩

/-! ## Personality archetype -/

/-- C10 as stated fails: with `floral_romantic` and `sweet_gourmand` set the
label is "The Romantic Elegant", with the article, not "Romantic Elegant". -/
theorem archetype_label_counterexample :
    (analyzePersonality scentKeys
      { samplePreferences false false false with
        FloralRomantic := true, SweetGourmand := true }).ScentPersonality =
      "The Romantic Elegant" ∧
    (analyzePersonality scentKeys
      { samplePreferences false false false with
        FloralRomantic := true, SweetGourmand := true }).ScentPersonality ≠
      "Romantic Elegant" := by
  constructor
  · rfl
  · decide

/-- C10, amended: `analyzePersonality` applies the ordered first-match rule
list, and the labels carry the article: "The Romantic Elegant" if
floral_romantic and sweet_gourmand; otherwise "The Adventurous Explorer" if
warm_spicy and unique; otherwise "The Modern Professional" if
citrus_energizing and work; otherwise "The Creative Soul" if woody_earthy and
unique; otherwise "The Natural Spirit" if light_fresh and daily_wear;
otherwise "The Charismatic Socialite"; for every preference record and every
order in which the map of scent scores is visited. -/
theorem analyzePersonality_first_match (rangeOrder : List String) (pref : QuizPreferences) :
    (analyzePersonality rangeOrder pref).ScentPersonality =
      if pref.FloralRomantic = true ∧ pref.SweetGourmand = true then "The Romantic Elegant"
      else if pref.WarmSpicy = true ∧ pref.Unique = true then "The Adventurous Explorer"
      else if pref.CitrusEnergizing = true ∧ pref.Work = true then "The Modern Professional"
      else if pref.WoodyEarthy = true ∧ pref.Unique = true then "The Creative Soul"
      else if pref.LightFresh = true ∧ pref.DailyWear = true then "The Natural Spirit"
      else "The Charismatic Socialite" := by
  simp only [analyzePersonality, personalityAndTraits, Bool.and_eq_true]
  split_ifs <;> rfl

/-! ## Personality rules, determinism, candidate filter, failure modes -/

/-- C11: whenever `floral_romantic` and `sweet_gourmand` are both set the
analysis selects the Romantic Elegant archetype (label "The Romantic Elegant",
traits Sophisticated, Charming, Timeless, and its style description), whatever
the other flags are: rule 1 wins over every later rule. -/
theorem romantic_elegant_rule_wins (rangeOrder : List String) (pref : QuizPreferences)
    (hfloral : pref.FloralRomantic = true) (hsweet : pref.SweetGourmand = true) :
    (analyzePersonality rangeOrder pref).ScentPersonality = "The Romantic Elegant" ∧
    (analyzePersonality rangeOrder pref).KeyTraits = ["Sophisticated", "Charming", "Timeless"] ∧
    (analyzePersonality rangeOrder pref).StyleDescription =
      "You appreciate classic, romantic fragrances that exude elegance and grace." := by
  have hrule : personalityAndTraits pref =
      ("The Romantic Elegant", ["Sophisticated", "Charming", "Timeless"]) := by
    simp only [personalityAndTraits, hfloral, hsweet, Bool.and_self, if_true]
  simp only [analyzePersonality, hrule]
  exact ⟨trivial, trivial, rfl⟩

/-- Witness of C11: the flags of rule 1 and of rule 2 (`warm_spicy`, `unique`)
are all set. -/
theorem romantic_elegant_rule_wins_witness :
    ({ samplePreferences false true false with
        FloralRomantic := true, SweetGourmand := true, WarmSpicy := true } :
        QuizPreferences).WarmSpicy = true ∧
    ({ samplePreferences false true false with
        FloralRomantic := true, SweetGourmand := true, WarmSpicy := true } :
        QuizPreferences).Unique = true ∧
    (analyzePersonality scentKeys { samplePreferences false true false with
        FloralRomantic := true, SweetGourmand := true, WarmSpicy := true }).ScentPersonality =
      "The Romantic Elegant" ∧
    (analyzePersonality scentKeys { samplePreferences false true false with
        FloralRomantic := true, SweetGourmand := true, WarmSpicy := true }).KeyTraits =
      ["Sophisticated", "Charming", "Timeless"] ∧
    (analyzePersonality scentKeys { samplePreferences false true false with
        FloralRomantic := true, SweetGourmand := true, WarmSpicy := true }).StyleDescription =
      "You appreciate classic, romantic fragrances that exude elegance and grace." :=
  ⟨rfl, rfl, romantic_elegant_rule_wins scentKeys _ rfl rfl⟩

/-- The personality analysis does not depend on the order in which the map of
scent scores is visited. -/
theorem analyzePersonality_rangeOrder (rangeOrder₁ rangeOrder₂ : List String)
    (pref : QuizPreferences) :
    analyzePersonality rangeOrder₁ pref = analyzePersonality rangeOrder₂ pref := rfl

/-- The outcome of `GetAdvancedRecommendations` does not depend on the order in
which the map of scent scores is visited. -/
theorem GetAdvancedRecommendations_rangeOrder
    (sortSlice : (AdvancedRecommendationResult → AdvancedRecommendationResult → Bool) →
      List AdvancedRecommendationResult → List AdvancedRecommendationResult)
    (rangeOrder₁ rangeOrder₂ : List String) (fetch₁ fetch₂ : Except String (List Perfume))
    (req : AdvancedRecommendationRequest) :
    GetAdvancedRecommendations sortSlice rangeOrder₁ fetch₁ fetch₂ req =
      GetAdvancedRecommendations sortSlice rangeOrder₂ fetch₁ fetch₂ req := by
  unfold GetAdvancedRecommendations
  rw [analyzePersonality_rangeOrder rangeOrder₁ rangeOrder₂]

/-- C12: for a fixed sort routine, fixed fetch outcomes and a fixed request,
two runs give the same outcome (results in the same order, personality
analysis, metadata, tips, alternatives) whatever order the map of scent scores
is visited in on either run; the dominant scent profile, which does depend on
that order, never reaches the response. -/
theorem GetAdvancedRecommendations_deterministic
    (sortSlice : (AdvancedRecommendationResult → AdvancedRecommendationResult → Bool) →
      List AdvancedRecommendationResult → List AdvancedRecommendationResult)
    (rangeOrder₁ rangeOrder₂ : List String) (fetch₁ fetch₂ : Except String (List Perfume))
    (req : AdvancedRecommendationRequest) :
    GetAdvancedRecommendations sortSlice rangeOrder₁ fetch₁ fetch₂ req =
      GetAdvancedRecommendations sortSlice rangeOrder₂ fetch₁ fetch₂ req ∧
    QuizHandler_GetAdvancedRecommendations sortSlice rangeOrder₁ fetch₁ fetch₂ req =
      QuizHandler_GetAdvancedRecommendations sortSlice rangeOrder₂ fetch₁ fetch₂ req ∧
    (dominantScentProfile (scentScores { samplePreferences true false false with
        WarmSpicy := true }) ["light_fresh", "warm_spicy"]).2 ≠
      (dominantScentProfile (scentScores { samplePreferences true false false with
        WarmSpicy := true }) ["warm_spicy", "light_fresh"]).2 := by
  refine ⟨?_, ?_, ?_⟩
  · exact GetAdvancedRecommendations_rangeOrder _ _ _ _ _ _
  · unfold QuizHandler_GetAdvancedRecommendations
    simp only [GetAdvancedRecommendations_rangeOrder sortSlice rangeOrder₁ rangeOrder₂]
  · decide!

/-- C13: `getCandidatePerfumes` returns the perfumes of the fetched catalog
whose identifier is not a member of `ExcludeIDs`, in catalog order; only the
set of excluded identifiers matters (duplicates change nothing), an excluded
identifier that no catalog perfume carries changes nothing, and an empty
`ExcludeIDs` returns the catalog unchanged. -/
theorem getCandidatePerfumes_filters (catalog : List Perfume)
    (req : AdvancedRecommendationRequest) :
    getCandidatePerfumes (.ok catalog) req =
      .ok (catalog.filter (fun p => decide (p.ID ∉ req.ExcludeIDs))) ∧
    (catalog.filter (fun p => decide (p.ID ∉ req.ExcludeIDs))).Sublist catalog ∧
    (∀ req' : AdvancedRecommendationRequest,
      (∀ id, id ∈ req'.ExcludeIDs ↔ id ∈ req.ExcludeIDs) →
        getCandidatePerfumes (.ok catalog) req' = getCandidatePerfumes (.ok catalog) req) ∧
    (∀ id, (∀ p ∈ catalog, p.ID ≠ id) →
      getCandidatePerfumes (.ok catalog) { req with ExcludeIDs := id :: req.ExcludeIDs } =
        getCandidatePerfumes (.ok catalog) req) ∧
    (req.ExcludeIDs = [] → getCandidatePerfumes (.ok catalog) req = .ok catalog) := by
  refine ⟨getCandidatePerfumes_ok catalog req, List.filter_sublist _, ?_, ?_, ?_⟩
  · intro req' hset
    rw [getCandidatePerfumes_ok, getCandidatePerfumes_ok]
    congr 2
    funext p
    rw [Bool.eq_iff_iff]
    simp only [decide_eq_true_eq, hset]
  · intro id hid
    rw [getCandidatePerfumes_ok, getCandidatePerfumes_ok]
    congr 1
    apply List.filter_congr
    intro p hp
    rw [Bool.eq_iff_iff]
    simp only [decide_eq_true_eq, List.mem_cons, not_or]
    constructor
    · exact fun h => h.2
    · exact fun h => ⟨hid p hp, h⟩
  · intro hnil
    rw [getCandidatePerfumes_ok, hnil]
    simp

/-- C14 as stated fails: when the first fetch succeeds and the second one, made
by `getAlternatives`, fails, the call returns no error but a response with six
results and no alternatives. -/
theorem second_fetch_failure_swallowed_counterexample :
    ∃ resp, GetAdvancedRecommendations sort_Slice scentKeys (.ok sampleCatalog)
        (.error "database is closed") (sampleRequest (samplePreferences true false true) 6 []) =
          .ret resp ∧
      resp.Results.length = 6 ∧ resp.Alternatives = [] :=
  ⟨_, GetAdvancedRecommendations_nonneg sort_Slice scentKeys sampleCatalog
      (.error "database is closed") (sampleRequest (samplePreferences true false true) 6 [])
      (by decide),
    by decide!, rfl⟩

/-- C14, amended: `GetAdvancedRecommendations` returns an error exactly when
the first catalog fetch fails, and the error wraps that cause; a failure of the
second fetch, made by `getAlternatives`, is swallowed; when the first fetch
succeeds and `max_results` is not negative the call returns a response, whose
alternatives are empty if the second fetch failed. -/
theorem GetAdvancedRecommendations_failure_modes
    (sortSlice : (AdvancedRecommendationResult → AdvancedRecommendationResult → Bool) →
      List AdvancedRecommendationResult → List AdvancedRecommendationResult)
    (rangeOrder : List String) (fetch₁ fetch₂ : Except String (List Perfume))
    (req : AdvancedRecommendationRequest) :
    ((∃ msg, GetAdvancedRecommendations sortSlice rangeOrder fetch₁ fetch₂ req = .err msg) ↔
      ∃ cause, fetch₁ = .error cause) ∧
    (∀ cause, fetch₁ = .error cause →
      GetAdvancedRecommendations sortSlice rangeOrder fetch₁ fetch₂ req =
        .err ("failed to get candidate perfumes: " ++ cause)) ∧
    (∀ catalog, fetch₁ = .ok catalog → 0 ≤ req.MaxResults →
      ∃ resp, GetAdvancedRecommendations sortSlice rangeOrder fetch₁ fetch₂ req = .ret resp ∧
        ∀ cause, fetch₂ = .error cause → resp.Alternatives = []) := by
  refine ⟨?_, ?_, ?_⟩
  · constructor
    · rintro ⟨msg, hmsg⟩
      cases fetch₁ with
      | error cause => exact ⟨cause, rfl⟩
      | ok catalog =>
        by_cases hneg : req.MaxResults < 0
        · rw [GetAdvancedRecommendations_negative _ _ _ _ _ hneg] at hmsg; cases hmsg
        · rw [GetAdvancedRecommendations_nonneg _ _ _ _ _ (by omega)] at hmsg; cases hmsg
    · rintro ⟨cause, rfl⟩
      exact ⟨_, GetAdvancedRecommendations_fetch_error _ _ _ _ _⟩
  · rintro cause rfl
    exact GetAdvancedRecommendations_fetch_error _ _ _ _ _
  · rintro catalog rfl hnonneg
    refine ⟨_, GetAdvancedRecommendations_nonneg _ _ _ _ _ hnonneg, ?_⟩
    rintro cause rfl
    rfl

/-! ## The sub-scores in closed form -/

/-- C16: `calculateUniquenessBonus` replaces rather than accumulates: 0.8 if
unique and price above 200; 0.6 if unique and price at most 200, whatever
`safe_bet` and however low the price; 0.7 if not unique, `safe_bet` and price
below 100; 0.5 otherwise; unique with price 250 gives 0.8. -/
theorem calculateUniquenessBonus_cases (perfume : Perfume) (pref : QuizPreferences) :
    (pref.Unique = true → perfume.Price > 200 →
      calculateUniquenessBonus perfume pref = 0.8) ∧
    (pref.Unique = true → perfume.Price ≤ 200 →
      calculateUniquenessBonus perfume pref = 0.6) ∧
    (pref.Unique = false → pref.SafeBet = true → perfume.Price < 100 →
      calculateUniquenessBonus perfume pref = 0.7) ∧
    (pref.Unique = false → ¬ (pref.SafeBet = true ∧ perfume.Price < 100) →
      calculateUniquenessBonus perfume pref = 0.5) ∧
    calculateUniquenessBonus citrusFreshPerfume (samplePreferences false true true) = 0.8 := by
  refine ⟨?_, ?_, ?_, ?_, ?_⟩
  · intro hu hp
    simp [calculateUniquenessBonus, hu, hp]
  · intro hu hp
    simp [calculateUniquenessBonus, hu, not_lt.mpr hp]
  · intro hu hs hp
    simp [calculateUniquenessBonus, hu, hs, hp]
  · intro hu hn
    simp only [calculateUniquenessBonus, hu, Bool.false_eq_true, if_false, hn]
  · decide!

/-- C17: `generateTips` returns the pulse-points tip, then the work tip if
`work` is set, the dates tip if `dates` is set, the unique tip if `unique` is
set, then the storage tip; its length is 2 plus the number of those three
flags that are set, and it does not depend on the personality analysis. -/
theorem generateTips_list (personality : PersonalityAnalysis) (pref : QuizPreferences) :
    generateTips personality pref =
      ["Apply fragrance to pulse points for better longevity"] ++
      (if pref.Work then ["Choose subtle scents for professional environments"] else []) ++
      (if pref.Dates then ["Apply 30 minutes before your date for optimal effect"] else []) ++
      (if pref.Unique
        then ["Layer with unscented lotion to make unique fragrances last longer"] else []) ++
      ["Store fragrances in a cool, dark place to preserve quality"] ∧
    (generateTips personality pref).length =
      2 + ((if pref.Work then 1 else 0) + (if pref.Dates then 1 else 0) +
        (if pref.Unique then 1 else 0)) ∧
    ∀ personality' : PersonalityAnalysis,
      generateTips personality' pref = generateTips personality pref := by
  refine ⟨?_, ?_, fun _ => rfl⟩
  · unfold generateTips
    cases pref.Work <;> cases pref.Dates <;> cases pref.Unique <;> rfl
  · unfold generateTips
    cases pref.Work <;> cases pref.Dates <;> cases pref.Unique <;> rfl

theorem longevity_bonus_eq (perfume : Perfume) (pref : QuizPreferences) (score : ℚ) :
    (if pref.Longevity = "light" then
      if perfume.Longevity = "Light" then score + 0.3 else score
    else if pref.Longevity = "medium" then
      if perfume.Longevity = "Medium" then score + 0.3 else score
    else if pref.Longevity = "long" then
      if perfume.Longevity = "Long" ∨ perfume.Longevity = "Very Long"
        then score + 0.3 else score
    else score) = score + (if longevityMatches perfume pref then 0.3 else 0) := by
  unfold longevityMatches
  by_cases h1 : pref.Longevity = "light"
  · rw [h1]
    by_cases hp : perfume.Longevity = "Light" <;> simp [hp]
  · by_cases h2 : pref.Longevity = "medium"
    · rw [h2]
      by_cases hp : perfume.Longevity = "Medium" <;> simp [hp]
    · by_cases h3 : pref.Longevity = "long"
      · rw [h3]
        by_cases hp : perfume.Longevity = "Long" ∨ perfume.Longevity = "Very Long"
        · rcases hp with hp | hp <;> simp [hp]
        · have hp1 : ¬ perfume.Longevity = "Long" := fun h => hp (Or.inl h)
          have hp2 : ¬ perfume.Longevity = "Very Long" := fun h => hp (Or.inr h)
          simp [hp1, hp2]
      · simp [h1, h2, h3]

theorem sillage_bonus_eq (perfume : Perfume) (pref : QuizPreferences) (score : ℚ) :
    (if pref.Sillage = "subtle" then
      if perfume.Sillage = "Light" then score + 0.2 else score
    else if pref.Sillage = "moderate" then
      if perfume.Sillage = "Medium" then score + 0.2 else score
    else if pref.Sillage = "heavy" then
      if perfume.Sillage = "Heavy" ∨ perfume.Sillage = "Very Heavy"
        then score + 0.2 else score
    else score) = score + (if sillageMatches perfume pref then 0.2 else 0) := by
  unfold sillageMatches
  by_cases h1 : pref.Sillage = "subtle"
  · rw [h1]
    by_cases hp : perfume.Sillage = "Light" <;> simp [hp]
  · by_cases h2 : pref.Sillage = "moderate"
    · rw [h2]
      by_cases hp : perfume.Sillage = "Medium" <;> simp [hp]
    · by_cases h3 : pref.Sillage = "heavy"
      · rw [h3]
        by_cases hp : perfume.Sillage = "Heavy" ∨ perfume.Sillage = "Very Heavy"
        · rcases hp with hp | hp <;> simp [hp]
        · have hp1 : ¬ perfume.Sillage = "Heavy" := fun h => hp (Or.inl h)
          have hp2 : ¬ perfume.Sillage = "Very Heavy" := fun h => hp (Or.inr h)
          simp [hp1, hp2]
      · simp [h1, h2, h3]

/-- C20: `calculatePerformanceMatch` returns 0.5, plus 0.3 if the requested
longevity category matches that of the perfume, plus 0.2 if the requested
sillage category matches that of the perfume, independently; so the result is
one of 0.5, 0.7, 0.8, 1.0, and it is 1.0 exactly when both categories match. -/
theorem calculatePerformanceMatch_closed_form (perfume : Perfume) (pref : QuizPreferences) :
    calculatePerformanceMatch perfume pref =
      0.5 + (if longevityMatches perfume pref then 0.3 else 0) +
        (if sillageMatches perfume pref then 0.2 else 0) ∧
    (calculatePerformanceMatch perfume pref = 0.5 ∨
      calculatePerformanceMatch perfume pref = 0.7 ∨
      calculatePerformanceMatch perfume pref = 0.8 ∨
      calculatePerformanceMatch perfume pref = 1.0) ∧
    (calculatePerformanceMatch perfume pref = 1.0 ↔
      (longevityMatches perfume pref = true ∧ sillageMatches perfume pref = true)) := by
  have hform : calculatePerformanceMatch perfume pref =
      0.5 + (if longevityMatches perfume pref then 0.3 else 0) +
        (if sillageMatches perfume pref then 0.2 else 0) := by
    simp only [calculatePerformanceMatch]
    rw [longevity_bonus_eq, sillage_bonus_eq]
    cases longevityMatches perfume pref <;> cases sillageMatches perfume pref <;> norm_num
  refine ⟨hform, ?_, ?_⟩
  · rw [hform]
    cases longevityMatches perfume pref <;> cases sillageMatches perfume pref <;> norm_num
  · rw [hform]
    cases longevityMatches perfume pref <;> cases sillageMatches perfume pref <;> norm_num

/-! ## Match reasons -/

/-- C23: `generateMatchReasons` returns, in this order, the reasons whose
condition holds (profile above 0.7, season above 0.7, occasion above 0.7,
price below 100, longevity Long or Very Long); when none holds, and only
then, it returns the single reason "Interesting option worth exploring"; so
the list is never empty, and a profile score of exactly 0.7 gives no profile
reason. -/
theorem generateMatchReasons_list (perfume : Perfume)
    (profileMatch seasonMatch occasionMatch : ℚ) (pref : QuizPreferences) :
    generateMatchReasons perfume profileMatch seasonMatch occasionMatch pref =
      (if (if profileMatch > 0.7 then ["Perfect match for your scent preferences"] else []) ++
          (if seasonMatch > 0.7 then ["Ideal for current season weather"] else []) ++
          (if occasionMatch > 0.7 then ["Perfect for your intended occasion"] else []) ++
          (if perfume.Price < 100 then ["Great value for your budget"] else []) ++
          (if perfume.Longevity = "Long" ∨ perfume.Longevity = "Very Long"
            then ["Long-lasting fragrance"] else []) = []
        then ["Interesting option worth exploring"]
        else
          (if profileMatch > 0.7 then ["Perfect match for your scent preferences"] else []) ++
          (if seasonMatch > 0.7 then ["Ideal for current season weather"] else []) ++
          (if occasionMatch > 0.7 then ["Perfect for your intended occasion"] else []) ++
          (if perfume.Price < 100 then ["Great value for your budget"] else []) ++
          (if perfume.Longevity = "Long" ∨ perfume.Longevity = "Very Long"
            then ["Long-lasting fragrance"] else [])) ∧
    generateMatchReasons perfume profileMatch seasonMatch occasionMatch pref ≠ [] ∧
    (generateMatchReasons perfume profileMatch seasonMatch occasionMatch pref =
        ["Interesting option worth exploring"] ↔
      (¬ profileMatch > 0.7 ∧ ¬ seasonMatch > 0.7 ∧ ¬ occasionMatch > 0.7 ∧
        ¬ perfume.Price < 100 ∧
        ¬ (perfume.Longevity = "Long" ∨ perfume.Longevity = "Very Long"))) ∧
    generateMatchReasons plainPerfume 0.7 0.6 0.6 (samplePreferences false false false) =
      ["Interesting option worth exploring"] := by
  refine ⟨?_, ?_, ?_, by decide!⟩
  · unfold generateMatchReasons getCurrentSeason
    by_cases h1 : profileMatch > 0.7 <;> by_cases h2 : seasonMatch > 0.7 <;>
      by_cases h3 : occasionMatch > 0.7 <;> by_cases h4 : perfume.Price < 100 <;>
      by_cases h5 : (perfume.Longevity = "Long" ∨ perfume.Longevity = "Very Long") <;>
      simp only [h1, h2, h3, h4, h5, if_true, if_false] <;> rfl
  · unfold generateMatchReasons getCurrentSeason
    by_cases h1 : profileMatch > 0.7 <;> by_cases h2 : seasonMatch > 0.7 <;>
      by_cases h3 : occasionMatch > 0.7 <;> by_cases h4 : perfume.Price < 100 <;>
      by_cases h5 : (perfume.Longevity = "Long" ∨ perfume.Longevity = "Very Long") <;>
      simp only [h1, h2, h3, h4, h5, if_true, if_false] <;> decide
  · unfold generateMatchReasons getCurrentSeason
    by_cases h1 : profileMatch > 0.7 <;> by_cases h2 : seasonMatch > 0.7 <;>
      by_cases h3 : occasionMatch > 0.7 <;> by_cases h4 : perfume.Price < 100 <;>
      by_cases h5 : (perfume.Longevity = "Long" ∨ perfume.Longevity = "Very Long") <;>
      simp only [h1, h2, h3, h4, h5, if_true, if_false, not_true_eq_false, not_false_eq_true,
        and_true, and_false, false_and, true_and, iff_false, iff_true] <;> decide

/-! ## Personality analysis as a function of nine flags -/

/-- C24: two preference records that agree on the six scent-family flags and on
`unique`, `work` and `daily_wear` get the same personality analysis, whatever
their other fields are and whatever order the map of scent scores is visited
in. -/
theorem analyzePersonality_depends_on_nine_flags (rangeOrder rangeOrder' : List String)
    (pref pref' : QuizPreferences)
    (hLightFresh : pref'.LightFresh = pref.LightFresh)
    (hWarmSpicy : pref'.WarmSpicy = pref.WarmSpicy)
    (hSweetGourmand : pref'.SweetGourmand = pref.SweetGourmand)
    (hWoodyEarthy : pref'.WoodyEarthy = pref.WoodyEarthy)
    (hFloralRomantic : pref'.FloralRomantic = pref.FloralRomantic)
    (hCitrusEnergizing : pref'.CitrusEnergizing = pref.CitrusEnergizing)
    (hUnique : pref'.Unique = pref.Unique)
    (hWork : pref'.Work = pref.Work)
    (hDailyWear : pref'.DailyWear = pref.DailyWear) :
    analyzePersonality rangeOrder' pref' = analyzePersonality rangeOrder pref := by
  have hrule : personalityAndTraits pref' = personalityAndTraits pref := by
    simp only [personalityAndTraits, hLightFresh, hWarmSpicy, hSweetGourmand, hWoodyEarthy,
      hFloralRomantic, hCitrusEnergizing, hUnique, hWork, hDailyWear]
  simp only [analyzePersonality, getStyleDescription, hrule]

/-- Witness of C24: two records that differ in seasonal flags, other occasion
and style flags, performance categories and price range. -/
theorem analyzePersonality_depends_on_nine_flags_witness :
    ({ samplePreferences true true false with
        Spring := true, NightOut := true, Classic := true, SafeBet := true,
        Longevity := "light", Sillage := "heavy", PriceRange := "luxury" } : QuizPreferences) ≠
      samplePreferences true true false ∧
    analyzePersonality scentKeys.reverse
        { samplePreferences true true false with
          Spring := true, NightOut := true, Classic := true, SafeBet := true,
          Longevity := "light", Sillage := "heavy", PriceRange := "luxury" } =
      analyzePersonality scentKeys (samplePreferences true true false) :=
  ⟨by decide,
    analyzePersonality_depends_on_nine_flags scentKeys scentKeys.reverse
      (samplePreferences true true false)
      { samplePreferences true true false with
        Spring := true, NightOut := true, Classic := true, SafeBet := true,
        Longevity := "light", Sillage := "heavy", PriceRange := "luxury" }
      rfl rfl rfl rfl rfl rfl rfl rfl rfl⟩

/-! ## Rank of a result -/

/-- C26: the rank of every result is the position, counted from 1, of its
perfume in the candidate list after exclusion and before sorting; it is not
recomputed after ranking: on the sample catalog the first result has rank 6. -/
theorem rank_is_candidate_position
    (sortSlice : (AdvancedRecommendationResult → AdvancedRecommendationResult → Bool) →
      List AdvancedRecommendationResult → List AdvancedRecommendationResult)
    (hsort : SortSliceContract sortSlice)
    (rangeOrder : List String) (catalog : List Perfume) (fetch₂ : Except String (List Perfume))
    (req : AdvancedRecommendationRequest) (resp : AdvancedRecommendationResponse)
    (h : GetAdvancedRecommendations sortSlice rangeOrder (.ok catalog) fetch₂ req = .ret resp) :
    (∀ r ∈ resp.Results, 1 ≤ r.Rank ∧
      (catalog.filter (fun p => decide (p.ID ∉ req.ExcludeIDs)))[r.Rank - 1]? =
        some r.Perfume) ∧
    (match GetAdvancedRecommendations sort_Slice scentKeys (.ok sampleCatalog)
        (.ok sampleCatalog) (sampleRequest (samplePreferences true false true) 6 []) with
      | .ret sample => sample.Results.map (fun r => r.Rank)
      | _ => []) = [6, 1, 3, 8, 9, 5] := by
  obtain ⟨catalog', hcat, -, hres, -⟩ :=
    GetAdvancedRecommendations_ret_inv sortSlice rangeOrder (.ok catalog) fetch₂ req resp h
  injection hcat with hcat
  subst hcat
  refine ⟨?_, by decide!⟩
  intro r hr
  rw [hres] at hr
  have hperm := (hsort lessByScore (scorePerfumes
    (catalog.filter (fun p => decide (p.ID ∉ req.ExcludeIDs))) req
    (analyzePersonality rangeOrder req.QuizPreferences))
    lessByScore_asymm lessByScore_negTrans).1
  have hmem := hperm.mem_iff.mp (List.mem_of_mem_take hr)
  refine ⟨?_, scorePerfumes_rank_position _ _ _ r hmem⟩
  rw [scorePerfumes_eq_map, List.mem_map] at hmem
  obtain ⟨ip, -, rfl⟩ := hmem
  exact Nat.le_add_left 1 ip.1

/-- Witness of C26 on the sample catalog with identifier 3 excluded. -/
theorem rank_is_candidate_position_witness :
    SortSliceContract (insertionSortSlice :
      (AdvancedRecommendationResult → AdvancedRecommendationResult → Bool) → _ → _) ∧
    ∃ resp, GetAdvancedRecommendations insertionSortSlice scentKeys (.ok sampleCatalog)
        (.ok sampleCatalog) (sampleRequest (samplePreferences true false true) 6 [3]) =
          .ret resp ∧
      resp.Results.map (fun r => (r.Rank, r.Perfume.ID)) =
        [(5, 6), (1, 1), (7, 8), (8, 9), (4, 5), (3, 4)] ∧
      (∀ r ∈ resp.Results, 1 ≤ r.Rank ∧
        (sampleCatalog.filter (fun p => decide (p.ID ∉
          (sampleRequest (samplePreferences true false true) 6 [3]).ExcludeIDs)))[r.Rank - 1]? =
            some r.Perfume) :=
  ⟨insertionSortSlice_contract, _,
    GetAdvancedRecommendations_nonneg insertionSortSlice scentKeys sampleCatalog
      (.ok sampleCatalog) (sampleRequest (samplePreferences true false true) 6 [3]) (by decide),
    by decide!,
    (rank_is_candidate_position insertionSortSlice insertionSortSlice_contract scentKeys
      sampleCatalog (.ok sampleCatalog)
      (sampleRequest (samplePreferences true false true) 6 [3]) _
      (GetAdvancedRecommendations_nonneg insertionSortSlice scentKeys sampleCatalog
        (.ok sampleCatalog) (sampleRequest (samplePreferences true false true) 6 [3])
        (by decide))).1⟩

/-! ## Personality types -/

/-- C27: for every preference record the label, traits and style description
returned by `analyzePersonality` are the type, traits and description of one
of the six entries of `GetPersonalityTypes`; so the fallback description of
`getStyleDescription` is never returned. -/
theorem analyzePersonality_in_GetPersonalityTypes (rangeOrder : List String)
    (pref : QuizPreferences) :
    GetPersonalityTypes.length = 6 ∧
    (∃ entry ∈ GetPersonalityTypes,
      (analyzePersonality rangeOrder pref).ScentPersonality = entry.type_ ∧
      (analyzePersonality rangeOrder pref).KeyTraits = entry.traits ∧
      (analyzePersonality rangeOrder pref).StyleDescription = entry.description) ∧
    (analyzePersonality rangeOrder pref).StyleDescription ≠
      "You have unique preferences that deserve special consideration." := by
  have hentry : ∃ entry ∈ GetPersonalityTypes,
      (analyzePersonality rangeOrder pref).ScentPersonality = entry.type_ ∧
      (analyzePersonality rangeOrder pref).KeyTraits = entry.traits ∧
      (analyzePersonality rangeOrder pref).StyleDescription = entry.description := by
    simp only [analyzePersonality, personalityAndTraits]
    split_ifs
    · exact ⟨_, List.mem_cons_self _ _, rfl, rfl, rfl⟩
    · exact ⟨_, List.mem_cons_of_mem _ (List.mem_cons_self _ _), rfl, rfl, rfl⟩
    · exact ⟨_, List.mem_cons_of_mem _ (List.mem_cons_of_mem _ (List.mem_cons_self _ _)),
        rfl, rfl, rfl⟩
    · exact ⟨_, List.mem_cons_of_mem _ (List.mem_cons_of_mem _
        (List.mem_cons_of_mem _ (List.mem_cons_self _ _))), rfl, rfl, rfl⟩
    · exact ⟨_, List.mem_cons_of_mem _ (List.mem_cons_of_mem _ (List.mem_cons_of_mem _
        (List.mem_cons_of_mem _ (List.mem_cons_self _ _)))), rfl, rfl, rfl⟩
    · exact ⟨_, List.mem_cons_of_mem _ (List.mem_cons_of_mem _ (List.mem_cons_of_mem _
        (List.mem_cons_of_mem _ (List.mem_cons_of_mem _ (List.mem_cons_self _ _))))),
        rfl, rfl, rfl⟩
  have hnofallback : ∀ entry ∈ GetPersonalityTypes, entry.description ≠
      "You have unique preferences that deserve special consideration." := by decide
  refine ⟨rfl, hentry, ?_⟩
  obtain ⟨entry, hmem, -, -, hdesc⟩ := hentry
  rw [hdesc]
  exact hnofallback entry hmem

/-! ## Imported longevity values -/

theorem mapLongevity_values (x : String) :
    mapLongevity x = "Strong" ∨ mapLongevity x = "Medium" ∨ mapLongevity x = "Light" := by
  unfold mapLongevity
  split_ifs <;> simp

/-- C29: a perfume whose longevity is an output of `mapLongevity` ("Strong",
"Medium" or "Light") gets no longevity bonus when the requested longevity is
"long": its performance score is 0.5 plus the sillage bonus only. -/
theorem imported_longevity_never_matches_long (x : String) (perfume : Perfume)
    (pref : QuizPreferences) (himported : perfume.Longevity = mapLongevity x)
    (hlong : pref.Longevity = "long") :
    (mapLongevity x = "Strong" ∨ mapLongevity x = "Medium" ∨ mapLongevity x = "Light") ∧
    longevityMatches perfume pref = false ∧
    calculatePerformanceMatch perfume pref =
      0.5 + (if sillageMatches perfume pref then 0.2 else 0) := by
  have hvalues := mapLongevity_values x
  have hno : longevityMatches perfume pref = false := by
    unfold longevityMatches
    rw [hlong, himported]
    rcases hvalues with h | h | h <;> rw [h] <;> decide
  refine ⟨hvalues, hno, ?_⟩
  simp only [calculatePerformanceMatch]
  rw [longevity_bonus_eq, sillage_bonus_eq, hno]
  cases sillageMatches perfume pref <;> norm_num

/-- Witness of C29: the CSV value "Very Strong" with requested longevity
"long" and sillage "moderate". -/
theorem imported_longevity_never_matches_long_witness :
    ({ fullPerfume with Longevity := mapLongevity "Very Strong" } : Perfume).Longevity =
      mapLongevity "Very Strong" ∧
    (samplePreferences false false false).Longevity = "long" ∧
    mapLongevity "Very Strong" = "Strong" ∧
    calculatePerformanceMatch { fullPerfume with Longevity := mapLongevity "Very Strong" }
      (samplePreferences false false false) = 0.7 ∧
    calculatePerformanceMatch { fullPerfume with Longevity := mapLongevity "Very Strong" }
        (samplePreferences false false false) =
      0.5 + (if sillageMatches { fullPerfume with Longevity := mapLongevity "Very Strong" }
        (samplePreferences false false false) then 0.2 else 0) :=
  ⟨rfl, rfl, by decide, by decide!,
    (imported_longevity_never_matches_long "Very Strong"
      { fullPerfume with Longevity := mapLongevity "Very Strong" }
      (samplePreferences false false false) rfl rfl).2.2⟩

/-! ## Review reports -/

/-- C30: for a reason that is not exactly one of the six valid reasons
`ReportReview` returns the error "invalid report reason: " followed by the
reason and leaves the repository as it was; for each of the six it returns
what the `ReportReview` of the repository returns for the same arguments. -/
theorem ReportReview_validates_reason {σ : Type}
    (repoReportReview : Int → String → String → String → σ → Option String × σ)
    (reviewID : Int) (reason description userIdentifier : String) (repo : σ) :
    EnhancedReviewService_ReportReview repoReportReview reviewID reason description
        userIdentifier repo =
      (if reason ∈ ["inappropriate-content", "spam", "fake-review", "off-topic",
          "harmful-content", "other"]
        then repoReportReview reviewID reason description userIdentifier repo
        else (some ("invalid report reason: " ++ reason), repo)) ∧
    (EnhancedReviewService_ReportReview
        (EnhancedReviewRepositoryGORM_ReportReview none) 7 "Spam" "d" "u" [] =
      (some "invalid report reason: Spam", [])) ∧
    (EnhancedReviewService_ReportReview
        (EnhancedReviewRepositoryGORM_ReportReview none) 7 "spam" "d" "u" [] =
      (none, [{ ReviewID := 7, Reason := "spam", Description := "d", UserIdentifier := "u" }])) := by
  refine ⟨?_, by decide, by decide⟩
  unfold EnhancedReviewService_ReportReview
  by_cases hvalid : reason ∈ ["inappropriate-content", "spam", "fake-review", "off-topic",
      "harmful-content", "other"]
  · have hany : (["inappropriate-content", "spam", "fake-review", "off-topic",
        "harmful-content", "other"].any (fun validReason => reason == validReason)) = true := by
      rw [List.any_eq_true]
      exact ⟨reason, hvalid, beq_self_eq_true _⟩
    simp only [hany, Bool.not_true, Bool.false_eq_true, if_false, if_pos hvalid]
  · have hany : (["inappropriate-content", "spam", "fake-review", "off-topic",
        "harmful-content", "other"].any (fun validReason => reason == validReason)) = false := by
      rw [List.any_eq_false]
      intro v hv hbeq
      rw [beq_iff_eq] at hbeq
      exact hvalid (hbeq ▸ hv)
    simp only [hany, Bool.not_false, if_true, if_neg hvalid]

/-! ## The exchange sort of the simple recommender -/

theorem getElem?_far {α : Type} (pre mid : List α) (x y : α) (post : List α) :
    (pre ++ x :: (mid ++ y :: post))[pre.length + 1 + mid.length]? = some y := by
  rw [List.getElem?_append_right (by omega)]
  have h : pre.length + 1 + mid.length - pre.length = mid.length + 1 := by omega
  rw [h, List.getElem?_cons_succ, List.getElem?_append_right (le_refl _)]
  simp

theorem getElem?_near {α : Type} (pre : List α) (x : α) (tail : List α) :
    (pre ++ x :: tail)[pre.length]? = some x := by
  rw [List.getElem?_append_right (le_refl _)]
  simp

theorem swapAt_far {α : Type} (pre mid : List α) (x y : α) (post : List α) :
    swapAt (pre ++ x :: (mid ++ y :: post)) pre.length (pre.length + 1 + mid.length) =
      pre ++ y :: (mid ++ x :: post) := by
  unfold swapAt
  rw [getElem?_near, getElem?_far]
  simp only []
  rw [List.set_append_right _ _ (le_refl _)]
  simp only [Nat.sub_self, List.set_cons_zero]
  rw [List.set_append_right _ _ (by omega)]
  have h : pre.length + 1 + mid.length - pre.length = mid.length + 1 := by omega
  rw [h, List.set_cons_succ, List.set_append_right _ _ (le_refl _)]
  simp

theorem scoreGreaterAt_far (pre mid : List RecommendationResultResponse)
    (x y : RecommendationResultResponse) (post : List RecommendationResultResponse) :
    scoreGreaterAt (pre ++ x :: (mid ++ y :: post)) (pre.length + 1 + mid.length) pre.length =
      decide (y.Score > x.Score) := by
  unfold scoreGreaterAt
  rw [getElem?_near, getElem?_far]

theorem bubbleMax_length (x : RecommendationResultResponse)
    (l : List RecommendationResultResponse) : (bubbleMax x l).2.length = l.length := by
  induction l generalizing x with
  | nil => rfl
  | cons y ys ih =>
    unfold bubbleMax
    split_ifs <;> simp [ih]

theorem exchangeInner_eq (pre done todo : List RecommendationResultResponse)
    (x : RecommendationResultResponse) :
    exchangeInner pre.length todo.length (pre.length + 1 + done.length)
        (pre ++ x :: (done ++ todo)) =
      pre ++ (bubbleMax x todo).1 :: (done ++ (bubbleMax x todo).2) := by
  induction todo generalizing x done with
  | nil => simp [exchangeInner, bubbleMax]
  | cons y ys ih =>
    simp only [List.length_cons, exchangeInner]
    rw [scoreGreaterAt_far, swapAt_far]
    have hlen : pre.length + 1 + done.length + 1 = pre.length + 1 + (done ++ [x]).length := by
      simp; omega
    have hlen' : pre.length + 1 + done.length + 1 = pre.length + 1 + (done ++ [y]).length := by
      simp; omega
    by_cases hgt : y.Score > x.Score
    · simp only [hgt, decide_True, if_true]
      have hshape : pre ++ y :: (done ++ x :: ys) = pre ++ y :: ((done ++ [x]) ++ ys) := by simp
      rw [hshape, hlen, ih (done ++ [x]) y]
      simp [bubbleMax, hgt]
    · simp only [hgt, decide_False, Bool.false_eq_true, if_false]
      have hshape : pre ++ x :: (done ++ y :: ys) = pre ++ x :: ((done ++ [y]) ++ ys) := by simp
      rw [hshape, hlen', ih (done ++ [y]) x]
      simp [bubbleMax, hgt]

theorem exchangeOuter_steps (n : Nat) (pre rest : List RecommendationResultResponse)
    (hn : rest.length = n) :
    exchangeOuter n pre.length (pre ++ rest) = pre ++ exchangeSort n rest := by
  induction n generalizing pre rest with
  | zero => simp [exchangeOuter, exchangeSort]
  | succ n ih =>
    cases rest with
    | nil => simp at hn
    | cons x rest =>
      simp only [List.length_cons, Nat.add_right_cancel_iff] at hn
      simp only [exchangeOuter, exchangeSort]
      have hsteps : (pre ++ x :: rest).length - (pre.length + 1) = rest.length := by
        simp only [List.length_append, List.length_cons]
        omega
      have hinner := exchangeInner_eq pre [] rest x
      simp only [List.length_nil, Nat.add_zero, List.nil_append] at hinner
      rw [hsteps, hinner]
      have hshape : pre ++ (bubbleMax x rest).1 :: (bubbleMax x rest).2 =
          (pre ++ [(bubbleMax x rest).1]) ++ (bubbleMax x rest).2 := by simp
      have hlen : pre.length + 1 = (pre ++ [(bubbleMax x rest).1]).length := by simp
      have hn' : (bubbleMax x rest).2.length = n := by rw [bubbleMax_length, hn]
      rw [hshape, hlen, ih (pre ++ [(bubbleMax x rest).1]) (bubbleMax x rest).2 hn']
      simp

theorem exchangeOuter_eq (pre rest : List RecommendationResultResponse) :
    exchangeOuter rest.length pre.length (pre ++ rest) = pre ++ exchangeSort rest.length rest :=
  exchangeOuter_steps rest.length pre rest rfl

theorem bubbleMax_perm (x : RecommendationResultResponse)
    (l : List RecommendationResultResponse) :
    ((bubbleMax x l).1 :: (bubbleMax x l).2).Perm (x :: l) := by
  induction l generalizing x with
  | nil => exact List.Perm.refl _
  | cons y ys ih =>
    unfold bubbleMax
    split_ifs
    · exact ((List.Perm.swap x _ _).trans (List.Perm.cons x (ih y)))
    · exact ((List.Perm.swap y _ _).trans (List.Perm.cons y (ih x))).trans
        (List.Perm.swap x y ys)

theorem bubbleMax_ge (x : RecommendationResultResponse)
    (l : List RecommendationResultResponse) :
    x.Score ≤ (bubbleMax x l).1.Score ∧
      ∀ z ∈ (bubbleMax x l).2, z.Score ≤ (bubbleMax x l).1.Score := by
  induction l generalizing x with
  | nil => exact ⟨le_refl _, fun z hz => by cases hz⟩
  | cons y ys ih =>
    unfold bubbleMax
    by_cases hgt : y.Score > x.Score
    · simp only [hgt, if_true]
      refine ⟨le_trans (le_of_lt hgt) (ih y).1, ?_⟩
      intro z hz
      rcases List.mem_cons.mp hz with rfl | hz
      · exact le_trans (le_of_lt hgt) (ih y).1
      · exact (ih y).2 z hz
    · simp only [hgt, if_false]
      refine ⟨(ih x).1, ?_⟩
      intro z hz
      rcases List.mem_cons.mp hz with rfl | hz
      · exact le_trans (not_lt.mp hgt) (ih x).1
      · exact (ih x).2 z hz

theorem exchangeSort_perm (n : Nat) (l : List RecommendationResultResponse) :
    (exchangeSort n l).Perm l := by
  induction n generalizing l with
  | zero => exact List.Perm.refl _
  | succ n ih =>
    cases l with
    | nil => exact List.Perm.refl _
    | cons x rest =>
      simp only [exchangeSort]
      exact (List.Perm.cons _ (ih _)).trans (bubbleMax_perm x rest)

theorem exchangeSort_sorted (n : Nat) (l : List RecommendationResultResponse)
    (hn : l.length ≤ n) :
    (exchangeSort n l).Pairwise (fun a b => a.Score ≥ b.Score) := by
  induction n generalizing l with
  | zero =>
    have : l = [] := List.length_eq_zero.mp (Nat.le_zero.mp hn)
    subst this
    exact List.Pairwise.nil
  | succ n ih =>
    cases l with
    | nil => exact List.Pairwise.nil
    | cons x rest =>
      simp only [exchangeSort]
      rw [List.pairwise_cons]
      refine ⟨?_, ih _ ?_⟩
      · intro z hz
        exact (bubbleMax_ge x rest).2 z ((exchangeSort_perm n _).mem_iff.mp hz)
      · rw [bubbleMax_length]
        simpa using hn

/-- What `RecommendPerfumes` returns for a fetched catalog: the scored entries,
sorted by the exchange sort and cut to six. -/
theorem RecommendPerfumes_ok (catalog : List Perfume) (aromaSlugs : List String) :
    RecommendPerfumes (.ok catalog) aromaSlugs =
      .ok { Results := (exchangeSort catalog.length
              (catalog.map (recommendEntry aromaSlugs))).take 6
            BlendExplanation :=
              "Based on your aroma preferences, we found these matching fragrances." } := by
  unfold RecommendPerfumes
  simp only []
  rw [foldl_append_map (recommendEntry aromaSlugs) catalog []]
  simp only [List.nil_append, List.length_map]
  have houter := exchangeOuter_eq [] (catalog.map (recommendEntry aromaSlugs))
  simp only [List.length_nil, List.nil_append, List.length_map] at houter
  rw [houter]
  by_cases hlen : (exchangeSort catalog.length
      (catalog.map (recommendEntry aromaSlugs))).length > 6
  · simp only [hlen, if_true]
  · simp only [hlen, if_false]
    rw [List.take_of_length_le (by omega)]

/-- C28: for a fetched catalog of n perfumes and any slug list
`RecommendPerfumes` returns min(6, n) results in non-increasing score order;
together with the entries left out they are a rearrangement of the scored
catalog, so each comes from a distinct catalog perfume, and every result
scores at least as much as every entry left out. -/
theorem RecommendPerfumes_top_six (catalog : List Perfume) (aromaSlugs : List String) :
    ∃ resp leftOut, RecommendPerfumes (.ok catalog) aromaSlugs = .ok resp ∧
      resp.Results.length = min 6 catalog.length ∧
      resp.Results.Pairwise (fun a b => a.Score ≥ b.Score) ∧
      (resp.Results ++ leftOut).Perm (catalog.map (recommendEntry aromaSlugs)) ∧
      ∀ r ∈ resp.Results, ∀ l ∈ leftOut, r.Score ≥ l.Score := by
  have hperm := exchangeSort_perm catalog.length (catalog.map (recommendEntry aromaSlugs))
  have hsorted := exchangeSort_sorted catalog.length (catalog.map (recommendEntry aromaSlugs))
    (by simp)
  refine ⟨_, (exchangeSort catalog.length (catalog.map (recommendEntry aromaSlugs))).drop 6,
    RecommendPerfumes_ok catalog aromaSlugs, ?_, ?_, ?_, ?_⟩
  · simp only [List.length_take, hperm.length_eq, List.length_map]
  · exact hsorted.sublist (List.take_sublist _ _)
  · simp only [List.take_append_drop]
    exact hperm
  · have happ := hsorted
    rw [← List.take_append_drop 6 (exchangeSort catalog.length
      (catalog.map (recommendEntry aromaSlugs))), List.pairwise_append] at happ
    intro r hr l hl
    exact happ.2.2 r hr l hl

/-! ## Lower-casing of ASCII letters -/

/-- The lower-case form of a character below U+0080 is below U+0080. -/
theorem toLower_lt_128 (c : Char) (hc : c.toNat < 128) : c.toLower.toNat < 128 := by
  unfold Char.toLower
  by_cases hup : c.toNat ≥ 65 ∧ c.toNat ≤ 90
  · simp only [hup, and_self, if_true]
    obtain ⟨h1, h2⟩ := hup
    generalize c.toNat = n at h1 h2
    interval_cases n <;> decide
  · simp only [hup, if_false]
    exact hc

/-- A character that `Char.toLower` changes is one of `A`..`Z`. -/
theorem toLower_ne_lt_128 (c : Char) (hc : c.toLower ≠ c) : c.toNat < 128 := by
  unfold Char.toLower at hc
  by_cases hup : c.toNat ≥ 65 ∧ c.toNat ≤ 90
  · omega
  · simp only [hup, if_false, ne_eq, not_true_eq_false] at hc

/-- Two characters that differ at most in the case of an ASCII letter have the
same image under every `unicode.ToLower`. -/
theorem lower_eq_of_ascii_case (unicode_ToLower : Char → Char)
    (hascii : LowersAscii unicode_ToLower) (x y : Char) (hxy : x.toLower = y.toLower) :
    unicode_ToLower x = unicode_ToLower y := by
  by_cases hx : x.toNat < 128
  · by_cases hy : y.toNat < 128
    · rw [hascii x hx, hascii y hy, hxy]
    · by_cases hyl : y.toLower = y
      · have : x.toLower.toNat < 128 := toLower_lt_128 x hx
        rw [hxy, hyl] at this
        exact absurd this hy
      · exact absurd (toLower_ne_lt_128 y hyl) hy
  · by_cases hxl : x.toLower = x
    · by_cases hyl : y.toLower = y
      · rw [hxl, hyl] at hxy
        rw [hxy]
      · have hy : y.toNat < 128 := toLower_ne_lt_128 y hyl
        have : y.toLower.toNat < 128 := toLower_lt_128 y hy
        rw [← hxy, hxl] at this
        exact absurd this hx
    · exact absurd (toLower_ne_lt_128 x hxl) hx

/-- Two strings that differ at most in the case of ASCII letters have the same
`strings.ToLower`. -/
theorem strings_Map_eq_of_ascii_case (unicode_ToLower : Char → Char)
    (hascii : LowersAscii unicode_ToLower) (a b : String)
    (hab : strings_ToLower a = strings_ToLower b) :
    strings_Map unicode_ToLower a = strings_Map unicode_ToLower b := by
  unfold strings_ToLower at hab
  unfold strings_Map
  have hdata : a.data.map Char.toLower = b.data.map Char.toLower := by
    injection hab
  congr 1
  generalize a.data = l at hdata
  generalize b.data = m at hdata
  induction l generalizing m with
  | nil =>
    cases m with
    | nil => rfl
    | cons y m => simp at hdata
  | cons x l ih =>
    cases m with
    | nil => simp at hdata
    | cons y m =>
      simp only [List.map_cons, List.cons.injEq] at hdata ⊢
      exact ⟨lower_eq_of_ascii_case unicode_ToLower hascii x y hdata.1, ih m hdata.2⟩

/-- On a string of characters below U+0080 `strings.ToLower` changes `A`..`Z`
to `a`..`z` and nothing else. -/
theorem strings_Map_ascii (unicode_ToLower : Char → Char)
    (hascii : LowersAscii unicode_ToLower) (s : String)
    (hs : ∀ c ∈ s.data, c.toNat < 128) :
    strings_Map unicode_ToLower s = strings_ToLower s := by
  unfold strings_Map strings_ToLower
  congr 1
  exact List.map_congr_left (fun c hc => hascii c (hs c hc))

/-- `Char.toLower` is a `unicode.ToLower` as far as ASCII goes. -/
theorem lowersAscii_toLower : LowersAscii Char.toLower := fun _ _ => rfl

/-- On a description of characters below U+0080 the season score does not
depend on the case tables. -/
theorem calculateSeasonMatch64_ascii (unicode_ToLower : Char → Char)
    (hascii : LowersAscii unicode_ToLower) (perfume : Perfume) (season : String)
    (hdesc : ∀ c ∈ perfume.Description.data, c.toNat < 128) :
    calculateSeasonMatch64 unicode_ToLower perfume season =
      calculateSeasonMatch64 Char.toLower perfume season := by
  have h1 := strings_Map_ascii unicode_ToLower hascii perfume.Description hdesc
  have h2 := strings_Map_ascii Char.toLower lowersAscii_toLower perfume.Description hdesc
  simp only [calculateSeasonMatch64, h1, h2]

/-- On a brand and a description of characters below U+0080 the occasion score
does not depend on the case tables. -/
theorem calculateOccasionMatch64_ascii (unicode_ToLower : Char → Char)
    (hascii : LowersAscii unicode_ToLower) (perfume : Perfume) (occasion : String)
    (pref : QuizPreferences)
    (hbrand : ∀ c ∈ perfume.Brand.data, c.toNat < 128)
    (hdesc : ∀ c ∈ perfume.Description.data, c.toNat < 128) :
    calculateOccasionMatch64 unicode_ToLower perfume occasion pref =
      calculateOccasionMatch64 Char.toLower perfume occasion pref := by
  have h1 := strings_Map_ascii unicode_ToLower hascii perfume.Description hdesc
  have h2 := strings_Map_ascii Char.toLower lowersAscii_toLower perfume.Description hdesc
  have h3 := strings_Map_ascii unicode_ToLower hascii perfume.Brand hbrand
  have h4 := strings_Map_ascii Char.toLower lowersAscii_toLower perfume.Brand hbrand
  simp only [calculateOccasionMatch64, h1, h2, h3, h4]

/-! ## Binary64 values of the sub-scores -/

/-- In binary64 0.6 + 0.3 is 0.8999999999999999, one unit in the last place
below 0.9, and stays under the cap. -/
theorem f64_base_plus_bonus :
    min (f64_add (f64 0.6) (f64 0.3)) (f64 1.0) = f64 0.8999999999999999 ∧
    min (f64 0.6) (f64 1.0) = f64 0.6 := by
  constructor <;> decide!

/-- C19, amended: for a situation other than work `calculateOccasionMatch`
returns the binary64 sum 0.6 + 0.3, which is 0.8999999999999999 and not 0.9,
when the situation is "date" and the lower-cased description contains
"romantic" or "seductive", or it is "casual" with price below 150 and sillage
Light, or it is "special" with price above 100 or sillage Heavy; in every
other case, an unrecognized situation included, it returns 0.6; the preference
record never affects the result. -/
theorem calculateOccasionMatch64_other (unicode_ToLower : Char → Char) (perfume : Perfume)
    (occasion : String) (pref : QuizPreferences) (hwork : occasion ≠ "work") :
    calculateOccasionMatch64 unicode_ToLower perfume occasion pref =
      (if (occasion = "date" ∧
            (strings_Contains (strings_Map unicode_ToLower perfume.Description) "romantic" =
                true ∨
              strings_Contains (strings_Map unicode_ToLower perfume.Description) "seductive" =
                true)) ∨
          (occasion = "casual" ∧ perfume.Price < 150 ∧ perfume.Sillage = "Light") ∨
          (occasion = "special" ∧ (perfume.Price > 100 ∨ perfume.Sillage = "Heavy"))
        then f64 0.8999999999999999 else f64 0.6) ∧
    f64 0.8999999999999999 = f64_add (f64 0.6) (f64 0.3) ∧
    f64 0.8999999999999999 < f64 0.9 ∧
    ∀ pref' : QuizPreferences,
      calculateOccasionMatch64 unicode_ToLower perfume occasion pref' =
        calculateOccasionMatch64 unicode_ToLower perfume occasion pref := by
  refine ⟨?_, by decide!, by decide!, fun _ => rfl⟩
  obtain ⟨hbonus, hbase⟩ := f64_base_plus_bonus
  simp only [calculateOccasionMatch64, hwork, if_false, Bool.or_eq_true]
  by_cases hdate : occasion = "date"
  · subst hdate
    simp only [if_true, true_and]
    have h1 : ¬ ("date" = "casual") := by decide
    have h2 : ¬ ("date" = "special") := by decide
    simp only [h1, h2, false_and, or_false]
    split_ifs
    · exact hbonus
    · exact hbase
  · by_cases hcasual : occasion = "casual"
    · subst hcasual
      have h2 : ¬ ("casual" = "special") := by decide
      simp only [hdate, if_false, if_true, true_and, false_and, false_or, h2, or_false]
      split_ifs
      · exact hbonus
      · exact hbase
    · by_cases hspecial : occasion = "special"
      · subst hspecial
        simp only [hdate, hcasual, if_false, if_true, true_and, false_and, false_or]
        split_ifs
        · exact hbonus
        · exact hbase
      · simp only [hdate, hcasual, hspecial, if_false, false_and, false_or]
        exact hbase

/-- Witness of the amended C19: a date with a description that says
"romantic". -/
theorem calculateOccasionMatch64_other_witness :
    ("date" : String) ≠ "work" ∧
    calculateOccasionMatch64 Char.toLower citrusFreshPerfume "date"
        (samplePreferences false false false) =
      (if (("date" : String) = "date" ∧
            (strings_Contains (strings_Map Char.toLower citrusFreshPerfume.Description)
                "romantic" = true ∨
              strings_Contains (strings_Map Char.toLower citrusFreshPerfume.Description)
                "seductive" = true)) ∨
          (("date" : String) = "casual" ∧ citrusFreshPerfume.Price < 150 ∧
            citrusFreshPerfume.Sillage = "Light") ∨
          (("date" : String) = "special" ∧
            (citrusFreshPerfume.Price > 100 ∨ citrusFreshPerfume.Sillage = "Heavy"))
        then f64 0.8999999999999999 else f64 0.6) ∧
    calculateOccasionMatch64 Char.toLower citrusFreshPerfume "date"
        (samplePreferences false false false) = f64 0.8999999999999999 :=
  ⟨by decide,
    (calculateOccasionMatch64_other Char.toLower citrusFreshPerfume "date"
      (samplePreferences false false false) (by decide)).1,
    by decide!⟩

/-- C19 as stated fails: for a date with a description that says "romantic"
the code returns 0.8999999999999999 (the rational 2026619832316723 / 2^51),
which is neither the binary64 value of 0.9 nor the number 0.9. -/
theorem occasion_bonus_counterexample :
    calculateOccasionMatch64 Char.toLower citrusFreshPerfume "date"
        (samplePreferences false false false) = 2026619832316723 / 2251799813685248 ∧
    calculateOccasionMatch64 Char.toLower citrusFreshPerfume "date"
        (samplePreferences false false false) ≠ f64 0.9 ∧
    calculateOccasionMatch64 Char.toLower citrusFreshPerfume "date"
        (samplePreferences false false false) ≠ 0.9 := by
  refine ⟨?_, ?_, ?_⟩ <;> decide!

/-- C21, amended: `calculateSeasonMatch` returns the binary64 sum 0.6 + 0.3,
which is 0.8999999999999999 and not 0.9, when the season is spring, summer,
fall or winter and the lower-cased description contains one of the keywords of
that season as a substring, and 0.6 otherwise, in particular for every season
string outside those four; the description counts only through its lower-cased
form. -/
theorem calculateSeasonMatch64_closed_form (unicode_ToLower : Char → Char)
    (perfume : Perfume) (season : String) :
    calculateSeasonMatch64 unicode_ToLower perfume season =
      (if (seasonKeywords season).any
          (fun keyword =>
            strings_Contains (strings_Map unicode_ToLower perfume.Description) keyword) = true
        then f64 0.8999999999999999 else f64 0.6) ∧
    f64 0.8999999999999999 = f64_add (f64 0.6) (f64 0.3) ∧
    f64 0.8999999999999999 < f64 0.9 ∧
    (season ≠ "spring" → season ≠ "summer" → season ≠ "fall" → season ≠ "winter" →
      calculateSeasonMatch64 unicode_ToLower perfume season = f64 0.6) ∧
    (∀ perfume' : Perfume,
      strings_Map unicode_ToLower perfume'.Description =
          strings_Map unicode_ToLower perfume.Description →
        calculateSeasonMatch64 unicode_ToLower perfume' season =
          calculateSeasonMatch64 unicode_ToLower perfume season) ∧
    (LowersAscii unicode_ToLower →
      calculateSeasonMatch64 unicode_ToLower fullPerfume "spring" = f64 0.8999999999999999 ∧
      calculateSeasonMatch64 unicode_ToLower { fullPerfume with Description := "So FRESH" }
        "spring" = f64 0.8999999999999999 ∧
      calculateSeasonMatch64 unicode_ToLower fullPerfume "autumn" = f64 0.6) := by
  obtain ⟨hbonus, hbase⟩ := f64_base_plus_bonus
  refine ⟨?_, by decide!, by decide!, ?_, ?_, ?_⟩
  · unfold calculateSeasonMatch64 seasonKeywords
    by_cases h1 : season = "spring"
    · subst h1
      simp only [if_true, List.any_cons, List.any_nil, Bool.or_false]
      split_ifs
      · exact hbonus
      · exact hbase
    · by_cases h2 : season = "summer"
      · subst h2
        simp only [h1, if_false, if_true, List.any_cons, List.any_nil, Bool.or_false,
          Bool.or_assoc]
        split_ifs
        · exact hbonus
        · exact hbase
      · by_cases h3 : season = "fall"
        · subst h3
          simp only [h1, h2, if_false, if_true, List.any_cons, List.any_nil, Bool.or_false,
            Bool.or_assoc]
          split_ifs
          · exact hbonus
          · exact hbase
        · by_cases h4 : season = "winter"
          · subst h4
            simp only [h1, h2, h3, if_false, if_true, List.any_cons, List.any_nil,
              Bool.or_false, Bool.or_assoc]
            split_ifs
            · exact hbonus
            · exact hbase
          · simp only [h1, h2, h3, h4, if_false, List.any_nil]
            exact hbase
  · intro h1 h2 h3 h4
    simp only [calculateSeasonMatch64, h1, h2, h3, h4, if_false]
    exact hbase
  · intro perfume' hdesc
    simp only [calculateSeasonMatch64, hdesc]
  · intro hascii
    rw [calculateSeasonMatch64_ascii unicode_ToLower hascii fullPerfume "spring" (by decide),
      calculateSeasonMatch64_ascii unicode_ToLower hascii
        { fullPerfume with Description := "So FRESH" } "spring" (by decide),
      calculateSeasonMatch64_ascii unicode_ToLower hascii fullPerfume "autumn" (by decide)]
    refine ⟨?_, ?_, ?_⟩ <;> decide!

/-- C21 as stated fails: for spring and a description that says "fresh" the
code returns 0.8999999999999999 (the rational 2026619832316723 / 2^51), which
is neither the binary64 value of 0.9 nor the number 0.9. -/
theorem season_bonus_counterexample :
    calculateSeasonMatch64 Char.toLower fullPerfume "spring" =
      2026619832316723 / 2251799813685248 ∧
    calculateSeasonMatch64 Char.toLower fullPerfume "spring" ≠ f64 0.9 ∧
    calculateSeasonMatch64 Char.toLower fullPerfume "spring" ≠ 0.9 := by
  refine ⟨?_, ?_, ?_⟩ <;> decide!

/-! ## Profile score in binary64 -/

theorem categoryCounts_eq (unicode_ToLower : Char → Char) (perfume : Perfume) (flag : Bool)
    (k₁ k₂ k₃ : String) :
    categoryCounts unicode_ToLower perfume flag [k₁, k₂, k₃] =
      if (flag && ((lowerAromaNames unicode_ToLower perfume).contains k₁ ||
        (lowerAromaNames unicode_ToLower perfume).contains k₂ ||
        (lowerAromaNames unicode_ToLower perfume).contains k₃)) = true then 1 else 0 := by
  unfold categoryCounts
  simp only [List.any_cons, List.any_nil, Bool.or_false, Bool.or_assoc]

theorem categoryCounts_le_one (unicode_ToLower : Char → Char) (perfume : Perfume) (flag : Bool)
    (keywords : List String) : categoryCounts unicode_ToLower perfume flag keywords ≤ 1 := by
  unfold categoryCounts
  split_ifs <;> omega

theorem matchedCategories_le_six (unicode_ToLower : Char → Char) (perfume : Perfume)
    (pref : QuizPreferences) : matchedCategories unicode_ToLower perfume pref ≤ 6 := by
  unfold matchedCategories
  have h1 := categoryCounts_le_one unicode_ToLower perfume pref.LightFresh
    ["citrus", "fresh", "aquatic"]
  have h2 := categoryCounts_le_one unicode_ToLower perfume pref.WarmSpicy
    ["spicy", "warm", "oriental"]
  have h3 := categoryCounts_le_one unicode_ToLower perfume pref.SweetGourmand
    ["sweet", "vanilla", "gourmand"]
  have h4 := categoryCounts_le_one unicode_ToLower perfume pref.WoodyEarthy
    ["woody", "earthy", "cedar"]
  have h5 := categoryCounts_le_one unicode_ToLower perfume pref.FloralRomantic
    ["floral", "rose", "jasmine"]
  have h6 := categoryCounts_le_one unicode_ToLower perfume pref.CitrusEnergizing
    ["citrus", "bergamot", "lemon"]
  omega

/-- One conditional `score += 0.2` moves the running sum one step along
`profileSum`. -/
theorem profileSum_step (c : Prop) [Decidable c] (k : Nat) :
    (if c then f64_add (profileSum k) (f64 0.2) else profileSum k) =
      profileSum (k + if c then 1 else 0) := by
  split_ifs <;> rfl

/-- The profile score is the capped running sum after as many additions of 0.2
as there are matched categories. -/
theorem calculateProfileMatch64_eq_profileSum (unicode_ToLower : Char → Char)
    (perfume : Perfume) (pref : QuizPreferences) :
    calculateProfileMatch64 unicode_ToLower perfume pref =
      min (profileSum (matchedCategories unicode_ToLower perfume pref)) (f64 1.0) := by
  simp only [calculateProfileMatch64, matchedCategories, categoryCounts_eq, lowerAromaNames]
  have h0 : f64 0.5 = profileSum 0 := rfl
  rw [h0]
  simp only [profileSum_step, Nat.zero_add]

/-- The capped running sums: 0.5, 0.7, 0.8999999999999999, and 1.0 from the
third addition on. -/
theorem profileSum_values :
    min (profileSum 0) (f64 1.0) = f64 0.5 ∧
    min (profileSum 1) (f64 1.0) = f64 0.7 ∧
    min (profileSum 2) (f64 1.0) = f64 0.8999999999999999 ∧
    min (profileSum 3) (f64 1.0) = 1 ∧
    min (profileSum 4) (f64 1.0) = 1 ∧
    min (profileSum 5) (f64 1.0) = 1 ∧
    min (profileSum 6) (f64 1.0) = 1 := by
  refine ⟨?_, ?_, ?_, ?_, ?_, ?_, ?_⟩ <;> decide!

/-! ## Profile score: closed form and tag matching -/

/-- The profile score depends on the aroma tags only through the list of their
lower-cased names. -/
theorem calculateProfileMatch64_lowerAromaNames (unicode_ToLower lower : Char → Char)
    (perfume perfume' : Perfume) (pref : QuizPreferences)
    (hnames : lowerAromaNames lower perfume' = lowerAromaNames unicode_ToLower perfume) :
    calculateProfileMatch64 lower perfume' pref =
      calculateProfileMatch64 unicode_ToLower perfume pref := by
  unfold lowerAromaNames at hnames
  simp only [calculateProfileMatch64, hnames]

/-- For tag names of characters below U+0080 every `unicode.ToLower` gives the
lower-cased names that `Char.toLower` gives. -/
theorem lowerAromaNames_ascii (unicode_ToLower : Char → Char)
    (hascii : LowersAscii unicode_ToLower) (perfume : Perfume)
    (hp : ∀ aroma ∈ perfume.AromaTags, ∀ c ∈ aroma.Name.data, c.toNat < 128) :
    lowerAromaNames unicode_ToLower perfume = lowerAromaNames Char.toLower perfume := by
  unfold lowerAromaNames
  refine List.map_congr_left (fun aroma ha => ?_)
  rw [strings_Map_ascii unicode_ToLower hascii aroma.Name (hp aroma ha)]
  rfl

/-- Tag lists whose names differ only in the case of ASCII letters have the
same lower-cased names. -/
theorem lowerAromaNames_of_ascii_case (unicode_ToLower : Char → Char)
    (hascii : LowersAscii unicode_ToLower) (tags tags' : List AromaTag)
    (htags : List.Forall₂ (fun a b => strings_ToLower a.Name = strings_ToLower b.Name)
      tags tags') :
    tags.map (fun aroma => strings_Map unicode_ToLower aroma.Name) =
      tags'.map (fun aroma => strings_Map unicode_ToLower aroma.Name) := by
  induction htags with
  | nil => rfl
  | cons hab _ ih =>
    simp only [List.map_cons, List.cons.injEq]
    exact ⟨strings_Map_eq_of_ascii_case unicode_ToLower hascii _ _ hab, ih⟩

/-- A category counts exactly when its flag is set and the lower-cased name of
some aroma tag is, as a whole, one of its keywords. -/
theorem categoryCounts_iff (unicode_ToLower : Char → Char) (perfume : Perfume) (flag : Bool)
    (keywords : List String) :
    categoryCounts unicode_ToLower perfume flag keywords = 1 ↔
      (flag = true ∧
        ∃ aroma ∈ perfume.AromaTags, strings_Map unicode_ToLower aroma.Name ∈ keywords) := by
  unfold categoryCounts lowerAromaNames
  by_cases hcond : (flag && keywords.any (fun keyword =>
      (perfume.AromaTags.map
        (fun aroma => strings_Map unicode_ToLower aroma.Name)).contains keyword)) = true
  · rw [if_pos hcond]
    simp only [Bool.and_eq_true, List.any_eq_true, List.contains_iff_exists_mem_beq,
      List.mem_map, beq_iff_eq] at hcond
    refine ⟨fun _ => ⟨hcond.1, ?_⟩, fun _ => rfl⟩
    obtain ⟨keyword, hk, name, ⟨aroma, ha, rfl⟩, hname⟩ := hcond.2
    exact ⟨aroma, ha, hname ▸ hk⟩
  · rw [if_neg hcond]
    refine ⟨fun h => absurd h (by decide), fun h => absurd ?_ hcond⟩
    obtain ⟨hflag, aroma, ha, hk⟩ := h
    rw [Bool.and_eq_true, List.any_eq_true]
    refine ⟨hflag, strings_Map unicode_ToLower aroma.Name, hk, ?_⟩
    rw [List.contains_iff_exists_mem_beq]
    exact ⟨strings_Map unicode_ToLower aroma.Name, List.mem_map.mpr ⟨aroma, ha, rfl⟩,
      beq_self_eq_true _⟩

/-- A category whose keywords are all among `profileKeywords` does not count
when no lower-cased tag name is one of the keywords. -/
theorem categoryCounts_eq_zero (unicode_ToLower : Char → Char) (perfume : Perfume)
    (flag : Bool) (keywords : List String) (hsub : ∀ k ∈ keywords, k ∈ profileKeywords)
    (hnone : ∀ aroma ∈ perfume.AromaTags,
      strings_Map unicode_ToLower aroma.Name ∉ profileKeywords) :
    categoryCounts unicode_ToLower perfume flag keywords = 0 := by
  have hle := categoryCounts_le_one unicode_ToLower perfume flag keywords
  have hne : categoryCounts unicode_ToLower perfume flag keywords ≠ 1 := by
    intro h1
    obtain ⟨-, aroma, ha, hk⟩ := (categoryCounts_iff unicode_ToLower perfume flag keywords).mp h1
    exact hnone aroma ha (hsub _ hk)
  omega

/-- Without a tag whose lower-cased name is a keyword no category matches. -/
theorem matchedCategories_eq_zero (unicode_ToLower : Char → Char) (perfume : Perfume)
    (pref : QuizPreferences)
    (hnone : ∀ aroma ∈ perfume.AromaTags,
      strings_Map unicode_ToLower aroma.Name ∉ profileKeywords) :
    matchedCategories unicode_ToLower perfume pref = 0 := by
  unfold matchedCategories
  rw [categoryCounts_eq_zero unicode_ToLower perfume _ _ (by decide) hnone,
    categoryCounts_eq_zero unicode_ToLower perfume _ _ (by decide) hnone,
    categoryCounts_eq_zero unicode_ToLower perfume _ _ (by decide) hnone,
    categoryCounts_eq_zero unicode_ToLower perfume _ _ (by decide) hnone,
    categoryCounts_eq_zero unicode_ToLower perfume _ _ (by decide) hnone,
    categoryCounts_eq_zero unicode_ToLower perfume _ _ (by decide) hnone]

/-- C15, amended: `calculateProfileMatch` returns the minimum of 1.0 and the
binary64 value of 0.5 after k rounded additions of 0.2, where k counts the
preference flags that are set and whose category has a keyword among the
lower-cased aroma-tag names: 0.5 for k = 0, 0.7 for k = 1, 0.8999999999999999
for k = 2 and 1.0 for k of 3 or more.  This is the value of the formula
min(1.0, 0.5 + 0.2 k) except at k = 2; with tags "Citrus" and "Fresh" and only
`light_fresh` set the score is 0.7. -/
theorem calculateProfileMatch64_closed_form (unicode_ToLower : Char → Char)
    (perfume : Perfume) (pref : QuizPreferences) :
    calculateProfileMatch64 unicode_ToLower perfume pref =
      min (profileSum (matchedCategories unicode_ToLower perfume pref)) (f64 1.0) ∧
    (matchedCategories unicode_ToLower perfume pref = 0 →
      calculateProfileMatch64 unicode_ToLower perfume pref = f64 0.5) ∧
    (matchedCategories unicode_ToLower perfume pref = 1 →
      calculateProfileMatch64 unicode_ToLower perfume pref = f64 0.7) ∧
    (matchedCategories unicode_ToLower perfume pref = 2 →
      calculateProfileMatch64 unicode_ToLower perfume pref = f64 0.8999999999999999) ∧
    (3 ≤ matchedCategories unicode_ToLower perfume pref →
      calculateProfileMatch64 unicode_ToLower perfume pref = 1) ∧
    (matchedCategories unicode_ToLower perfume pref ≠ 2 →
      calculateProfileMatch64 unicode_ToLower perfume pref =
        profileFormula64 (matchedCategories unicode_ToLower perfume pref)) ∧
    (LowersAscii unicode_ToLower →
      calculateProfileMatch64 unicode_ToLower citrusFreshPerfume
        (samplePreferences true false false) = f64 0.7) := by
  have hform := calculateProfileMatch64_eq_profileSum unicode_ToLower perfume pref
  have hle := matchedCategories_le_six unicode_ToLower perfume pref
  obtain ⟨v0, v1, v2, v3, v4, v5, v6⟩ := profileSum_values
  have f0 : profileFormula64 0 = f64 0.5 := by decide!
  have f1 : profileFormula64 1 = f64 0.7 := by decide!
  have f3 : profileFormula64 3 = 1 := by decide!
  have f4 : profileFormula64 4 = 1 := by decide!
  have f5 : profileFormula64 5 = 1 := by decide!
  have f6 : profileFormula64 6 = 1 := by decide!
  refine ⟨hform, ?_, ?_, ?_, ?_, ?_, ?_⟩
  · intro hk
    rw [hform, hk, v0]
  · intro hk
    rw [hform, hk, v1]
  · intro hk
    rw [hform, hk, v2]
  · intro hk
    rw [hform]
    generalize matchedCategories unicode_ToLower perfume pref = k at hk hle
    interval_cases k
    · exact v3
    · exact v4
    · exact v5
    · exact v6
  · intro hk
    rw [hform]
    generalize matchedCategories unicode_ToLower perfume pref = k at hk hle
    interval_cases k
    · rw [v0, f0]
    · rw [v1, f1]
    · exact absurd rfl hk
    · rw [v3, f3]
    · rw [v4, f4]
    · rw [v5, f5]
    · rw [v6, f6]
  · intro hascii
    rw [calculateProfileMatch64_lowerAromaNames Char.toLower unicode_ToLower citrusFreshPerfume
      citrusFreshPerfume _
      (lowerAromaNames_ascii unicode_ToLower hascii citrusFreshPerfume (by decide))]
    decide!

/-- C15 as stated fails at k = 2: with tags "Citrus" and "Spicy" and the flags
`light_fresh` and `warm_spicy` set, two categories match and the code returns
0.5 + 0.2 + 0.2 = 0.8999999999999999 (the rational 2026619832316723 / 2^51),
while the formula min(1.0, 0.5 + 0.2 * 2) is 0.9. -/
theorem profile_formula_counterexample :
    matchedCategories Char.toLower citrusSpicyPerfume
      { samplePreferences true false false with WarmSpicy := true } = 2 ∧
    calculateProfileMatch64 Char.toLower citrusSpicyPerfume
      { samplePreferences true false false with WarmSpicy := true } =
        2026619832316723 / 2251799813685248 ∧
    profileFormula64 2 = f64 0.9 ∧
    calculateProfileMatch64 Char.toLower citrusSpicyPerfume
      { samplePreferences true false false with WarmSpicy := true } ≠ profileFormula64 2 ∧
    calculateProfileMatch64 Char.toLower citrusSpicyPerfume
      { samplePreferences true false false with WarmSpicy := true } ≠
        min 1.0 (0.5 + 0.2 * 2) := by
  refine ⟨?_, ?_, ?_, ?_, ?_⟩ <;> decide!

/-- C22, amended: aroma-tag matching in `calculateProfileMatch` is whole-name
equality after `strings.ToLower`.  Two perfumes whose tag names have the same
`strings.ToLower` forms get the same profile score, and so do two perfumes
whose tag names differ only in the case of the letters A to Z, whatever other
characters the names hold.  The score is fixed by the number of categories
that count, and a category counts exactly when its flag is set and the
lower-cased name of a tag equals, as a whole, one of its keywords: a perfume
none of whose lower-cased tag names is a keyword scores the base 0.5 whatever
the flags, as the tag "Citrus Blossom" does with every flag set. -/
theorem profile_tag_matching64 (unicode_ToLower : Char → Char) (perfume perfume' : Perfume)
    (pref : QuizPreferences)
    (hcase : perfume'.AromaTags.map (fun aroma => strings_Map unicode_ToLower aroma.Name) =
      perfume.AromaTags.map (fun aroma => strings_Map unicode_ToLower aroma.Name)) :
    calculateProfileMatch64 unicode_ToLower perfume' pref =
      calculateProfileMatch64 unicode_ToLower perfume pref ∧
    (LowersAscii unicode_ToLower →
      ∀ other : Perfume,
        List.Forall₂ (fun a b => strings_ToLower a.Name = strings_ToLower b.Name)
          other.AromaTags perfume.AromaTags →
        calculateProfileMatch64 unicode_ToLower other pref =
          calculateProfileMatch64 unicode_ToLower perfume pref) ∧
    calculateProfileMatch64 unicode_ToLower perfume pref =
      min (profileSum (matchedCategories unicode_ToLower perfume pref)) (f64 1.0) ∧
    (∀ (flag : Bool) (keywords : List String),
      categoryCounts unicode_ToLower perfume flag keywords = 1 ↔
        (flag = true ∧
          ∃ aroma ∈ perfume.AromaTags,
            strings_Map unicode_ToLower aroma.Name ∈ keywords)) ∧
    ((∀ aroma ∈ perfume.AromaTags,
        strings_Map unicode_ToLower aroma.Name ∉ profileKeywords) →
      calculateProfileMatch64 unicode_ToLower perfume pref = f64 0.5) ∧
    (LowersAscii unicode_ToLower →
      calculateProfileMatch64 unicode_ToLower citrusBlossomPerfume allScentPreferences =
        f64 0.5) := by
  refine ⟨calculateProfileMatch64_lowerAromaNames unicode_ToLower unicode_ToLower perfume
      perfume' pref hcase, ?_,
    calculateProfileMatch64_eq_profileSum unicode_ToLower perfume pref,
    fun flag keywords => categoryCounts_iff unicode_ToLower perfume flag keywords, ?_, ?_⟩
  · intro hascii other hother
    exact calculateProfileMatch64_lowerAromaNames unicode_ToLower unicode_ToLower perfume
      other pref (lowerAromaNames_of_ascii_case unicode_ToLower hascii _ _ hother)
  · intro hnone
    rw [calculateProfileMatch64_eq_profileSum,
      matchedCategories_eq_zero unicode_ToLower perfume pref hnone]
    exact profileSum_values.1
  · intro hascii
    rw [calculateProfileMatch64_lowerAromaNames Char.toLower unicode_ToLower
      citrusBlossomPerfume citrusBlossomPerfume _
      (lowerAromaNames_ascii unicode_ToLower hascii citrusBlossomPerfume (by decide))]
    decide!

/-- Witness of the amended C22: with a `unicode.ToLower` that lower-cases
U+0130 to `i`, as Go does, the tag "C\u0130TRUS" scores like the tag "citrus";
the tags "CITRUS" and "fresh" score like "Citrus" and "Fresh". -/
theorem profile_tag_matching64_witness :
    (calculateProfileMatch64 lowerDottedI dottedCitrusPerfume
        (samplePreferences true false false) =
      calculateProfileMatch64 lowerDottedI citrusPerfume (samplePreferences true false false) ∧
    calculateProfileMatch64 lowerDottedI citrusPerfume (samplePreferences true false false) =
      f64 0.7) ∧
    calculateProfileMatch64 Char.toLower
        { citrusFreshPerfume with
          AromaTags := [{ ID := 1, Slug := "citrus", Name := "CITRUS" },
                        { ID := 2, Slug := "fresh", Name := "fresh" }] }
        (samplePreferences true false false) =
      calculateProfileMatch64 Char.toLower citrusFreshPerfume
        (samplePreferences true false false) :=
  ⟨⟨(profile_tag_matching64 lowerDottedI citrusPerfume dottedCitrusPerfume
      (samplePreferences true false false) (by decide)).1, by decide!⟩,
    (profile_tag_matching64 Char.toLower citrusFreshPerfume
      { citrusFreshPerfume with
        AromaTags := [{ ID := 1, Slug := "citrus", Name := "CITRUS" },
                      { ID := 2, Slug := "fresh", Name := "fresh" }] }
      (samplePreferences true false false) (by decide)).1⟩

/-! ## Range of the binary64 scores -/

/-- C22 as stated fails for a letter whose two cases `strings.ToLower` does not
bring together: the tag "c\u0131trus", written with the dotless i U+0131, stays
as it is under `strings.ToLower` and earns no bonus, while its upper-case form
"CITRUS" earns the `light_fresh` bonus.  On the characters of both names
`unicode.ToLower` is `Char.toLower`: it keeps U+0131 and the small letters and
lower-cases the capitals. -/
theorem dotless_i_counterexample :
    strings_Map upperDotlessI "c\u0131trus" = "CITRUS" ∧
    strings_Map Char.toLower "c\u0131trus" = "c\u0131trus" ∧
    calculateProfileMatch64 Char.toLower dotlessCitrusPerfume
      (samplePreferences true false false) = f64 0.5 ∧
    calculateProfileMatch64 Char.toLower
      { dotlessCitrusPerfume with
        AromaTags := [{ ID := 1, Slug := "citrus",
                        Name := strings_Map upperDotlessI "c\u0131trus" }] }
      (samplePreferences true false false) = f64 0.7 := by
  refine ⟨?_, ?_, ?_, ?_⟩ <;> decide!

/-- On a perfume whose brand, description and tag names hold only characters
below U+0080 the scores do not depend on the case tables. -/
theorem scoreSinglePerfume64_ascii (unicode_ToLower : Char → Char)
    (hascii : LowersAscii unicode_ToLower) (perfume : Perfume)
    (req : AdvancedRecommendationRequest) (personality : PersonalityAnalysis) (rank : Nat)
    (hbrand : ∀ c ∈ perfume.Brand.data, c.toNat < 128)
    (hdesc : ∀ c ∈ perfume.Description.data, c.toNat < 128)
    (htags : ∀ aroma ∈ perfume.AromaTags, ∀ c ∈ aroma.Name.data, c.toNat < 128) :
    scoreSinglePerfume64 unicode_ToLower perfume req personality rank =
      scoreSinglePerfume64 Char.toLower perfume req personality rank := by
  have hp := calculateProfileMatch64_lowerAromaNames Char.toLower unicode_ToLower perfume
    perfume req.QuizPreferences (lowerAromaNames_ascii unicode_ToLower hascii perfume htags)
  have hs := calculateSeasonMatch64_ascii unicode_ToLower hascii perfume req.Season hdesc
  have ho := calculateOccasionMatch64_ascii unicode_ToLower hascii perfume req.CurrentSituation
    req.QuizPreferences hbrand hdesc
  simp only [scoreSinglePerfume64, hp, hs, ho]

/-- The four values of the binary64 profile score. -/
theorem calculateProfileMatch64_values (unicode_ToLower : Char → Char) (perfume : Perfume)
    (pref : QuizPreferences) :
    calculateProfileMatch64 unicode_ToLower perfume pref ∈
      [f64 0.5, f64 0.7, f64 0.8999999999999999, 1] := by
  rw [calculateProfileMatch64_eq_profileSum]
  have hle := matchedCategories_le_six unicode_ToLower perfume pref
  obtain ⟨v0, v1, v2, v3, v4, v5, v6⟩ := profileSum_values
  generalize matchedCategories unicode_ToLower perfume pref = k at hle
  interval_cases k
  · rw [v0]; simp
  · rw [v1]; simp
  · rw [v2]; simp
  · rw [v3]; simp
  · rw [v4]; simp
  · rw [v5]; simp
  · rw [v6]; simp

/-- The two values of the binary64 season score. -/
theorem calculateSeasonMatch64_values (unicode_ToLower : Char → Char) (perfume : Perfume)
    (season : String) :
    calculateSeasonMatch64 unicode_ToLower perfume season ∈
      [f64 0.6, f64 0.8999999999999999] := by
  obtain ⟨hbonus, hbase⟩ := f64_base_plus_bonus
  simp only [calculateSeasonMatch64]
  split_ifs <;> first | (rw [hbonus]; simp) | (rw [hbase]; simp)

/-- The four values of the binary64 occasion score. -/
theorem calculateOccasionMatch64_values (unicode_ToLower : Char → Char) (perfume : Perfume)
    (occasion : String) (pref : QuizPreferences) :
    calculateOccasionMatch64 unicode_ToLower perfume occasion pref ∈
      [f64 0.6, f64 0.7, f64 0.8999999999999999, f64 0.9999999999999999] := by
  obtain ⟨hbonus, hbase⟩ := f64_base_plus_bonus
  have hboth : min (f64_add (f64_add (f64 0.6) (f64 0.3)) (f64 0.1)) (f64 1.0) =
    f64 0.9999999999999999 := by decide!
  have hclean : min (f64_add (f64 0.6) (f64 0.1)) (f64 1.0) = f64 0.7 := by decide!
  simp only [calculateOccasionMatch64]
  split_ifs <;>
    first | (rw [hboth]; simp) | (rw [hclean]; simp) | (rw [hbonus]; simp) | (rw [hbase]; simp)

/-- The four values of the binary64 performance score. -/
theorem calculatePerformanceMatch64_values (perfume : Perfume) (pref : QuizPreferences) :
    calculatePerformanceMatch64 perfume pref ∈ [f64 0.5, f64 0.7, f64 0.8, 1] := by
  have h0 : min (f64 0.5) (f64 1.0) = f64 0.5 := by decide!
  have h1 : min (f64_add (f64 0.5) (f64 0.3)) (f64 1.0) = f64 0.8 := by decide!
  have h2 : min (f64_add (f64 0.5) (f64 0.2)) (f64 1.0) = f64 0.7 := by decide!
  have h3 : min (f64_add (f64_add (f64 0.5) (f64 0.3)) (f64 0.2)) (f64 1.0) = 1 := by decide!
  simp only [calculatePerformanceMatch64]
  split_ifs <;>
    first | (rw [h3]; simp) | (rw [h2]; simp) | (rw [h1]; simp) | (rw [h0]; simp)

/-- The four values of the binary64 uniqueness bonus. -/
theorem calculateUniquenessBonus64_values (perfume : Perfume) (pref : QuizPreferences) :
    calculateUniquenessBonus64 perfume pref ∈ [f64 0.5, f64 0.6, f64 0.7, f64 0.8] := by
  simp only [calculateUniquenessBonus64]
  split_ifs <;> simp

/-- Every weighted sum of admissible sub-scores lies between 0.54 and 0.96. -/
theorem overallScore64_range :
    ∀ p ∈ [f64 0.5, f64 0.7, f64 0.8999999999999999, 1],
    ∀ s ∈ [f64 0.6, f64 0.8999999999999999],
    ∀ o ∈ [f64 0.6, f64 0.7, f64 0.8999999999999999, f64 0.9999999999999999],
    ∀ f ∈ [f64 0.5, f64 0.7, f64 0.8, 1],
    ∀ u ∈ [f64 0.5, f64 0.6, f64 0.7, f64 0.8],
      f64 0.54 ≤ overallScore64 p s o f u ∧ overallScore64 p s o f u ≤ f64 0.96 := by
  decide!

/-- C25, amended: the overall score of every scored candidate lies between
0.54 and 0.96, so it never reaches 1 and only the confidence can; 0.54 is
attained by a candidate on which no bonus applies, and 0.96 by one whose every
sub-score is at its largest value, which is 1.0, 0.8999999999999999,
0.9999999999999999, 1.0 and 0.8 (season and occasion fall one unit in the last
place short of 0.9 and 1.0), and whose confidence is capped at 1.0. -/
theorem overallScore64_tight_interval (unicode_ToLower : Char → Char) (perfume : Perfume)
    (req : AdvancedRecommendationRequest) (personality : PersonalityAnalysis) (rank : Nat) :
    (f64 0.54 ≤ (scoreSinglePerfume64 unicode_ToLower perfume req personality rank).OverallScore ∧
      (scoreSinglePerfume64 unicode_ToLower perfume req personality rank).OverallScore ≤
        f64 0.96) ∧
    (scoreSinglePerfume64 unicode_ToLower perfume req personality rank).OverallScore < 1 ∧
    ((scoreSinglePerfume64 unicode_ToLower perfume req personality rank).ProfileMatch ≤ 1 ∧
      (scoreSinglePerfume64 unicode_ToLower perfume req personality rank).SeasonMatch ≤
        f64 0.8999999999999999 ∧
      (scoreSinglePerfume64 unicode_ToLower perfume req personality rank).OccasionMatch ≤
        f64 0.9999999999999999 ∧
      (scoreSinglePerfume64 unicode_ToLower perfume req personality rank).PerformanceMatch ≤ 1 ∧
      (scoreSinglePerfume64 unicode_ToLower perfume req personality rank).UniquenessBonus ≤
        f64 0.8) ∧
    (LowersAscii unicode_ToLower →
      (scoreSinglePerfume64 unicode_ToLower plainPerfume plainRequest personality
        rank).OverallScore = f64 0.54 ∧
      (scoreSinglePerfume64 unicode_ToLower fullPerfume fullRequest personality
        rank).OverallScore = f64 0.96 ∧
      ((scoreSinglePerfume64 unicode_ToLower fullPerfume fullRequest personality
          rank).ProfileMatch = 1 ∧
        (scoreSinglePerfume64 unicode_ToLower fullPerfume fullRequest personality
          rank).SeasonMatch = f64 0.8999999999999999 ∧
        (scoreSinglePerfume64 unicode_ToLower fullPerfume fullRequest personality
          rank).OccasionMatch = f64 0.9999999999999999 ∧
        (scoreSinglePerfume64 unicode_ToLower fullPerfume fullRequest personality
          rank).PerformanceMatch = 1 ∧
        (scoreSinglePerfume64 unicode_ToLower fullPerfume fullRequest personality
          rank).UniquenessBonus = f64 0.8) ∧
      (scoreSinglePerfume64 unicode_ToLower fullPerfume fullRequest personality
        rank).Confidence = 1) := by
  have hp := calculateProfileMatch64_values unicode_ToLower perfume req.QuizPreferences
  have hs := calculateSeasonMatch64_values unicode_ToLower perfume req.Season
  have ho := calculateOccasionMatch64_values unicode_ToLower perfume req.CurrentSituation
    req.QuizPreferences
  have hf := calculatePerformanceMatch64_values perfume req.QuizPreferences
  have hu := calculateUniquenessBonus64_values perfume req.QuizPreferences
  have hb := overallScore64_range _ hp _ hs _ ho _ hf _ hu
  have h96 : f64 0.96 < 1 := by decide!
  have hpmax : ∀ p ∈ [f64 0.5, f64 0.7, f64 0.8999999999999999, 1], p ≤ (1 : ℚ) := by decide!
  have hsmax : ∀ s ∈ [f64 0.6, f64 0.8999999999999999], s ≤ f64 0.8999999999999999 := by
    decide!
  have homax : ∀ o ∈ [f64 0.6, f64 0.7, f64 0.8999999999999999, f64 0.9999999999999999],
      o ≤ f64 0.9999999999999999 := by decide!
  have hfmax : ∀ f ∈ [f64 0.5, f64 0.7, f64 0.8, 1], f ≤ (1 : ℚ) := by decide!
  have humax : ∀ u ∈ [f64 0.5, f64 0.6, f64 0.7, f64 0.8], u ≤ f64 0.8 := by decide!
  refine ⟨hb, lt_of_le_of_lt hb.2 h96,
    ⟨hpmax _ hp, hsmax _ hs, homax _ ho, hfmax _ hf, humax _ hu⟩, ?_⟩
  intro hascii
  rw [scoreSinglePerfume64_ascii unicode_ToLower hascii plainPerfume plainRequest personality
      rank (by decide) (by decide) (by decide),
    scoreSinglePerfume64_ascii unicode_ToLower hascii fullPerfume fullRequest personality
      rank (by decide) (by decide) (by decide)]
  simp only [scoreSinglePerfume64]
  refine ⟨?_, ?_, ⟨?_, ?_, ?_, ?_, ?_⟩, ?_⟩ <;> decide!

/-- C25 as stated fails in its last clause: on the candidate that earns every
bonus the overall score is 0.96, the largest there is, but the season score is
0.8999999999999999 and the occasion score 0.9999999999999999, not 0.9 and
1.0. -/
theorem maximal_sub_scores_counterexample :
    (scoreSinglePerfume64 Char.toLower fullPerfume fullRequest
      (analyzePersonality scentKeys fullRequest.QuizPreferences) 1).OverallScore = f64 0.96 ∧
    (scoreSinglePerfume64 Char.toLower fullPerfume fullRequest
      (analyzePersonality scentKeys fullRequest.QuizPreferences) 1).SeasonMatch =
        2026619832316723 / 2251799813685248 ∧
    (scoreSinglePerfume64 Char.toLower fullPerfume fullRequest
      (analyzePersonality scentKeys fullRequest.QuizPreferences) 1).SeasonMatch ≠ f64 0.9 ∧
    (scoreSinglePerfume64 Char.toLower fullPerfume fullRequest
      (analyzePersonality scentKeys fullRequest.QuizPreferences) 1).OccasionMatch =
        9007199254740991 / 9007199254740992 ∧
    (scoreSinglePerfume64 Char.toLower fullPerfume fullRequest
      (analyzePersonality scentKeys fullRequest.QuizPreferences) 1).OccasionMatch ≠ 1 := by
  refine ⟨?_, ?_, ?_, ?_, ?_⟩ <;> decide!

/-! ## Order among equal scores -/

theorem scorePerfumes64_eq_map (unicode_ToLower : Char → Char) (perfumes : List Perfume)
    (req : AdvancedRecommendationRequest) (personality : PersonalityAnalysis) :
    scorePerfumes64 unicode_ToLower perfumes req personality =
      perfumes.enum.map
        (fun ip => scoreSinglePerfume64 unicode_ToLower ip.2 req personality (ip.1 + 1)) := by
  unfold scorePerfumes64
  rw [foldl_append_map
    (fun ip : Nat × Perfume => scoreSinglePerfume64 unicode_ToLower ip.2 req personality (ip.1 + 1))]
  simp

/-- The candidates are scored in order, with ranks 1, 2, 3 and so on. -/
theorem scorePerfumes64_rank_increasing (unicode_ToLower : Char → Char)
    (perfumes : List Perfume) (req : AdvancedRecommendationRequest)
    (personality : PersonalityAnalysis) :
    (scorePerfumes64 unicode_ToLower perfumes req personality).Pairwise
      (fun a b => a.Rank < b.Rank) := by
  rw [scorePerfumes64_eq_map, List.pairwise_map]
  refine (enumFrom_pairwise_fst perfumes 0).imp ?_
  intro a b hab
  show a.1 + 1 < b.1 + 1
  omega

/-- The rank of a scored candidate is its position in the candidate list,
counted from 1. -/
theorem scorePerfumes64_rank_position (unicode_ToLower : Char → Char)
    (perfumes : List Perfume) (req : AdvancedRecommendationRequest)
    (personality : PersonalityAnalysis) (r : AdvancedRecommendationResult)
    (hr : r ∈ scorePerfumes64 unicode_ToLower perfumes req personality) :
    perfumes[r.Rank - 1]? = some r.Perfume := by
  rw [scorePerfumes64_eq_map, List.mem_map] at hr
  obtain ⟨ip, hip, rfl⟩ := hr
  obtain ⟨hlt, heq⟩ := List.mem_enum hip
  show perfumes[ip.1 + 1 - 1]? = some ip.2
  rw [Nat.add_sub_cancel, heq]
  exact List.getElem?_eq_getElem hlt

/-- What the ranking step returns is an initial part of the sorted scores. -/
theorem rankCandidates64_ret
    (sortSlice : (AdvancedRecommendationResult → AdvancedRecommendationResult → Bool) →
      List AdvancedRecommendationResult → List AdvancedRecommendationResult)
    (unicode_ToLower : Char → Char) (perfumes : List Perfume)
    (req : AdvancedRecommendationRequest) (personality : PersonalityAnalysis)
    (results : List AdvancedRecommendationResult)
    (h : rankCandidates64 sortSlice unicode_ToLower perfumes req personality = .ret results) :
    results.Sublist
      (sortSlice lessByScore (scorePerfumes64 unicode_ToLower perfumes req personality)) := by
  unfold rankCandidates64 at h
  simp only [] at h
  split_ifs at h with hlen
  · unfold sliceTo at h
    split_ifs at h with hneg
    injection h with h
    rw [← h]
    exact List.take_sublist _ _
  · injection h with h
    rw [← h]

/-- With a non-negative `MaxResults` the ranking step returns the first
`MaxResults` sorted scores. -/
theorem rankCandidates64_nonneg
    (sortSlice : (AdvancedRecommendationResult → AdvancedRecommendationResult → Bool) →
      List AdvancedRecommendationResult → List AdvancedRecommendationResult)
    (unicode_ToLower : Char → Char) (perfumes : List Perfume)
    (req : AdvancedRecommendationRequest) (personality : PersonalityAnalysis)
    (hnonneg : 0 ≤ req.MaxResults) :
    rankCandidates64 sortSlice unicode_ToLower perfumes req personality =
      .ret ((sortSlice lessByScore
        (scorePerfumes64 unicode_ToLower perfumes req personality)).take
          req.MaxResults.toNat) := by
  unfold rankCandidates64
  simp only []
  by_cases hlen : ((sortSlice lessByScore
      (scorePerfumes64 unicode_ToLower perfumes req personality)).length : Int) > req.MaxResults
  · have hn : ¬ req.MaxResults < 0 := by omega
    simp only [hlen, if_true, sliceTo, hn, if_false]
  · have htake : (sortSlice lessByScore
        (scorePerfumes64 unicode_ToLower perfumes req personality)).take req.MaxResults.toNat =
        sortSlice lessByScore (scorePerfumes64 unicode_ToLower perfumes req personality) := by
      apply List.take_of_length_le
      omega
    simp only [hlen, if_false, htake]

/-- Insertion sort meets the contract of `sort.SliceStable`. -/
theorem insertionSortSlice_stableContract {α : Type} :
    SortSliceStableContract (insertionSortSlice : (α → α → Bool) → List α → List α) :=
  fun less data T hasymm hneg hdata =>
    ⟨insertionSortSlice_perm less data,
      insertionSortSlice_stable less T hasymm hneg data hdata⟩

/-- Insertion sort of the reversed slice meets the contract of `sort.Slice`. -/
theorem reverseInsertionSort_contract {α : Type} :
    SortSliceContract (reverseInsertionSort : (α → α → Bool) → List α → List α) := by
  intro less data hasymm hneg
  obtain ⟨hperm, hsorted⟩ := insertionSortSlice_contract less data.reverse hasymm hneg
  exact ⟨hperm.trans (List.reverse_perm data), hsorted⟩

/-- C8, amended: the results are in non-increasing order of OverallScore and
each one is the scored candidate at the position its rank names; two
candidates with identical OverallScore appear in the same relative order they
had in the candidate list before sorting whenever the sort routine keeps equal
elements in their original order.  That is the contract of `sort.SliceStable`;
the contract of `sort.Slice`, which the code calls, does not give it. -/
theorem ties_keep_order_for_stable_sort
    (sortSlice : (AdvancedRecommendationResult → AdvancedRecommendationResult → Bool) →
      List AdvancedRecommendationResult → List AdvancedRecommendationResult)
    (unicode_ToLower : Char → Char) (perfumes : List Perfume)
    (req : AdvancedRecommendationRequest) (personality : PersonalityAnalysis)
    (results : List AdvancedRecommendationResult)
    (hcontract : SortSliceContract sortSlice)
    (h : rankCandidates64 sortSlice unicode_ToLower perfumes req personality = .ret results) :
    results.Pairwise (fun a b => a.OverallScore ≥ b.OverallScore) ∧
    (∀ r ∈ results, perfumes[r.Rank - 1]? = some r.Perfume) ∧
    (SortSliceStableContract sortSlice → rankingStable results) := by
  have hsub := rankCandidates64_ret sortSlice unicode_ToLower perfumes req personality results h
  obtain ⟨hperm, hsorted⟩ := hcontract lessByScore
    (scorePerfumes64 unicode_ToLower perfumes req personality) lessByScore_asymm
    lessByScore_negTrans
  refine ⟨?_, ?_, ?_⟩
  · refine (hsorted.sublist hsub).imp ?_
    intro a b hab
    simp only [lessByScore, decide_eq_false_iff_not, not_lt, gt_iff_lt] at hab
    exact hab
  · intro r hr
    exact scorePerfumes64_rank_position unicode_ToLower perfumes req personality r
      (hperm.mem_iff.mp (hsub.subset hr))
  · intro hstable
    obtain ⟨-, hst⟩ := hstable lessByScore
      (scorePerfumes64 unicode_ToLower perfumes req personality) (fun a b => a.Rank < b.Rank)
      lessByScore_asymm lessByScore_negTrans
      (scorePerfumes64_rank_increasing unicode_ToLower perfumes req personality)
    unfold rankingStable
    refine (hst.sublist hsub).imp ?_
    intro a b hab heq
    apply hab.2
    simp only [lessByScore, heq, gt_iff_lt, lt_self_iff_false, decide_False]

/-- Witness of the amended C8: insertion sort meets both contracts, and with it
the thirteen candidates of `tieCatalog` come out with the twelve tied ones in
their original order. -/
theorem ties_keep_order_for_stable_sort_witness :
    SortSliceContract (insertionSortSlice :
      (AdvancedRecommendationResult → AdvancedRecommendationResult → Bool) →
        List AdvancedRecommendationResult → List AdvancedRecommendationResult) ∧
    SortSliceStableContract (insertionSortSlice :
      (AdvancedRecommendationResult → AdvancedRecommendationResult → Bool) →
        List AdvancedRecommendationResult → List AdvancedRecommendationResult) ∧
    ∃ results,
      rankCandidates64 insertionSortSlice Char.toLower tieCatalog tieRequest
        (analyzePersonality scentKeys tieRequest.QuizPreferences) = .ret results ∧
      results.map (fun r => r.Rank) = [13, 1, 2, 3, 4, 5] ∧
      results.Pairwise (fun a b => a.OverallScore ≥ b.OverallScore) ∧
      (∀ r ∈ results, tieCatalog[r.Rank - 1]? = some r.Perfume) ∧
      rankingStable results := by
  have hret := rankCandidates64_nonneg insertionSortSlice Char.toLower tieCatalog tieRequest
    (analyzePersonality scentKeys tieRequest.QuizPreferences) (by decide)
  have hthm := ties_keep_order_for_stable_sort insertionSortSlice Char.toLower tieCatalog
    tieRequest (analyzePersonality scentKeys tieRequest.QuizPreferences) _
    insertionSortSlice_contract hret
  exact ⟨insertionSortSlice_contract, insertionSortSlice_stableContract, _, hret, by decide!,
    hthm.1, hthm.2.1, hthm.2.2 insertionSortSlice_stableContract⟩

/-- C8 as stated fails: on a catalog of thirteen perfumes, twelve of which tie
at 0.6300000000000001, the `sort.Slice` of Go 1.19 and later returns the
candidate ranked 7 ahead of the candidates ranked 3 to 6; and the contract of
`sort.Slice` does not even fix the order of two tied candidates, since a
routine that meets it returns the candidate ranked 2 ahead of the candidate
ranked 1. -/
theorem ranking_not_stable_counterexample :
    (∃ results,
      rankCandidates64 sort_Slice Char.toLower tieCatalog tieRequest
        (analyzePersonality scentKeys tieRequest.QuizPreferences) = .ret results ∧
      results.map (fun r => r.Rank) = [13, 7, 3, 4, 5, 6] ∧
      results.map (fun r => r.OverallScore) =
        [f64 0.65, f64 0.6300000000000001, f64 0.6300000000000001, f64 0.6300000000000001,
          f64 0.6300000000000001, f64 0.6300000000000001] ∧
      ¬ rankingStable results) ∧
    SortSliceContract (reverseInsertionSort :
      (AdvancedRecommendationResult → AdvancedRecommendationResult → Bool) →
        List AdvancedRecommendationResult → List AdvancedRecommendationResult) ∧
    (∃ results,
      rankCandidates64 reverseInsertionSort Char.toLower (tieCatalog.take 2) tieRequest
        (analyzePersonality scentKeys tieRequest.QuizPreferences) = .ret results ∧
      results.map (fun r => r.Rank) = [2, 1] ∧
      results.map (fun r => r.OverallScore) =
        [f64 0.6300000000000001, f64 0.6300000000000001] ∧
      ¬ rankingStable results) :=
  ⟨⟨_, rankCandidates64_nonneg sort_Slice Char.toLower tieCatalog tieRequest
      (analyzePersonality scentKeys tieRequest.QuizPreferences) (by decide),
    by decide!, by decide!, by unfold rankingStable; decide!⟩,
   reverseInsertionSort_contract,
   ⟨_, rankCandidates64_nonneg reverseInsertionSort Char.toLower (tieCatalog.take 2) tieRequest
      (analyzePersonality scentKeys tieRequest.QuizPreferences) (by decide),
    by decide!, by decide!, by unfold rankingStable; decide!⟩⟩

end Quiz
